import Mathlib

/-!
# Modulo-3: order and coupon services

A shallow embedding of the rule layer of the repository
(`src/application/use-cases/order.service.js`, `cupon.service.js`) and of the
two Mongo persistence adapters, followed by theorems about them.

The services are JavaScript, so the embedding starts with the fragment of the
language they rely on: primitive values, `ToNumber`, `ToBoolean`, the
relational operators, `||`, the arithmetic operators and `Date`.

Conventions of the model:

* A number is an exact rational, or `NaN`, or one of the two infinities.
  The rounding of IEEE-754 doubles is not modelled, and `-0` is identified
  with `0` (the services never divide by a variable).
* A request body is a JSON object whose fields are primitive values; a field
  that is absent reads as `undefined`. Nested objects and arrays are outside
  the model.
* The clock and the host's date parser are inputs (`Host`).
-/

namespace Modulo3

/-! ## Numbers -/

/-- A JavaScript number in exact arithmetic: `NaN`, an infinity
(`inf true` is `-Infinity`), or a finite rational. -/
inductive JsNum where
  | nan
  | inf (neg : Bool)
  | fin (q : ℚ)
  deriving DecidableEq

namespace JsNum

/-- The operator `*` on numbers. -/
def mul : JsNum → JsNum → JsNum
  | nan, _ => nan
  | _, nan => nan
  | fin a, fin b => fin (a * b)
  | inf s, inf t => inf (xor s t)
  | inf s, fin b => if b = 0 then nan else inf (xor s (decide (b < 0)))
  | fin a, inf t => if a = 0 then nan else inf (xor (decide (a < 0)) t)

/-- The operator `-` on numbers. -/
def sub : JsNum → JsNum → JsNum
  | nan, _ => nan
  | _, nan => nan
  | fin a, fin b => fin (a - b)
  | inf s, fin _ => inf s
  | fin _, inf t => inf (!t)
  | inf s, inf t => if s = t then nan else inf s

/-- The operator `+` on numbers. -/
def add : JsNum → JsNum → JsNum
  | nan, _ => nan
  | _, nan => nan
  | fin a, fin b => fin (a + b)
  | inf s, fin _ => inf s
  | fin _, inf t => inf t
  | inf s, inf t => if s = t then inf s else nan

/-- The expression `x / 100`: division by the positive literal `100`. -/
def div100 : JsNum → JsNum
  | nan => nan
  | inf s => inf s
  | fin a => fin (a / 100)

/-- The comparison `a < b` on numbers; `false` when either side is `NaN`. -/
def lt : JsNum → JsNum → Bool
  | fin a, fin b => decide (a < b)
  | inf true, fin _ => true
  | inf true, inf false => true
  | fin _, inf false => true
  | _, _ => false

/-- The comparison `a <= b` on numbers: `!(b < a)`, except that it is
`false` when either side is `NaN`. -/
def le : JsNum → JsNum → Bool
  | nan, _ => false
  | _, nan => false
  | a, b => !(lt b a)

end JsNum

/-! ## Strings as numbers -/

/-- The characters `StringToNumber` strips from both ends: the ECMAScript
`WhiteSpace` and `LineTerminator` code points. -/
def isStrWhiteSpace (c : Char) : Bool :=
  c.toNat ∈ [0x9, 0xA, 0xB, 0xC, 0xD, 0x20, 0xA0, 0x1680, 0x2028, 0x2029,
    0x202F, 0x205F, 0x3000, 0xFEFF] || (0x2000 ≤ c.toNat && c.toNat ≤ 0x200A)

/-- A list of characters without its leading and trailing white space. -/
def trimChars (cs : List Char) : List Char :=
  ((cs.dropWhile isStrWhiteSpace).reverse.dropWhile isStrWhiteSpace).reverse

/-- The method `String.prototype.trim`. -/
def jsTrim (s : String) : String := String.mk (trimChars s.toList)

/-- The value of a digit in the given radix, if it is one. -/
def digitValue (radix : Nat) (c : Char) : Option Nat :=
  let v :=
    if c.isDigit then c.toNat - 48
    else if 97 ≤ c.toNat && c.toNat ≤ 102 then c.toNat - 87
    else if 65 ≤ c.toNat && c.toNat ≤ 70 then c.toNat - 55
    else radix
  if v < radix then some v else none

/-- The value of a non-empty run of digits in the given radix. -/
def digitsValue (radix : Nat) (cs : List Char) : Option Nat :=
  if cs.isEmpty then none
  else cs.foldl (fun acc c => do
    let a ← acc
    let v ← digitValue radix c
    pure (a * radix + v)) (some 0)

/-- The grammar `ExponentPart` (optional): `e` or `E`, an optional sign, digits. -/
def exponentPart : List Char → Option Int
  | [] => some 0
  | c :: rest =>
    if c = 'e' || c = 'E' then
      match rest with
      | '+' :: ds => (digitsValue 10 ds).map Int.ofNat
      | '-' :: ds => (digitsValue 10 ds).map fun n => - Int.ofNat n
      | ds => (digitsValue 10 ds).map Int.ofNat
    else none

/-- The grammar `StrUnsignedDecimalLiteral` without `Infinity`:
`digits . digits? exp?`, `. digits exp?` or `digits exp?`. -/
def unsignedDecimal (cs : List Char) : Option ℚ :=
  let (ip, r1) := cs.span Char.isDigit
  let (fp, r2) :=
    match r1 with
    | '.' :: t => t.span Char.isDigit
    | _ => ([], r1)
  if ip.isEmpty && fp.isEmpty then none
  else do
    let e ← exponentPart r2
    let i := (digitsValue 10 ip).getD 0
    let f := (digitsValue 10 fp).getD 0
    pure (((i : ℚ) + (f : ℚ) / (10 : ℚ) ^ fp.length) * (10 : ℚ) ^ e)

/-- The grammar `StrNumericLiteral` on a trimmed, non-empty string. -/
def strNumericLiteral : List Char → JsNum
  | '0' :: 'x' :: ds | '0' :: 'X' :: ds =>
    match digitsValue 16 ds with
    | some n => .fin n
    | none => .nan
  | '0' :: 'o' :: ds | '0' :: 'O' :: ds =>
    match digitsValue 8 ds with
    | some n => .fin n
    | none => .nan
  | '0' :: 'b' :: ds | '0' :: 'B' :: ds =>
    match digitsValue 2 ds with
    | some n => .fin n
    | none => .nan
  | cs =>
    let (neg, body) :=
      match cs with
      | '+' :: t => (false, t)
      | '-' :: t => (true, t)
      | t => (false, t)
    if body = "Infinity".toList then .inf neg
    else
      match unsignedDecimal body with
      | some q => .fin (if neg then -q else q)
      | none => .nan

/-- The abstract operation `StringToNumber`: trim, the empty string is `0`,
otherwise the numeric literal or `NaN`. -/
def stringToNumber (s : String) : JsNum :=
  let cs := trimChars s.toList
  if cs.isEmpty then .fin 0 else strNumericLiteral cs

/-- The UTF-16 code units of a string, which is what `<` compares two
strings by. -/
def utf16Units (s : String) : List Nat :=
  s.toList.flatMap fun c =>
    if c.toNat < 0x10000 then [c.toNat]
    else [0xD800 + (c.toNat - 0x10000) / 0x400, 0xDC00 + (c.toNat - 0x10000) % 0x400]

/-- The comparison `a < b` on two strings. -/
def strLt (a b : String) : Bool :=
  decide (utf16Units a < utf16Units b)

/-! ## Values -/

/-- A primitive JavaScript value, as a JSON request body or an entity field
holds it. A field that is absent reads as `undefined`. -/
inductive JsVal where
  | undefined
  | null
  | bool (b : Bool)
  | num (n : JsNum)
  | str (s : String)
  deriving DecidableEq

namespace JsVal

/-- The abstract operation `ToNumber`. -/
def toNumber : JsVal → JsNum
  | undefined => .nan
  | null => .fin 0
  | bool b => .fin (if b then 1 else 0)
  | num n => n
  | str s => stringToNumber s

/-- The abstract operation `ToBoolean` (truthiness). -/
def toBoolean : JsVal → Bool
  | undefined => false
  | null => false
  | bool b => b
  | num .nan => false
  | num (.inf _) => true
  | num (.fin q) => decide (q ≠ 0)
  | str s => decide (s ≠ "")

/-- The operator `a < b`: two strings compare by code units, anything else
as numbers. -/
def lt : JsVal → JsVal → Bool
  | str a, str b => strLt a b
  | a, b => JsNum.lt a.toNumber b.toNumber

/-- The operator `a <= b`. -/
def le : JsVal → JsVal → Bool
  | str a, str b => !(strLt b a)
  | a, b => JsNum.le a.toNumber b.toNumber

/-- The operator `a > b`. -/
def gt (a b : JsVal) : Bool := lt b a

/-- The operator `a >= b`. -/
def ge (a b : JsVal) : Bool := le b a

/-- The operator `a || b`. -/
def or (a b : JsVal) : JsVal := if a.toBoolean then a else b

/-- The expression `a + 1`: concatenation when `a` is a string, numeric
addition otherwise. -/
def addOne : JsVal → JsVal
  | str s => str (s ++ "1")
  | a => num (JsNum.add a.toNumber (.fin 1))

/-- A numeric literal of the source. -/
def lit (q : ℚ) : JsVal := num (.fin q)

end JsVal

/-! ## Dates and the host -/

/-- A `Date` object: its time value in milliseconds since the epoch, or
`none` for an invalid date. -/
structure JsDate where
  time : Option Int
  deriving DecidableEq

/-- What the services read from the host at a call: the clock, the local
midnight that `setHours(0, 0, 0, 0)` moves the clock back to, the host's
`Date.parse` (`none` is `NaN`) and `String.prototype.toUpperCase`. -/
structure Host where
  now : Int
  hoy : Int
  parseDate : String → Option Int
  toUpperCase : String → String

/-- The abstract operation `TimeClip` after `ToNumber`: a finite number of
at most 8.64e15 in absolute value, truncated towards zero. -/
def timeClip : JsNum → Option Int
  | .fin q => if |q| ≤ 8640000000000000 then some (q.num.tdiv q.den) else none
  | _ => none

/-- The expression `new Date(v)` for a primitive `v`: a string is parsed,
anything else is converted to a number of milliseconds. -/
def newDate (h : Host) : JsVal → JsDate
  | .str s => ⟨h.parseDate s⟩
  | v => ⟨timeClip v.toNumber⟩

/-- The operator `a < b` on two dates: their time values as numbers, so
`false` when either date is invalid. -/
def JsDate.lt (a b : JsDate) : Bool :=
  match a.time, b.time with
  | some x, some y => decide (x < y)
  | _, _ => false

/-- The value of `hoy` after `const hoy = new Date(); hoy.setHours(0, 0, 0, 0)`. -/
def Host.hoyDate (h : Host) : JsDate := ⟨some h.hoy⟩

/-- The value of `new Date()`. -/
def Host.nowDate (h : Host) : JsDate := ⟨some h.now⟩

/-! ## Entities (`src/domain/entities`) -/

/-- The entity `Order` (`order.entity.js`). -/
structure Order where
  id : JsVal
  producto : JsVal
  descripcion : JsVal
  cantidad : JsVal
  precio : JsVal
  descuento : JsVal
  total : JsVal
  cliente : JsVal
  estado : JsVal
  fechaEntrega : JsDate
  deriving DecidableEq

/-- The entity `Cupon` (`cupon.entity.js`). -/
structure Cupon where
  id : JsVal
  codigo : JsVal
  descuento : JsVal
  fechaExpiracion : JsDate
  activo : JsVal
  usoMaximo : JsVal
  usoActual : JsVal
  deriving DecidableEq

/-- The body of a create or update request for an order (`orderData`). -/
structure OrderData where
  producto : JsVal := .undefined
  descripcion : JsVal := .undefined
  cantidad : JsVal := .undefined
  precio : JsVal := .undefined
  descuento : JsVal := .undefined
  cliente : JsVal := .undefined
  estado : JsVal := .undefined
  fechaEntrega : JsVal := .undefined

/-- The body of a create or update request for a coupon (`cuponData`). -/
structure CuponData where
  codigo : JsVal := .undefined
  descuento : JsVal := .undefined
  fechaExpiracion : JsVal := .undefined
  activo : JsVal := .undefined
  usoMaximo : JsVal := .undefined
  usoActual : JsVal := .undefined

/-! ## Failures -/

/-- What a service call throws. `NotFoundError`, `ConflictError` and
`BadRequestError` are the classes of `src/domain/errors`; `generic` is a
plain `Error`; `thrown` is whatever the persistence layer raises. The
conflict message is the template
"Cupon with codigo (codigo) already exists", kept as its argument. -/
inductive ServiceError where
  | notFound (msg : String)
  | conflict (codigo : JsVal)
  | badRequest (msg : String)
  | generic (msg : String)
  | thrown (msg : String)
  deriving DecidableEq

/-- The outcome of an asynchronous call against a store `σ`: the value it
resolves to or the failure it rejects with, and the store afterwards. -/
abbrev Outcome (σ α : Type) := Except ServiceError α × σ

/-! ## Repository contracts -/

/-- The contract the order service is written against
(`order.repository.interface`). -/
structure OrderRepository (σ : Type) where
  getAll : σ → Outcome σ (List Order)
  getById : JsVal → σ → Outcome σ (Option Order)
  getByEstado : JsVal → σ → Outcome σ (List Order)
  create : Order → σ → Outcome σ Order
  update : JsVal → Order → σ → Outcome σ (Option Order)
  delete : JsVal → σ → Outcome σ Unit

/-- The contract the coupon service is written against
(`cupon.repository.interface`). -/
structure CuponRepository (σ : Type) where
  getAll : σ → Outcome σ (List Cupon)
  getById : JsVal → σ → Outcome σ (Option Cupon)
  getByCodigo : JsVal → σ → Outcome σ (Option Cupon)
  getActivos : σ → Outcome σ (List Cupon)
  create : Cupon → σ → Outcome σ Cupon
  update : JsVal → Cupon → σ → Outcome σ (Option Cupon)
  delete : JsVal → σ → Outcome σ Unit

/-! ## `OrderService` (`src/application/use-cases/order.service.js`)

Every method takes the repository it was constructed with, its arguments and
the store, and returns what it resolves to or rejects with, and the store
afterwards. An `await` on a repository call that rejects rejects the method. -/

namespace OrderService

variable {σ : Type}

/-- The array `estadosValidos` of `getOrdersByEstado`. -/
def estadosValidos : List String :=
  ["pendiente", "procesando", "enviado", "entregado", "cancelado"]

/-- The method `getAllOrders`. -/
def getAllOrders (repo : OrderRepository σ) (s : σ) : Outcome σ (List Order) :=
  repo.getAll s

/-- The method `getOrderById`. -/
def getOrderById (repo : OrderRepository σ) (id : String) (s : σ) : Outcome σ Order :=
  match repo.getById (.str id) s with
  | (.error e, s1) => (.error e, s1)
  | (.ok none, s1) => (.error (.notFound ("Order with id " ++ id ++ " not found")), s1)
  | (.ok (some order), s1) => (.ok order, s1)

/-- The method `getOrdersByEstado`. -/
def getOrdersByEstado (repo : OrderRepository σ) (estado : String) (s : σ) :
    Outcome σ (List Order) :=
  if !estadosValidos.contains estado then
    (.error (.generic ("Estado inválido. Debe ser uno de: " ++ ", ".intercalate estadosValidos)), s)
  else repo.getByEstado (.str estado) s

/-- The method `createOrder`. -/
def createOrder (repo : OrderRepository σ) (h : Host) (orderData : OrderData) (s : σ) :
    Outcome σ Order :=
  if orderData.cantidad.le (.lit 0) then
    (.error (.generic "La cantidad debe ser mayor a 0"), s)
  else if orderData.precio.le (.lit 0) then
    (.error (.generic "El precio debe ser mayor a 0"), s)
  else if orderData.descuento.lt (.lit 0) || orderData.descuento.gt (.lit 100) then
    (.error (.generic "El descuento debe estar entre 0 y 100"), s)
  else
    let subtotal := orderData.precio.toNumber.mul orderData.cantidad.toNumber
    let descuentoAmount := subtotal.mul orderData.descuento.toNumber.div100
    let total := subtotal.sub descuentoAmount
    let fechaEntrega := newDate h orderData.fechaEntrega
    let hoy := h.hoyDate
    if fechaEntrega.lt hoy then
      (.error (.generic "La fecha de entrega no puede ser en el pasado"), s)
    else
      let orderEntity : Order :=
        { id := .null
          producto := orderData.producto
          descripcion := orderData.descripcion
          cantidad := orderData.cantidad
          precio := orderData.precio
          descuento := orderData.descuento.or (.lit 0)
          total := .num total
          cliente := orderData.cliente
          estado := orderData.estado.or (.str "pendiente")
          fechaEntrega := fechaEntrega }
      repo.create orderEntity s

/-- The method `updateOrder`. -/
def updateOrder (repo : OrderRepository σ) (h : Host) (id : String) (orderData : OrderData)
    (s : σ) : Outcome σ (Option Order) :=
  match repo.getById (.str id) s with
  | (.error e, s1) => (.error e, s1)
  | (.ok none, s1) => (.error (.notFound ("Order with id " ++ id ++ " not found")), s1)
  | (.ok (some existingOrder), s1) =>
    if orderData.cantidad.toBoolean && orderData.cantidad.le (.lit 0) then
      (.error (.generic "La cantidad debe ser mayor a 0"), s1)
    else if orderData.precio.toBoolean && orderData.precio.le (.lit 0) then
      (.error (.generic "El precio debe ser mayor a 0"), s1)
    else if decide (orderData.descuento ≠ .undefined) &&
        (orderData.descuento.lt (.lit 0) || orderData.descuento.gt (.lit 100)) then
      (.error (.generic "El descuento debe estar entre 0 y 100"), s1)
    else if orderData.fechaEntrega.toBoolean &&
        (newDate h orderData.fechaEntrega).lt h.hoyDate then
      (.error (.generic "La fecha de entrega no puede ser en el pasado"), s1)
    else
      let cantidad := orderData.cantidad.or existingOrder.cantidad
      let precio := orderData.precio.or existingOrder.precio
      let descuento :=
        if orderData.descuento ≠ .undefined then orderData.descuento else existingOrder.descuento
      let subtotal := precio.toNumber.mul cantidad.toNumber
      let descuentoAmount := subtotal.mul descuento.toNumber.div100
      let total := subtotal.sub descuentoAmount
      let orderEntity : Order :=
        { id := .str id
          producto := orderData.producto.or existingOrder.producto
          descripcion := orderData.descripcion.or existingOrder.descripcion
          cantidad := cantidad
          precio := precio
          descuento := descuento
          total := .num total
          cliente := orderData.cliente.or existingOrder.cliente
          estado := orderData.estado.or existingOrder.estado
          fechaEntrega :=
            if orderData.fechaEntrega.toBoolean then newDate h orderData.fechaEntrega
            else existingOrder.fechaEntrega }
      repo.update (.str id) orderEntity s1

/-- The method `deleteOrder`. -/
def deleteOrder (repo : OrderRepository σ) (id : String) (s : σ) : Outcome σ Unit :=
  match repo.getById (.str id) s with
  | (.error e, s1) => (.error e, s1)
  | (.ok none, s1) => (.error (.notFound ("Order with id " ++ id ++ " not found")), s1)
  | (.ok (some _), s1) => repo.delete (.str id) s1

/-- The method `cancelOrder`. -/
def cancelOrder (repo : OrderRepository σ) (id : String) (s : σ) : Outcome σ (Option Order) :=
  match repo.getById (.str id) s with
  | (.error e, s1) => (.error e, s1)
  | (.ok none, s1) => (.error (.notFound ("Order with id " ++ id ++ " not found")), s1)
  | (.ok (some order), s1) =>
    if order.estado = .str "entregado" then
      (.error (.generic "No se puede cancelar una orden que ya fue entregada"), s1)
    else if order.estado = .str "cancelado" then
      (.error (.generic "Esta orden ya está cancelada"), s1)
    else
      let orderEntity : Order :=
        { id := .str id
          producto := order.producto
          descripcion := order.descripcion
          cantidad := order.cantidad
          precio := order.precio
          descuento := order.descuento
          total := order.total
          cliente := order.cliente
          estado := .str "cancelado"
          fechaEntrega := order.fechaEntrega }
      repo.update (.str id) orderEntity s1

end OrderService

/-! ## `CuponService` (`src/application/use-cases/cupon.service.js`) -/

namespace CuponService

variable {σ : Type}

/-- The method `getAllCupons`. -/
def getAllCupons (repo : CuponRepository σ) (s : σ) : Outcome σ (List Cupon) :=
  repo.getAll s

/-- The method `getCuponById`. -/
def getCuponById (repo : CuponRepository σ) (id : String) (s : σ) : Outcome σ Cupon :=
  match repo.getById (.str id) s with
  | (.error e, s1) => (.error e, s1)
  | (.ok none, s1) => (.error (.notFound ("Cupon with id " ++ id ++ " not found")), s1)
  | (.ok (some cupon), s1) => (.ok cupon, s1)

/-- The method `getCuponByCodigo`. -/
def getCuponByCodigo (repo : CuponRepository σ) (codigo : String) (s : σ) : Outcome σ Cupon :=
  match repo.getByCodigo (.str codigo) s with
  | (.error e, s1) => (.error e, s1)
  | (.ok none, s1) => (.error (.notFound ("Cupon with codigo " ++ codigo ++ " not found")), s1)
  | (.ok (some cupon), s1) => (.ok cupon, s1)

/-- The method `getActiveCupons`. -/
def getActiveCupons (repo : CuponRepository σ) (s : σ) : Outcome σ (List Cupon) :=
  repo.getActivos s

/-- The method `createCupon`. -/
def createCupon (repo : CuponRepository σ) (h : Host) (cuponData : CuponData) (s : σ) :
    Outcome σ Cupon :=
  if cuponData.descuento.lt (.lit 0) || cuponData.descuento.gt (.lit 100) then
    (.error (.badRequest "Discount must be between 0 and 100"), s)
  else if cuponData.usoMaximo.le (.lit 0) then
    (.error (.badRequest "usoMaximo must be greater than 0"), s)
  else
    let fechaExpiracion := newDate h cuponData.fechaExpiracion
    let hoy := h.hoyDate
    if fechaExpiracion.lt hoy then
      (.error (.badRequest "Expiration date cannot be in the past"), s)
    else
      match repo.getByCodigo cuponData.codigo s with
      | (.error e, s1) => (.error e, s1)
      | (.ok (some _), s1) => (.error (.conflict cuponData.codigo), s1)
      | (.ok none, s1) =>
        let cuponEntity : Cupon :=
          { id := .null
            codigo := cuponData.codigo
            descuento := cuponData.descuento
            fechaExpiracion := fechaExpiracion
            activo := if cuponData.activo ≠ .undefined then cuponData.activo else .bool true
            usoMaximo := cuponData.usoMaximo
            usoActual := .lit 0 }
        repo.create cuponEntity s1

/-- The method `updateCupon`. -/
def updateCupon (repo : CuponRepository σ) (h : Host) (id : String) (cuponData : CuponData)
    (s : σ) : Outcome σ (Option Cupon) :=
  match repo.getById (.str id) s with
  | (.error e, s1) => (.error e, s1)
  | (.ok none, s1) => (.error (.notFound ("Cupon with id " ++ id ++ " not found")), s1)
  | (.ok (some existingCupon), s1) =>
    if decide (cuponData.descuento ≠ .undefined) &&
        (cuponData.descuento.lt (.lit 0) || cuponData.descuento.gt (.lit 100)) then
      (.error (.badRequest "Discount must be between 0 and 100"), s1)
    else if decide (cuponData.usoMaximo ≠ .undefined) && cuponData.usoMaximo.le (.lit 0) then
      (.error (.badRequest "usoMaximo must be greater than 0"), s1)
    else if cuponData.fechaExpiracion.toBoolean &&
        (newDate h cuponData.fechaExpiracion).lt h.hoyDate then
      (.error (.badRequest "Expiration date cannot be in the past"), s1)
    else
      let cuponEntity : Cupon :=
        { id := .str id
          codigo := cuponData.codigo.or existingCupon.codigo
          descuento :=
            if cuponData.descuento ≠ .undefined then cuponData.descuento
            else existingCupon.descuento
          fechaExpiracion :=
            if cuponData.fechaExpiracion.toBoolean then newDate h cuponData.fechaExpiracion
            else existingCupon.fechaExpiracion
          activo :=
            if cuponData.activo ≠ .undefined then cuponData.activo else existingCupon.activo
          usoMaximo :=
            if cuponData.usoMaximo ≠ .undefined then cuponData.usoMaximo
            else existingCupon.usoMaximo
          usoActual :=
            if cuponData.usoActual ≠ .undefined then cuponData.usoActual
            else existingCupon.usoActual }
      repo.update (.str id) cuponEntity s1

/-- The method `deleteCupon`. -/
def deleteCupon (repo : CuponRepository σ) (id : String) (s : σ) : Outcome σ Unit :=
  match repo.getById (.str id) s with
  | (.error e, s1) => (.error e, s1)
  | (.ok none, s1) => (.error (.notFound ("Cupon with id " ++ id ++ " not found")), s1)
  | (.ok (some _), s1) => repo.delete (.str id) s1

/-- The method `usarCupon`. The copy `new Date(cupon.fechaExpiracion)` of a
date is that date. -/
def usarCupon (repo : CuponRepository σ) (h : Host) (codigo : String) (s : σ) :
    Outcome σ (Option Cupon) :=
  match repo.getByCodigo (.str codigo) s with
  | (.error e, s1) => (.error e, s1)
  | (.ok none, s1) => (.error (.notFound ("Cupon with codigo " ++ codigo ++ " not found")), s1)
  | (.ok (some cupon), s1) =>
    if !cupon.activo.toBoolean then
      (.error (.badRequest "Cupon is not active"), s1)
    else
      let hoy := h.nowDate
      let fechaExpiracion := cupon.fechaExpiracion
      if fechaExpiracion.lt hoy then
        (.error (.badRequest "Cupon has expired"), s1)
      else if cupon.usoActual.ge cupon.usoMaximo then
        (.error (.badRequest "Cupon has reached maximum uses"), s1)
      else
        let cuponEntity : Cupon :=
          { id := cupon.id
            codigo := cupon.codigo
            descuento := cupon.descuento
            fechaExpiracion := cupon.fechaExpiracion
            activo := cupon.activo
            usoMaximo := cupon.usoMaximo
            usoActual := cupon.usoActual.addOne }
        repo.update cupon.id cuponEntity s1

/-- The method `deshabilitarCupon`. -/
def deshabilitarCupon (repo : CuponRepository σ) (id : String) (s : σ) :
    Outcome σ (Option Cupon) :=
  match repo.getById (.str id) s with
  | (.error e, s1) => (.error e, s1)
  | (.ok none, s1) => (.error (.notFound ("Cupon with id " ++ id ++ " not found")), s1)
  | (.ok (some cupon), s1) =>
    if !cupon.activo.toBoolean then
      (.error (.badRequest "Cupon is already disabled"), s1)
    else
      let cuponEntity : Cupon :=
        { id := cupon.id
          codigo := cupon.codigo
          descuento := cupon.descuento
          fechaExpiracion := cupon.fechaExpiracion
          activo := .bool false
          usoMaximo := cupon.usoMaximo
          usoActual := cupon.usoActual }
      repo.update cupon.id cuponEntity s1

/-- The method `habilitarCupon`. -/
def habilitarCupon (repo : CuponRepository σ) (id : String) (s : σ) :
    Outcome σ (Option Cupon) :=
  match repo.getById (.str id) s with
  | (.error e, s1) => (.error e, s1)
  | (.ok none, s1) => (.error (.notFound ("Cupon with id " ++ id ++ " not found")), s1)
  | (.ok (some cupon), s1) =>
    if cupon.activo.toBoolean then
      (.error (.badRequest "Cupon is already enabled"), s1)
    else
      let cuponEntity : Cupon :=
        { id := cupon.id
          codigo := cupon.codigo
          descuento := cupon.descuento
          fechaExpiracion := cupon.fechaExpiracion
          activo := .bool true
          usoMaximo := cupon.usoMaximo
          usoActual := cupon.usoActual }
      repo.update cupon.id cuponEntity s1

end CuponService

/-! ## A recording repository

The unit tests run the services against a repository double whose reads
resolve to fixed values and whose calls are recorded. The doubles below do
the same: the store is the list of writes received so far, oldest first, and
a write resolves to the entity it was given. -/

/-- A write received by an order repository. -/
inductive OrderWrite where
  | create (entity : Order)
  | update (id : JsVal) (entity : Order)
  | delete (id : JsVal)
  deriving DecidableEq

/-- The values the reads of a recording order repository resolve to. -/
structure OrderReads where
  getAll : List Order := []
  getById : Option Order := none
  getByEstado : List Order := []

/-- The recording order repository. -/
def recordingOrderRepository (reads : OrderReads) : OrderRepository (List OrderWrite) where
  getAll := fun log => (.ok reads.getAll, log)
  getById := fun _ log => (.ok reads.getById, log)
  getByEstado := fun _ log => (.ok reads.getByEstado, log)
  create := fun entity log => (.ok entity, log ++ [.create entity])
  update := fun id entity log => (.ok (some entity), log ++ [.update id entity])
  delete := fun id log => (.ok (), log ++ [.delete id])

/-- A write received by a coupon repository. -/
inductive CuponWrite where
  | create (entity : Cupon)
  | update (id : JsVal) (entity : Cupon)
  | delete (id : JsVal)
  deriving DecidableEq

/-- The values the reads of a recording coupon repository resolve to. -/
structure CuponReads where
  getAll : List Cupon := []
  getById : Option Cupon := none
  getByCodigo : Option Cupon := none
  getActivos : List Cupon := []

/-- The recording coupon repository. -/
def recordingCuponRepository (reads : CuponReads) : CuponRepository (List CuponWrite) where
  getAll := fun log => (.ok reads.getAll, log)
  getById := fun _ log => (.ok reads.getById, log)
  getByCodigo := fun _ log => (.ok reads.getByCodigo, log)
  getActivos := fun log => (.ok reads.getActivos, log)
  create := fun entity log => (.ok entity, log ++ [.create entity])
  update := fun id entity log => (.ok (some entity), log ++ [.update id entity])
  delete := fun id log => (.ok (), log ++ [.delete id])

/-! ## The Mongo adapters (`src/infrastructure/repositories/database/mongo`)

The adapters are embedded over an in-memory collection. Of the schemas
(`models/order.model.js`, `models/cupon.model.js`) the model keeps the
string setters (`trim`, `uppercase`), which run on saves, on updates and on
query filters, and the defaults, which run on saves. Conversions between value
types and the schema validators are not part of the model, and a repository
key that is not a string matches no document. -/

/-- The schema option `trim: true`. -/
def trimSetter : JsVal → JsVal
  | .str s => .str (jsTrim s)
  | v => v

/-- The schema option `uppercase: true`. -/
def uppercaseSetter (h : Host) : JsVal → JsVal
  | .str s => .str (h.toUpperCase s)
  | v => v

/-- The schema option `default: d`. -/
def schemaDefault (d v : JsVal) : JsVal :=
  if v = .undefined then d else v

/-- A stored order; `oid` is `_id.toString()`. -/
structure OrderDoc where
  oid : String
  producto : JsVal
  descripcion : JsVal
  cantidad : JsVal
  precio : JsVal
  descuento : JsVal
  total : JsVal
  cliente : JsVal
  estado : JsVal
  fechaEntrega : JsDate
  deriving DecidableEq

/-- The collection of orders, newest first, and the counter the next `_id`
is drawn from. -/
structure OrderCollection where
  docs : List OrderDoc
  nextId : Nat
  deriving DecidableEq

namespace OrderMongoRepository

/-- The expression `new Order(o._id.toString(), o.producto, ...)`. -/
def toEntity (o : OrderDoc) : Order :=
  { id := .str o.oid
    producto := o.producto
    descripcion := o.descripcion
    cantidad := o.cantidad
    precio := o.precio
    descuento := o.descuento
    total := o.total
    cliente := o.cliente
    estado := o.estado
    fechaEntrega := o.fechaEntrega }

/-- The query `OrderModel.findById(id)`. -/
def findById (id : JsVal) (c : OrderCollection) : Option OrderDoc :=
  c.docs.find? fun d => JsVal.str d.oid = id

/-- The method `getAll`. -/
def getAll (c : OrderCollection) : Outcome OrderCollection (List Order) :=
  (.ok (c.docs.map toEntity), c)

/-- The method `getById`. -/
def getById (id : JsVal) (c : OrderCollection) : Outcome OrderCollection (Option Order) :=
  match findById id c with
  | none => (.ok none, c)
  | some order => (.ok (some (toEntity order)), c)

/-- The method `create`. -/
def create (orderEntity : Order) (c : OrderCollection) : Outcome OrderCollection Order :=
  let savedOrder : OrderDoc :=
    { oid := toString c.nextId
      producto := trimSetter orderEntity.producto
      descripcion := orderEntity.descripcion
      cantidad := orderEntity.cantidad
      precio := orderEntity.precio
      descuento := schemaDefault (.lit 0) orderEntity.descuento
      total := orderEntity.total
      cliente := trimSetter orderEntity.cliente
      estado := schemaDefault (.str "pendiente") orderEntity.estado
      fechaEntrega := orderEntity.fechaEntrega }
  (.ok (toEntity savedOrder), { docs := savedOrder :: c.docs, nextId := c.nextId + 1 })

/-- The document `d` after the fields of the update of `update` are set:
those of `orderEntity` and the recomputed `total`. -/
def setFields (orderEntity : Order) (total : JsNum) (d : OrderDoc) : OrderDoc :=
  { oid := d.oid
    producto := trimSetter orderEntity.producto
    descripcion := orderEntity.descripcion
    cantidad := orderEntity.cantidad
    precio := orderEntity.precio
    descuento := orderEntity.descuento
    total := .num total
    cliente := trimSetter orderEntity.cliente
    estado := orderEntity.estado
    fechaEntrega := orderEntity.fechaEntrega }

/-- The first lines of `update`, "Recalcular el total". -/
def recalcularTotal (orderEntity : Order) : JsNum :=
  let subtotal := orderEntity.precio.toNumber.mul orderEntity.cantidad.toNumber
  let descuentoAmount := subtotal.mul orderEntity.descuento.toNumber.div100
  subtotal.sub descuentoAmount

/-- The method `update`: `findByIdAndUpdate` sets the fields of the document
under `id` and resolves to the document after the update. -/
def update (id : JsVal) (orderEntity : Order) (c : OrderCollection) :
    Outcome OrderCollection (Option Order) :=
  let total := recalcularTotal orderEntity
  let c1 : OrderCollection :=
    { c with
      docs := c.docs.map fun d =>
        if JsVal.str d.oid = id then setFields orderEntity total d else d }
  match findById id c1 with
  | none => (.ok none, c1)
  | some updatedOrder => (.ok (some (toEntity updatedOrder)), c1)

/-- The method `delete`. -/
def delete (id : JsVal) (c : OrderCollection) : Outcome OrderCollection Unit :=
  (.ok (), { c with docs := c.docs.filter fun d => JsVal.str d.oid ≠ id })

/-- The method `getByEstado`. -/
def getByEstado (estado : JsVal) (c : OrderCollection) : Outcome OrderCollection (List Order) :=
  (.ok ((c.docs.filter fun d => d.estado = estado).map toEntity), c)

end OrderMongoRepository

/-- The class `OrderMongoRepository` as a repository. -/
def orderMongoRepository : OrderRepository OrderCollection where
  getAll := OrderMongoRepository.getAll
  getById := OrderMongoRepository.getById
  getByEstado := OrderMongoRepository.getByEstado
  create := OrderMongoRepository.create
  update := OrderMongoRepository.update
  delete := OrderMongoRepository.delete

/-- A stored coupon; `oid` is `_id.toString()`. -/
structure CuponDoc where
  oid : String
  codigo : JsVal
  descuento : JsVal
  fechaExpiracion : JsDate
  activo : JsVal
  usoMaximo : JsVal
  usoActual : JsVal
  deriving DecidableEq

/-- The collection of coupons, newest first, and the counter the next `_id`
is drawn from. -/
structure CuponCollection where
  docs : List CuponDoc
  nextId : Nat
  deriving DecidableEq

namespace CuponMongoRepository

/-- The expression `new Cupon(c._id.toString(), c.codigo, ...)`. -/
def toEntity (c : CuponDoc) : Cupon :=
  { id := .str c.oid
    codigo := c.codigo
    descuento := c.descuento
    fechaExpiracion := c.fechaExpiracion
    activo := c.activo
    usoMaximo := c.usoMaximo
    usoActual := c.usoActual }

/-- The setters of the path `codigo`: `uppercase`, then `trim`. -/
def codigoSetter (h : Host) (v : JsVal) : JsVal :=
  trimSetter (uppercaseSetter h v)

/-- The query `CuponModel.findById(id)`. -/
def findById (id : JsVal) (c : CuponCollection) : Option CuponDoc :=
  c.docs.find? fun d => JsVal.str d.oid = id

/-- The method `getAll`. -/
def getAll (c : CuponCollection) : Outcome CuponCollection (List Cupon) :=
  (.ok (c.docs.map toEntity), c)

/-- The method `getById`. -/
def getById (id : JsVal) (c : CuponCollection) : Outcome CuponCollection (Option Cupon) :=
  match findById id c with
  | none => (.ok none, c)
  | some cupon => (.ok (some (toEntity cupon)), c)

/-- The method `getByCodigo`. The call `codigo.toUpperCase()` throws a
`TypeError` unless `codigo` is a string. -/
def getByCodigo (h : Host) (codigo : JsVal) (c : CuponCollection) :
    Outcome CuponCollection (Option Cupon) :=
  match codigo with
  | .str code =>
    match c.docs.find? fun d => d.codigo = codigoSetter h (.str (h.toUpperCase code)) with
    | none => (.ok none, c)
    | some cupon => (.ok (some (toEntity cupon)), c)
  | _ => (.error (.thrown "TypeError: codigo.toUpperCase is not a function"), c)

/-- The method `create`. -/
def create (h : Host) (cuponEntity : Cupon) (c : CuponCollection) :
    Outcome CuponCollection Cupon :=
  let savedCupon : CuponDoc :=
    { oid := toString c.nextId
      codigo := codigoSetter h cuponEntity.codigo
      descuento := cuponEntity.descuento
      fechaExpiracion := cuponEntity.fechaExpiracion
      activo := schemaDefault (.bool true) cuponEntity.activo
      usoMaximo := cuponEntity.usoMaximo
      usoActual := schemaDefault (.lit 0) (cuponEntity.usoActual.or (.lit 0)) }
  (.ok (toEntity savedCupon), { docs := savedCupon :: c.docs, nextId := c.nextId + 1 })

/-- The document `d` after the fields of the update of `update` are set. -/
def setFields (h : Host) (cuponEntity : Cupon) (d : CuponDoc) : CuponDoc :=
  { oid := d.oid
    codigo := codigoSetter h cuponEntity.codigo
    descuento := cuponEntity.descuento
    fechaExpiracion := cuponEntity.fechaExpiracion
    activo := cuponEntity.activo
    usoMaximo := cuponEntity.usoMaximo
    usoActual := cuponEntity.usoActual }

/-- The method `update`: `findByIdAndUpdate` sets the fields of the document
under `id` and resolves to the document after the update. -/
def update (h : Host) (id : JsVal) (cuponEntity : Cupon) (c : CuponCollection) :
    Outcome CuponCollection (Option Cupon) :=
  let c1 : CuponCollection :=
    { c with
      docs := c.docs.map fun d => if JsVal.str d.oid = id then setFields h cuponEntity d else d }
  match findById id c1 with
  | none => (.ok none, c1)
  | some updatedCupon => (.ok (some (toEntity updatedCupon)), c1)

/-- The method `delete`. -/
def delete (id : JsVal) (c : CuponCollection) : Outcome CuponCollection Unit :=
  (.ok (), { c with docs := c.docs.filter fun d => JsVal.str d.oid ≠ id })

/-- The method `getActivos`. -/
def getActivos (c : CuponCollection) : Outcome CuponCollection (List Cupon) :=
  (.ok ((c.docs.filter fun d => d.activo = .bool true).map toEntity), c)

end CuponMongoRepository

/-- The class `CuponMongoRepository` as a repository. -/
def cuponMongoRepository (h : Host) : CuponRepository CuponCollection where
  getAll := CuponMongoRepository.getAll
  getById := CuponMongoRepository.getById
  getByCodigo := CuponMongoRepository.getByCodigo h
  getActivos := CuponMongoRepository.getActivos
  create := CuponMongoRepository.create h
  update := CuponMongoRepository.update h
  delete := CuponMongoRepository.delete

/-! ## Sample data

The host and the entities of the unit tests (`tests/unit`), used to run the
definitions on concrete inputs. The clock reads 10:00 UTC on 2026-01-10. -/

/-- A host on 2026-01-10, 10:00, whose local midnight is 00:00 UTC. -/
def sampleHost : Host where
  now := 1768039200000
  hoy := 1768003200000
  parseDate := fun s =>
    if s = "2026-06-15" then some 1781481600000
    else if s = "2026-12-31" then some 1798675200000
    else if s = "2020-01-01" then some 1577836800000
    else none
  toUpperCase := fun s => String.mk (s.toList.map Char.toUpper)

/-- The request body `validOrderData` of `order.service.test.js`. -/
def validOrderData : OrderData :=
  { producto := .str "Laptop Dell XPS"
    descripcion := .str "High-end laptop"
    cantidad := .lit 2
    precio := .lit 1500
    descuento := .lit 10
    cliente := .str "Juan Pérez"
    estado := .str "pendiente"
    fechaEntrega := .str "2026-06-15" }

/-- The request body `minimalData` of `order.service.test.js`: no
`descuento`, no `estado`. -/
def minimalData : OrderData :=
  { producto := .str "Laptop Dell XPS"
    descripcion := .str "High-end laptop"
    cantidad := .lit 1
    precio := .lit 1000
    cliente := .str "Juan Pérez"
    fechaEntrega := .str "2026-06-15" }

/-- The order `new Order('1', 'Laptop Dell XPS', ..., estado, new Date('2026-01-15'))`
of `order.service.test.js`. -/
def sampleOrder (estado : String) : Order :=
  { id := .str "1"
    producto := .str "Laptop Dell XPS"
    descripcion := .str "High-end laptop"
    cantidad := .lit 2
    precio := .lit 1500
    descuento := .lit 10
    total := .lit 2700
    cliente := .str "Juan Pérez"
    estado := .str estado
    fechaEntrega := ⟨some 1768435200000⟩ }

/-- The coupon `new Cupon('1', 'DESCUENTO10', 10, new Date('2026-12-31'), activo, 100, usoActual)`
of `cupon.service.test.js`. -/
def sampleCupon (activo : Bool) (usoActual : ℚ) : Cupon :=
  { id := .str "1"
    codigo := .str "DESCUENTO10"
    descuento := .lit 10
    fechaExpiracion := ⟨some 1798675200000⟩
    activo := .bool activo
    usoMaximo := .lit 100
    usoActual := .lit usoActual }

/-- The request body `validCuponData` of `cupon.service.test.js` with the
given discount. -/
def validCuponData (descuento : ℚ) : CuponData :=
  { codigo := .str "DESCUENTO10"
    descuento := .lit descuento
    fechaExpiracion := .str "2026-12-31"
    activo := .bool true
    usoMaximo := .lit 100 }

/-- The stored form of the order of the unit tests, in the given `estado`,
under the id `1`. -/
def sampleOrderDoc (estado : String) : OrderDoc :=
  { oid := "1"
    producto := .str "Laptop Dell XPS"
    descripcion := .str "High-end laptop"
    cantidad := .lit 2
    precio := .lit 1500
    descuento := .lit 10
    total := .lit 2700
    cliente := .str "Juan Pérez"
    estado := .str estado
    fechaEntrega := ⟨some 1768435200000⟩ }

/-- A collection that holds `sampleOrderDoc`. -/
def sampleOrders (estado : String) : OrderCollection :=
  { docs := [sampleOrderDoc estado], nextId := 2 }

/-- The stored coupon of the scenario: `NAVIDAD2025`, 25 percent, 49 uses of
50, expiring on 2026-12-31. -/
def navidadDoc : CuponDoc :=
  { oid := "1"
    codigo := .str "NAVIDAD2025"
    descuento := .lit 25
    fechaExpiracion := ⟨some 1798675200000⟩
    activo := .bool true
    usoMaximo := .lit 50
    usoActual := .lit 49 }

/-- A collection that holds `navidadDoc`. -/
def sampleCupons : CuponCollection :=
  { docs := [navidadDoc], nextId := 2 }

/-- The host one minute after `sampleHost`. -/
def laterHost : Host :=
  { sampleHost with now := 1768039260000 }

/-! ## Consecutive calls -/

/-- Consecutive calls of `usarCupon` on one code against the Mongo adapter,
one host per call (the clock moves between calls): the outcomes in order and
the collection after the last call. -/
def usarCuponSeq : List Host → String → CuponCollection →
    List (Except ServiceError (Option Cupon)) × CuponCollection
  | [], _, c => ([], c)
  | h :: hs, codigo, c =>
    let r := CuponService.usarCupon (cuponMongoRepository h) h codigo c
    let rest := usarCuponSeq hs codigo r.2
    (r.1 :: rest.1, rest.2)

/-- The value the query of `getByCodigo` compares the stored codes with: the
upper-cased argument after the setters of the path `codigo`. -/
def codigoKey (up : String → String) (codigo : String) : String :=
  jsTrim (up (up codigo))

/-! ## Merging a payload over an entity -/

/-- The merge `supplied || existing` read field by field: the result is the
value supplied when that value is truthy, and the existing value when it is
falsy, which is the case of an omitted field, of `null`, of `0` and of the
empty string. -/
def MergedByTruthiness (supplied existing result : JsVal) : Prop :=
  (supplied.toBoolean = true → result = supplied) ∧
  (supplied.toBoolean = false → result = existing)

/-- The merge `supplied !== undefined ? supplied : existing` read field by
field: the result is the value supplied unless the field is omitted. -/
def MergedByPresence (supplied existing result : JsVal) : Prop :=
  (supplied ≠ .undefined → result = supplied) ∧
  (supplied = .undefined → result = existing)

/-- The host `sampleHost` with a date parser that also knows today,
2026-01-10, as today's midnight. -/
def todayHost : Host :=
  { sampleHost with
    parseDate := fun s => if s = "2026-01-10" then some 1768003200000 else sampleHost.parseDate s }

/-- The stored coupon `DESCUENTO10` of the unit tests. -/
def descuento10Doc : CuponDoc :=
  { oid := "1"
    codigo := .str "DESCUENTO10"
    descuento := .lit 10
    fechaExpiracion := ⟨some 1798675200000⟩
    activo := .bool true
    usoMaximo := .lit 100
    usoActual := .lit 0 }

/-- A collection that holds `descuento10Doc`. -/
def descuento10Cupons : CuponCollection :=
  { docs := [descuento10Doc], nextId := 2 }

/-- The host `sampleHost` with a date parser that also knows the last
millisecond of today, 2026-01-10, and the last millisecond of the day before. -/
def dayEdgeHost : Host :=
  { sampleHost with
    parseDate := fun s =>
      if s = "2026-01-10T23:59:59.999Z" then some 1768089599999
      else if s = "2026-01-09T23:59:59.999Z" then some 1768003199999
      else sampleHost.parseDate s }

/-- A collection of coupons that holds nothing yet. -/
def noCupons : CuponCollection :=
  { docs := [], nextId := 1 }

/-- A collection of orders that holds nothing yet. -/
def noOrders : OrderCollection :=
  { docs := [], nextId := 1 }

/-! ## Lemmas on the operators -/

theorem JsVal.le_num (a : JsVal) (q : ℚ) : a.le (.num (.fin q)) = a.toNumber.le (.fin q) := by
  cases a <;> rfl

theorem JsVal.lt_num (a : JsVal) (q : ℚ) : a.lt (.num (.fin q)) = a.toNumber.lt (.fin q) := by
  cases a <;> rfl

theorem JsVal.gt_num (a : JsVal) (q : ℚ) :
    a.gt (.num (.fin q)) = JsNum.lt (.fin q) a.toNumber := by
  cases a <;> rfl

theorem JsNum.le_fin (a b : ℚ) : JsNum.le (.fin a) (.fin b) = decide (a ≤ b) := by
  by_cases h : b < a
  · simp [JsNum.le, JsNum.lt, h, not_le.mpr h]
  · simp [JsNum.le, JsNum.lt, h, not_lt.mp h]

theorem JsNum.lt_fin (a b : ℚ) : JsNum.lt (.fin a) (.fin b) = decide (a < b) := rfl

/-- On numbers, `a < b` excludes `b <= a`. -/
theorem JsNum.le_eq_false_of_lt {a b : JsNum} (h : a.lt b = true) : b.le a = false := by
  cases a <;> cases b <;> simp_all [JsNum.le, JsNum.lt]

/-- When the left side is a number, `a < b` excludes `a >= b`. -/
theorem JsVal.ge_eq_false_of_lt {n : JsNum} {b : JsVal} (h : (JsVal.num n).lt b = true) :
    (JsVal.num n).ge b = false := by
  cases b <;> exact JsNum.le_eq_false_of_lt h

/-! ## The Mongo adapters keep what they are given -/

/-- Replacing every element that satisfies `q` by `u` keeps the first match
of `p` a match, when `u` satisfies `p` and the old first match satisfies `q`. -/
theorem find_map_replace {α : Type} (p q : α → Bool) (f : α → α) (u c : α) (l : List α)
    (hfind : l.find? p = some c) (hq : q c = true)
    (hfq : ∀ d, q d = true → f d = u) (hfn : ∀ d, q d = false → f d = d)
    (hpu : p u = true) :
    (l.map f).find? p = some u := by
  induction l with
  | nil => simp at hfind
  | cons d t ih =>
    rw [List.map_cons, List.find?_cons]
    rw [List.find?_cons] at hfind
    cases hpd : p d with
    | true =>
      rw [hpd] at hfind
      have hdc : d = c := by simpa using hfind
      subst hdc
      rw [hfq d hq, hpu]
    | false =>
      rw [hpd] at hfind
      cases hqd : q d with
      | true => rw [hfq d hqd, hpu]
      | false => rw [hfn d hqd, hpd]; exact ih hfind

/-- The query `findById` after `update`, when the collection holds a
document under the id. -/
theorem find_map_replace_self {α : Type} (q : α → Bool) (f : α → α) (u c : α) (l : List α)
    (hmem : c ∈ l) (hq : q c = true)
    (hfq : ∀ d, q d = true → f d = u) (hfn : ∀ d, q d = false → f d = d)
    (hqu : q u = true) :
    (l.map f).find? q = some u := by
  cases hfind : l.find? q with
  | none => simp [List.find?_eq_none] at hfind; simpa [hq] using hfind c hmem
  | some c1 =>
    exact find_map_replace q q f u c1 l hfind (List.find?_some hfind) hfq hfn hqu

/-- The query `findById` on the collection of coupons after the fields of
the document under the id were set. -/
theorem CuponMongoRepository.findCupon_after_setFields (h : Host) (id : String) (e : Cupon)
    (c : CuponCollection) (d0 : CuponDoc) (hmem : d0 ∈ c.docs) (hid : d0.oid = id) :
    CuponMongoRepository.findById (.str id)
      { c with docs := c.docs.map fun d =>
          if JsVal.str d.oid = .str id then CuponMongoRepository.setFields h e d else d }
      = some (CuponMongoRepository.setFields h e d0) := by
  unfold CuponMongoRepository.findById
  apply find_map_replace_self _ _ _ d0 _ hmem
  · simp [hid]
  · intro d hd
    have hd1 : d.oid = id := by simpa using hd
    simp [hd1, CuponMongoRepository.setFields, hid]
  · intro d hd
    have hd1 : d.oid ≠ id := by simpa using hd
    simp [hd1]
  · simp [CuponMongoRepository.setFields, hid]

/-- The adapter's `update` on a collection that holds a document under the
id: it resolves to the entity of the document with the fields set. -/
theorem CuponMongoRepository.updateCupon_of_mem (h : Host) (id : String) (e : Cupon)
    (c : CuponCollection) (d0 : CuponDoc) (hmem : d0 ∈ c.docs) (hid : d0.oid = id) :
    CuponMongoRepository.update h (.str id) e c =
      (.ok (some (CuponMongoRepository.toEntity (CuponMongoRepository.setFields h e d0))),
        { c with docs := c.docs.map fun d =>
            if JsVal.str d.oid = .str id then CuponMongoRepository.setFields h e d else d }) := by
  simp only [CuponMongoRepository.update,
    CuponMongoRepository.findCupon_after_setFields h id e c d0 hmem hid]

/-- The query `findById` on the collection of orders after the fields of the
document under the id were set. -/
theorem OrderMongoRepository.findOrder_after_setFields (id : String) (e : Order) (total : JsNum)
    (c : OrderCollection) (d0 : OrderDoc) (hmem : d0 ∈ c.docs) (hid : d0.oid = id) :
    OrderMongoRepository.findById (.str id)
      { c with docs := c.docs.map fun d =>
          if JsVal.str d.oid = .str id then OrderMongoRepository.setFields e total d else d }
      = some (OrderMongoRepository.setFields e total d0) := by
  unfold OrderMongoRepository.findById
  apply find_map_replace_self _ _ _ d0 _ hmem
  · simp [hid]
  · intro d hd
    have hd1 : d.oid = id := by simpa using hd
    simp [hd1, OrderMongoRepository.setFields, hid]
  · intro d hd
    have hd1 : d.oid ≠ id := by simpa using hd
    simp [hd1]
  · simp [OrderMongoRepository.setFields, hid]

/-- The adapter's `update` on a collection that holds a document under the
id: it resolves to the entity of the document with the fields set. -/
theorem OrderMongoRepository.updateOrder_of_mem (id : String) (e : Order)
    (c : OrderCollection) (d0 : OrderDoc) (hmem : d0 ∈ c.docs) (hid : d0.oid = id) :
    OrderMongoRepository.update (.str id) e c =
      (.ok (some (OrderMongoRepository.toEntity
          (OrderMongoRepository.setFields e (OrderMongoRepository.recalcularTotal e) d0))),
        { c with docs := c.docs.map fun d =>
            if JsVal.str d.oid = .str id then
              OrderMongoRepository.setFields e (OrderMongoRepository.recalcularTotal e) d
            else d }) := by
  simp only [OrderMongoRepository.update,
    OrderMongoRepository.findOrder_after_setFields id e _ c d0 hmem hid]

/-- A document found by `findById` is in the collection under that id. -/
theorem OrderMongoRepository.findOrder_some {id : String} {c : OrderCollection} {d : OrderDoc}
    (hfind : OrderMongoRepository.findById (.str id) c = some d) :
    d ∈ c.docs ∧ d.oid = id := by
  unfold OrderMongoRepository.findById at hfind
  exact ⟨List.mem_of_find?_eq_some hfind, by simpa using List.find?_some hfind⟩

/-! ## Order totals -/

/-- Claim C1: for a request whose `cantidad`, `precio` and `descuento` have
the finite numeric values `cantidad > 0`, `precio > 0` and
`0 <= descuento <= 100`, and whose delivery date is not before today,
`createOrder` hands the repository an entity whose
`total` is `precio * cantidad * (1 - descuento / 100)` in exact arithmetic:
whatever the repository is, the call is its `create` on that entity. -/
theorem createOrder_total_formula (h : Host) (orderData : OrderData)
    (cantidad precio descuento : ℚ)
    (hc : orderData.cantidad.toNumber = .fin cantidad)
    (hp : orderData.precio.toNumber = .fin precio)
    (hd : orderData.descuento.toNumber = .fin descuento)
    (hc0 : 0 < cantidad) (hp0 : 0 < precio) (hd0 : 0 ≤ descuento) (hd1 : descuento ≤ 100)
    (hf : (newDate h orderData.fechaEntrega).lt h.hoyDate = false) :
    ∃ e : Order, e.total = .lit (precio * cantidad * (1 - descuento / 100)) ∧
      ∀ (σ : Type) (repo : OrderRepository σ) (s : σ),
        OrderService.createOrder repo h orderData s = repo.create e s := by
  refine ⟨{ id := .null
            producto := orderData.producto
            descripcion := orderData.descripcion
            cantidad := orderData.cantidad
            precio := orderData.precio
            descuento := orderData.descuento.or (.lit 0)
            total := .lit (precio * cantidad * (1 - descuento / 100))
            cliente := orderData.cliente
            estado := orderData.estado.or (.str "pendiente")
            fechaEntrega := newDate h orderData.fechaEntrega }, rfl, fun σ repo s => ?_⟩
  have e1 : precio * cantidad - precio * cantidad * (descuento / 100)
      = precio * cantidad * (1 - descuento / 100) := by ring
  simp [OrderService.createOrder, JsVal.le_num, JsVal.lt_num, JsVal.gt_num, hc, hp, hd,
    JsNum.le_fin, JsNum.lt_fin, hf, not_le.mpr hc0, not_le.mpr hp0, not_lt.mpr hd0,
    not_lt.mpr hd1, JsNum.mul, JsNum.sub, JsNum.div100, JsVal.lit, e1]

/-- The scenario of claim C1: `cantidad` 2, `precio` 1500, `descuento` 10
gives the total 2700. -/
theorem createOrder_total_formula_witness :
    ∃ e : Order, e.total = .lit 2700 ∧
      ∀ (σ : Type) (repo : OrderRepository σ) (s : σ),
        OrderService.createOrder repo sampleHost validOrderData s = repo.create e s := by
  have key := createOrder_total_formula sampleHost validOrderData 2 1500 10 rfl rfl rfl
    (by norm_num) (by norm_num) (by norm_num) (by norm_num) (by decide)
  norm_num at key
  exact key

/-! ## Using a coupon -/

/-- Claim C2: when the lookup by code finds a coupon that is active, whose
expiration is not before the clock, whose `usoActual` is a number and
`usoActual < usoMaximo`, `usarCupon` is the repository's `update` under the
coupon's id on the coupon with `usoActual` replaced by `usoActual + 1`: the
fields `id`, `codigo`, `descuento`, `fechaExpiracion`, `activo` and `usoMaximo`
are those of the coupon found. -/
theorem usarCupon_increments_usoActual {σ : Type} (repo : CuponRepository σ) (h : Host)
    (codigo : String) (s s1 : σ) (cupon : Cupon) (n : JsNum)
    (hfound : repo.getByCodigo (.str codigo) s = (.ok (some cupon), s1))
    (hactivo : cupon.activo.toBoolean = true)
    (hfecha : cupon.fechaExpiracion.lt h.nowDate = false)
    (hnum : cupon.usoActual = .num n)
    (huso : cupon.usoActual.lt cupon.usoMaximo = true) :
    CuponService.usarCupon repo h codigo s =
        repo.update cupon.id { cupon with usoActual := .num (n.add (.fin 1)) } s1 ∧
      ∀ k : ℚ, n = .fin k → JsVal.num (n.add (.fin 1)) = .lit (k + 1) := by
  constructor
  · rw [hnum] at huso
    have hge : (JsVal.num n).ge cupon.usoMaximo = false := JsVal.ge_eq_false_of_lt huso
    simp [CuponService.usarCupon, hfound, hactivo, hfecha, hge, hnum, JsVal.addOne,
      JsVal.toNumber]
  · rintro k rfl
    rfl

/-- The test `should increment usoActual by 1`: from 50 uses of 100 the
entity written has 51. -/
theorem usarCupon_increments_usoActual_witness :
    CuponService.usarCupon
        (recordingCuponRepository { getByCodigo := some (sampleCupon true 50) })
        sampleHost "DESCUENTO10" [] =
      (.ok (some { sampleCupon true 50 with usoActual := .lit 51 }),
        [.update (.str "1") { sampleCupon true 50 with usoActual := .lit 51 }]) := by
  have key := (usarCupon_increments_usoActual
    (recordingCuponRepository { getByCodigo := some (sampleCupon true 50) })
    sampleHost "DESCUENTO10" [] [] (sampleCupon true 50) (.fin 50) rfl rfl (by decide) rfl
    (by norm_num [sampleCupon, JsVal.lit, JsVal.lt, JsVal.toNumber, JsNum.lt])).1
  rw [key]
  norm_num [recordingCuponRepository, sampleCupon, JsNum.add, JsVal.lit]

/-- Claim C3: `usarCupon` checks its guards in a fixed order. For a coupon
found by code: if `activo` is falsy the call rejects with
"Cupon is not active" whatever the expiration date and the counters are; if it
is active and its expiration is before the clock (in particular before today's
midnight, when midnight is not after the clock) the call rejects with
"Cupon has expired" whatever the counters are; if it is active, not expired
and `usoActual >= usoMaximo` the call rejects with
"Cupon has reached maximum uses"; and against a repository whose writes
resolve, the last rejection happens only for an active, unexpired coupon with
`usoActual >= usoMaximo`. -/
theorem usarCupon_guard_order {σ : Type} (repo : CuponRepository σ) (h : Host)
    (codigo : String) (s s1 : σ) (cupon : Cupon)
    (hfound : repo.getByCodigo (.str codigo) s = (.ok (some cupon), s1)) :
    (cupon.activo.toBoolean = false →
      CuponService.usarCupon repo h codigo s =
        (.error (.badRequest "Cupon is not active"), s1)) ∧
    (cupon.activo.toBoolean = true → cupon.fechaExpiracion.lt h.nowDate = true →
      CuponService.usarCupon repo h codigo s =
        (.error (.badRequest "Cupon has expired"), s1)) ∧
    (cupon.activo.toBoolean = true → h.hoy ≤ h.now →
      cupon.fechaExpiracion.lt h.hoyDate = true →
      CuponService.usarCupon repo h codigo s =
        (.error (.badRequest "Cupon has expired"), s1)) ∧
    (cupon.activo.toBoolean = true → cupon.fechaExpiracion.lt h.nowDate = false →
      cupon.usoActual.ge cupon.usoMaximo = true →
      CuponService.usarCupon repo h codigo s =
        (.error (.badRequest "Cupon has reached maximum uses"), s1)) ∧
    (∀ log : List CuponWrite,
      (CuponService.usarCupon (recordingCuponRepository { getByCodigo := some cupon })
          h codigo log).1 = .error (.badRequest "Cupon has reached maximum uses") →
      cupon.activo.toBoolean = true ∧ cupon.fechaExpiracion.lt h.nowDate = false ∧
        cupon.usoActual.ge cupon.usoMaximo = true) := by
  refine ⟨fun ha => ?_, fun ha he => ?_, fun ha hle he => ?_, fun ha he hg => ?_,
    fun log hres => ?_⟩
  · simp [CuponService.usarCupon, hfound, ha]
  · simp [CuponService.usarCupon, hfound, ha, he]
  · have he2 : cupon.fechaExpiracion.lt h.nowDate = true := by
      cases hx : cupon.fechaExpiracion.time with
      | none => simp [JsDate.lt, Host.hoyDate, hx] at he
      | some t =>
        simp [JsDate.lt, Host.hoyDate, hx] at he
        simp [JsDate.lt, Host.nowDate, hx]
        omega
    simp [CuponService.usarCupon, hfound, ha, he2]
  · simp [CuponService.usarCupon, hfound, ha, he, hg]
  · cases ha : cupon.activo.toBoolean <;>
      cases he : cupon.fechaExpiracion.lt h.nowDate <;>
      cases hg : cupon.usoActual.ge cupon.usoMaximo <;>
      simp [CuponService.usarCupon, recordingCuponRepository, ha, he, hg] at hres ⊢

/-- The test `should throw error if coupon has reached maximum uses`: an
active, unexpired coupon with 100 uses of 100 is rejected and nothing is
written. -/
theorem usarCupon_guard_order_witness :
    CuponService.usarCupon
        (recordingCuponRepository { getByCodigo := some (sampleCupon true 100) })
        sampleHost "DESCUENTO10" [] =
      (.error (.badRequest "Cupon has reached maximum uses"), []) :=
  (usarCupon_guard_order
    (recordingCuponRepository { getByCodigo := some (sampleCupon true 100) })
    sampleHost "DESCUENTO10" [] [] (sampleCupon true 100) rfl).2.2.2.1 rfl (by decide)
    (by norm_num [sampleCupon, JsVal.lit, JsVal.ge, JsVal.le, JsVal.toNumber, JsNum.le_fin])

/-- One accepted `usarCupon` against the Mongo adapter: when the query by
code finds an active, unexpired document with `usoActual = k < m = usoMaximo`
whose code the setters leave as it is, the call resolves to the coupon with
`usoActual = k + 1`, and the query by code then finds that document. -/
theorem usarCupon_mongo_step (h : Host) (codigo : String) (c : CuponCollection)
    (doc : CuponDoc) (k m : ℚ)
    (hfind : c.docs.find? (fun d => d.codigo = .str (codigoKey h.toUpperCase codigo)) = some doc)
    (hnorm : jsTrim (h.toUpperCase (codigoKey h.toUpperCase codigo))
      = codigoKey h.toUpperCase codigo)
    (hact : doc.activo.toBoolean = true)
    (hfresh : doc.fechaExpiracion.lt h.nowDate = false)
    (hk : doc.usoActual = .lit k) (hm : doc.usoMaximo = .lit m) (hlt : k < m) :
    ∃ c1 : CuponCollection,
      CuponService.usarCupon (cuponMongoRepository h) h codigo c =
        (.ok (some (CuponMongoRepository.toEntity { doc with usoActual := .lit (k + 1) })), c1) ∧
      c1.docs.find? (fun d => d.codigo = .str (codigoKey h.toUpperCase codigo))
        = some { doc with usoActual := .lit (k + 1) } := by
  have hmem : doc ∈ c.docs := List.mem_of_find?_eq_some hfind
  have hcod : doc.codigo = .str (codigoKey h.toUpperCase codigo) := by
    simpa using List.find?_some hfind
  obtain ⟨ent, hent⟩ : ∃ ent : Cupon, ent =
      { id := .str doc.oid
        codigo := doc.codigo
        descuento := doc.descuento
        fechaExpiracion := doc.fechaExpiracion
        activo := doc.activo
        usoMaximo := doc.usoMaximo
        usoActual := doc.usoActual.addOne } := ⟨_, rfl⟩
  have hset : ∀ x : CuponDoc, x.oid = doc.oid →
      CuponMongoRepository.setFields h ent x = { doc with usoActual := .lit (k + 1) } := by
    intro x hx
    simp [CuponMongoRepository.setFields, hent, hx, hcod, CuponMongoRepository.codigoSetter,
      trimSetter, uppercaseSetter, hnorm, hk, JsVal.addOne, JsVal.lit, JsVal.toNumber,
      JsNum.add]
  have hget : CuponMongoRepository.getByCodigo h (.str codigo) c
      = (.ok (some (CuponMongoRepository.toEntity doc)), c) := by
    have hfind2 := hfind
    simp only [codigoKey] at hfind2
    simp only [CuponMongoRepository.getByCodigo, CuponMongoRepository.codigoSetter,
      trimSetter, uppercaseSetter, hfind2]
  have hge : doc.usoActual.ge doc.usoMaximo = false := by
    rw [hk, hm]
    simp [JsVal.ge, JsVal.le, JsVal.lit, JsVal.toNumber, JsNum.le_fin, hlt]
  refine ⟨{ c with
      docs := c.docs.map fun d =>
        if JsVal.str d.oid = .str doc.oid then CuponMongoRepository.setFields h ent d else d },
    ?_, ?_⟩
  · have hupd := CuponMongoRepository.updateCupon_of_mem h doc.oid ent c doc hmem rfl
    rw [hset doc rfl] at hupd
    simp only [CuponService.usarCupon, cuponMongoRepository, hget,
      CuponMongoRepository.toEntity, hact, hfresh, hge, ← hent]
    simpa using hupd
  · apply find_map_replace _ (fun d => decide (JsVal.str d.oid = .str doc.oid)) _ _ doc _ hfind
    · simp
    · intro d hd
      have hd1 : d.oid = doc.oid := by simpa using hd
      simp [hd1, hset doc rfl, hset d hd1]
    · intro d hd
      have hd1 : d.oid ≠ doc.oid := by simpa using hd
      simp [hd1]
    · simp [hcod]

/-- A rejected `usarCupon` against the Mongo adapter: when the query by code
finds an active, unexpired document with `usoActual >= usoMaximo`, the call
rejects with "Cupon has reached maximum uses" and the collection is as
before. -/
theorem usarCupon_mongo_exhausted (h : Host) (codigo : String) (c : CuponCollection)
    (doc : CuponDoc) (k m : ℚ)
    (hfind : c.docs.find? (fun d => d.codigo = .str (codigoKey h.toUpperCase codigo)) = some doc)
    (hact : doc.activo.toBoolean = true)
    (hfresh : doc.fechaExpiracion.lt h.nowDate = false)
    (hk : doc.usoActual = .lit k) (hm : doc.usoMaximo = .lit m) (hge : m ≤ k) :
    CuponService.usarCupon (cuponMongoRepository h) h codigo c =
      (.error (.badRequest "Cupon has reached maximum uses"), c) := by
  have hget : CuponMongoRepository.getByCodigo h (.str codigo) c
      = (.ok (some (CuponMongoRepository.toEntity doc)), c) := by
    have hfind2 := hfind
    simp only [codigoKey] at hfind2
    simp only [CuponMongoRepository.getByCodigo, CuponMongoRepository.codigoSetter,
      trimSetter, uppercaseSetter, hfind2]
  have hge2 : doc.usoActual.ge doc.usoMaximo = true := by
    rw [hk, hm]
    simp [JsVal.ge, JsVal.le, JsVal.lit, JsVal.toNumber, JsNum.le_fin, hge]
  simp [CuponService.usarCupon, cuponMongoRepository, hget, CuponMongoRepository.toEntity,
    hact, hfresh, hge2]

/-- Claim C4: take a stored coupon that the query by code finds, active,
with integer counters `usoActual = k` and `usoMaximo = m`, whose stored code
the schema setters leave as it is, and `m - k` consecutive calls of
`usarCupon` on its code followed by one more, each at a clock the coupon's
expiration is not before. Then the `m - k` calls all resolve, the call number
`i` (from 0) to the coupon with `usoActual = k + i + 1`; after them the
collection holds the coupon with `usoActual = m`; and the next call rejects
with "Cupon has reached maximum uses" and leaves the collection as it is. -/
theorem usarCupon_succeeds_until_usoMaximo (up : String → String) (codigo : String)
    (hs : List Host) (hlast : Host) (c : CuponCollection) (doc : CuponDoc) (k m : ℤ)
    (hlen : (hs.length : ℤ) = m - k)
    (hup : ∀ h ∈ hlast :: hs, h.toUpperCase = up)
    (hfresh : ∀ h ∈ hlast :: hs, doc.fechaExpiracion.lt h.nowDate = false)
    (hfind : c.docs.find? (fun d => d.codigo = .str (codigoKey up codigo)) = some doc)
    (hnorm : jsTrim (up (codigoKey up codigo)) = codigoKey up codigo)
    (hact : doc.activo.toBoolean = true)
    (hk : doc.usoActual = .lit k) (hm : doc.usoMaximo = .lit m) :
    (usarCuponSeq hs codigo c).1 = (List.range hs.length).map (fun i =>
        .ok (some (CuponMongoRepository.toEntity { doc with usoActual := .lit (k + i + 1) }))) ∧
    (usarCuponSeq hs codigo c).2.docs.find? (fun d => d.codigo = .str (codigoKey up codigo))
      = some { doc with usoActual := .lit m } ∧
    CuponService.usarCupon (cuponMongoRepository hlast) hlast codigo (usarCuponSeq hs codigo c).2
      = (.error (.badRequest "Cupon has reached maximum uses"), (usarCuponSeq hs codigo c).2) := by
  induction hs generalizing c doc k with
  | nil =>
    have hkm : k = m := by simp at hlen; omega
    subst hkm
    have hdoc : ({ doc with usoActual := .lit (k : ℚ) } : CuponDoc) = doc := by
      cases doc; simp_all
    have hupl : hlast.toUpperCase = up := hup hlast (by simp)
    subst hupl
    refine ⟨rfl, ?_, ?_⟩
    · simpa [usarCuponSeq, hdoc] using hfind
    · exact usarCupon_mongo_exhausted hlast codigo c doc k k hfind hact
        (hfresh hlast (by simp)) hk hm le_rfl
  | cons h t ih =>
    have hkm : k < m := by simp at hlen; omega
    have huph : h.toUpperCase = up := hup h (by simp)
    have hfind1 := hfind
    have hnorm1 := hnorm
    rw [← huph] at hfind1 hnorm1
    obtain ⟨c1, hcall, hfindc1⟩ := usarCupon_mongo_step h codigo c doc k m hfind1 hnorm1 hact
      (hfresh h (by simp)) hk hm (by exact_mod_cast hkm)
    rw [huph] at hfindc1
    have hlen1 : (t.length : ℤ) = m - (k + 1) := by simp at hlen; omega
    obtain ⟨ih1, ih2, ih3⟩ := ih c1 { doc with usoActual := .lit ((k : ℚ) + 1) } (k + 1) hlen1
      (fun x hx => hup x (by
        rcases List.mem_cons.mp hx with hx | hx
        · simp [hx]
        · simp [hx]))
      (fun x hx => hfresh x (by
        rcases List.mem_cons.mp hx with hx | hx
        · simp [hx]
        · simp [hx]))
      hfindc1 hact (by simp) hm
    have hseq : usarCuponSeq (h :: t) codigo c =
        (.ok (some (CuponMongoRepository.toEntity { doc with usoActual := .lit ((k : ℚ) + 1) }))
          :: (usarCuponSeq t codigo c1).1, (usarCuponSeq t codigo c1).2) := by
      simp [usarCuponSeq, hcall]
    rw [hseq]
    refine ⟨?_, ?_, ?_⟩
    · simp only [List.length_cons, List.range_succ_eq_map, List.map_cons, List.map_map, ih1]
      congr 1
      · simp
      · apply List.map_congr_left
        intro i _
        simp only [Function.comp]
        congr 5
        push_cast
        ring
    · simpa using ih2
    · exact ih3

/-- The scenario of claim C4: from 49 uses of 50, one `usarCupon` resolves
to the coupon with 50 uses and the following one rejects with
"Cupon has reached maximum uses". -/
theorem usarCupon_succeeds_until_usoMaximo_witness :
    (usarCuponSeq [sampleHost] "navidad2025" sampleCupons).1 =
      [.ok (some (CuponMongoRepository.toEntity { navidadDoc with usoActual := .lit 50 }))] ∧
    CuponService.usarCupon (cuponMongoRepository laterHost) laterHost "navidad2025"
        (usarCuponSeq [sampleHost] "navidad2025" sampleCupons).2 =
      (.error (.badRequest "Cupon has reached maximum uses"),
        (usarCuponSeq [sampleHost] "navidad2025" sampleCupons).2) := by
  have key := usarCupon_succeeds_until_usoMaximo sampleHost.toUpperCase "navidad2025"
    [sampleHost] laterHost sampleCupons navidadDoc 49 50 (by norm_num)
    (by intro h hh; simp at hh; rcases hh with rfl | rfl <;> rfl)
    (by intro h hh; simp at hh; rcases hh with rfl | rfl <;> decide)
    (by decide) (by decide) rfl (by simp [navidadDoc]) (by simp [navidadDoc])
  refine ⟨?_, key.2.2⟩
  rw [key.1]
  norm_num [List.range_succ_eq_map]

/-! ## Cancelling an order -/

/-- Claim C5: for an order found by id, `cancelOrder` rejects with
"No se puede cancelar una orden que ya fue entregada" when its `estado` is
`entregado` and with "Esta orden ya está cancelada" when it is `cancelado`,
whatever the repository is; against a repository whose writes resolve it
rejects if and only if the `estado` is one of these two, so for
`pendiente`, `procesando` and `enviado` it resolves. -/
theorem cancelOrder_fails_iff_entregado_or_cancelado {σ : Type} (repo : OrderRepository σ)
    (id : String) (s s1 : σ) (order : Order)
    (hfound : repo.getById (.str id) s = (.ok (some order), s1)) :
    (order.estado = .str "entregado" →
      OrderService.cancelOrder repo id s =
        (.error (.generic "No se puede cancelar una orden que ya fue entregada"), s1)) ∧
    (order.estado = .str "cancelado" →
      OrderService.cancelOrder repo id s =
        (.error (.generic "Esta orden ya está cancelada"), s1)) ∧
    (∀ log : List OrderWrite,
      (∃ err, (OrderService.cancelOrder
          (recordingOrderRepository { getById := some order }) id log).1 = .error err) ↔
        (order.estado = .str "entregado" ∨ order.estado = .str "cancelado")) ∧
    (∀ log : List OrderWrite,
      order.estado ∈ [JsVal.str "pendiente", JsVal.str "procesando", JsVal.str "enviado"] →
      ∃ r, (OrderService.cancelOrder
          (recordingOrderRepository { getById := some order }) id log).1 = .ok r) := by
  refine ⟨fun he => ?_, fun hc => ?_, fun log => ?_, fun log hmem => ?_⟩
  · simp [OrderService.cancelOrder, hfound, he]
  · simp [OrderService.cancelOrder, hfound, hc]
  · by_cases he : order.estado = .str "entregado"
    · simp [OrderService.cancelOrder, recordingOrderRepository, he]
    · by_cases hc : order.estado = .str "cancelado"
      · simp [OrderService.cancelOrder, recordingOrderRepository, hc]
      · simp [OrderService.cancelOrder, recordingOrderRepository, he, hc]
  · have he : order.estado ≠ .str "entregado" := by
      intro hx; rw [hx] at hmem; simp at hmem
    have hc : order.estado ≠ .str "cancelado" := by
      intro hx; rw [hx] at hmem; simp at hmem
    simp [OrderService.cancelOrder, recordingOrderRepository, he, hc]

/-- The tests of `cancelOrder` on one order in each `estado`: the delivered
order is rejected. -/
theorem cancelOrder_fails_iff_entregado_or_cancelado_witness :
    OrderService.cancelOrder
        (recordingOrderRepository { getById := some (sampleOrder "entregado") }) "1" [] =
      (.error (.generic "No se puede cancelar una orden que ya fue entregada"), []) :=
  (cancelOrder_fails_iff_entregado_or_cancelado
    (recordingOrderRepository { getById := some (sampleOrder "entregado") }) "1" [] []
    (sampleOrder "entregado") rfl).1 rfl

/-- Claim C6: for an order found by id whose `estado` is neither `entregado`
nor `cancelado`, `cancelOrder` is the repository's `update` under that id on
the order read with `estado` replaced by `cancelado` and `id` set to the id
asked for, which is the order's own id when the repository returned the order
asked for: `producto`, `descripcion`, `cantidad`, `precio`, `descuento`,
`total`, `cliente` and `fechaEntrega` are those of the order read. Against a
repository whose writes resolve, a call that resolves has written exactly
this entity. -/
theorem cancelOrder_entity_preserves_fields {σ : Type} (repo : OrderRepository σ)
    (id : String) (s s1 : σ) (order : Order)
    (hfound : repo.getById (.str id) s = (.ok (some order), s1)) :
    (order.estado ≠ .str "entregado" → order.estado ≠ .str "cancelado" →
      OrderService.cancelOrder repo id s =
        repo.update (.str id) { order with id := .str id, estado := .str "cancelado" } s1) ∧
    (order.id = .str id →
      ({ order with id := .str id, estado := .str "cancelado" } : Order) =
        { order with estado := .str "cancelado" }) ∧
    (∀ (log : List OrderWrite) (r : Option Order),
      (OrderService.cancelOrder
          (recordingOrderRepository { getById := some order }) id log).1 = .ok r →
      (OrderService.cancelOrder
          (recordingOrderRepository { getById := some order }) id log).2 =
        log ++ [.update (.str id) { order with id := .str id, estado := .str "cancelado" }]) := by
  refine ⟨fun he hc => ?_, fun hid => ?_, fun log r hres => ?_⟩
  · simp [OrderService.cancelOrder, hfound, he, hc]
  · rw [← hid]
  · by_cases he : order.estado = .str "entregado"
    · simp [OrderService.cancelOrder, recordingOrderRepository, he] at hres
    · by_cases hc : order.estado = .str "cancelado"
      · simp [OrderService.cancelOrder, recordingOrderRepository, hc] at hres
      · simp [OrderService.cancelOrder, recordingOrderRepository, he, hc]

/-- The test `should cancel a pending order`: the entity written is the
order read with `estado` `cancelado`. -/
theorem cancelOrder_entity_preserves_fields_witness :
    OrderService.cancelOrder
        (recordingOrderRepository { getById := some (sampleOrder "pendiente") }) "1" [] =
      (.ok (some (sampleOrder "cancelado")), [.update (.str "1") (sampleOrder "cancelado")]) :=
  (cancelOrder_entity_preserves_fields
    (recordingOrderRepository { getById := some (sampleOrder "pendiente") }) "1" [] []
    (sampleOrder "pendiente") rfl).1 (by decide) (by decide)

/-- Claim C7: for a stored order whose `estado` is `pendiente`, `procesando`
or `enviado`, the first `cancelOrder` on its id against the Mongo adapter
resolves to the order with `estado` `cancelado`, which is what the collection
then holds under the id, and a second `cancelOrder` on the id rejects with
"Esta orden ya está cancelada" and leaves the collection as the first call
left it. -/
theorem cancelOrder_twice_rejects_second (c : OrderCollection) (id : String) (d : OrderDoc)
    (hfind : OrderMongoRepository.findById (.str id) c = some d)
    (hest : d.estado ∈ [JsVal.str "pendiente", JsVal.str "procesando", JsVal.str "enviado"]) :
    ∃ (r : Order) (c1 : OrderCollection),
      OrderService.cancelOrder orderMongoRepository id c = (.ok (some r), c1) ∧
      r.estado = .str "cancelado" ∧
      OrderMongoRepository.getById (.str id) c1 = (.ok (some r), c1) ∧
      OrderService.cancelOrder orderMongoRepository id c1 =
        (.error (.generic "Esta orden ya está cancelada"), c1) := by
  obtain ⟨hmem, hid⟩ := OrderMongoRepository.findOrder_some hfind
  have he : d.estado ≠ .str "entregado" := by
    intro hx; rw [hx] at hest; simp at hest
  have hc : d.estado ≠ .str "cancelado" := by
    intro hx; rw [hx] at hest; simp at hest
  obtain ⟨ent, hent⟩ : ∃ ent : Order, ent =
      { id := .str id
        producto := d.producto
        descripcion := d.descripcion
        cantidad := d.cantidad
        precio := d.precio
        descuento := d.descuento
        total := d.total
        cliente := d.cliente
        estado := .str "cancelado"
        fechaEntrega := d.fechaEntrega } := ⟨_, rfl⟩
  have hestado : ent.estado = .str "cancelado" := by rw [hent]
  refine ⟨OrderMongoRepository.toEntity
      (OrderMongoRepository.setFields ent (OrderMongoRepository.recalcularTotal ent) d),
    { c with docs := c.docs.map fun x =>
        if JsVal.str x.oid = .str id then
          OrderMongoRepository.setFields ent (OrderMongoRepository.recalcularTotal ent) x
        else x }, ?_, ?_, ?_, ?_⟩
  · simp only [OrderService.cancelOrder, orderMongoRepository, OrderMongoRepository.getById,
      hfind, OrderMongoRepository.toEntity, he, hc, if_false, ← hent]
    exact OrderMongoRepository.updateOrder_of_mem id ent c d hmem hid
  · exact hestado
  · simp only [OrderMongoRepository.getById,
      OrderMongoRepository.findOrder_after_setFields id ent _ c d hmem hid]
  · have hstored : (OrderMongoRepository.toEntity (OrderMongoRepository.setFields ent
        (OrderMongoRepository.recalcularTotal ent) d)).estado = .str "cancelado" := hestado
    simp only [OrderService.cancelOrder, orderMongoRepository, OrderMongoRepository.getById,
      OrderMongoRepository.findOrder_after_setFields id ent _ c d hmem hid, hstored]
    simp

/-- The test sequence of claim C7 on the stored pending order of the unit
tests: cancelling twice resolves, then rejects. -/
theorem cancelOrder_twice_rejects_second_witness :
    ∃ (r : Order) (c1 : OrderCollection),
      OrderService.cancelOrder orderMongoRepository "1" (sampleOrders "pendiente")
        = (.ok (some r), c1) ∧
      r.estado = .str "cancelado" ∧
      OrderMongoRepository.getById (.str "1") c1 = (.ok (some r), c1) ∧
      OrderService.cancelOrder orderMongoRepository "1" c1 =
        (.error (.generic "Esta orden ya está cancelada"), c1) :=
  cancelOrder_twice_rejects_second (sampleOrders "pendiente") "1" (sampleOrderDoc "pendiente")
    (by decide) (by simp [sampleOrderDoc])

/-! ## Validation on create -/

/-- Claim C8: for a coupon request whose `descuento` has the finite numeric
value `descuento`, whose `usoMaximo` is positive, whose expiration date is not
before today and whose code the repository does not hold, `createCupon`
rejects with the `BadRequestError` "Discount must be between 0 and 100", before
any repository call, when `descuento < 0` or `descuento > 100`, and is the
repository's `create` when `0 <= descuento <= 100`; against a repository whose
writes resolve it resolves if and only if `0 <= descuento <= 100`. -/
theorem createCupon_descuento_bounds {σ : Type} (repo : CuponRepository σ) (h : Host)
    (cuponData : CuponData) (s s1 : σ) (descuento usoMaximo : ℚ)
    (hd : cuponData.descuento.toNumber = .fin descuento)
    (hu : cuponData.usoMaximo.toNumber = .fin usoMaximo) (hu0 : 0 < usoMaximo)
    (hf : (newDate h cuponData.fechaExpiracion).lt h.hoyDate = false)
    (hcode : repo.getByCodigo cuponData.codigo s = (.ok none, s1)) :
    (descuento < 0 ∨ 100 < descuento →
      CuponService.createCupon repo h cuponData s =
        (.error (.badRequest "Discount must be between 0 and 100"), s)) ∧
    (0 ≤ descuento → descuento ≤ 100 →
      ∃ e : Cupon, e.descuento = cuponData.descuento ∧
        CuponService.createCupon repo h cuponData s = repo.create e s1) ∧
    (∀ log : List CuponWrite,
      (∃ r, (CuponService.createCupon (recordingCuponRepository {}) h cuponData log).1 = .ok r) ↔
        (0 ≤ descuento ∧ descuento ≤ 100)) := by
  refine ⟨fun hout => ?_, fun h0 h1 =>
    ⟨{ id := .null
       codigo := cuponData.codigo
       descuento := cuponData.descuento
       fechaExpiracion := newDate h cuponData.fechaExpiracion
       activo := if cuponData.activo ≠ .undefined then cuponData.activo else .bool true
       usoMaximo := cuponData.usoMaximo
       usoActual := .lit 0 }, rfl, ?_⟩, fun log => ?_⟩
  · rcases hout with hlt | hgt
    · simp [CuponService.createCupon, JsVal.lit, JsVal.lt_num, JsVal.gt_num, hd, JsNum.lt_fin,
        hlt]
    · simp [CuponService.createCupon, JsVal.lit, JsVal.lt_num, JsVal.gt_num, hd, JsNum.lt_fin,
        hgt]
  · simp [CuponService.createCupon, JsVal.lit, JsVal.lt_num, JsVal.gt_num, JsVal.le_num, hd,
      hu, JsNum.lt_fin, JsNum.le_fin, not_lt.mpr h0, not_lt.mpr h1, not_le.mpr hu0, hf, hcode]
  · by_cases h0 : 0 ≤ descuento
    · by_cases h1 : descuento ≤ 100
      · simp [CuponService.createCupon, recordingCuponRepository, JsVal.lit, JsVal.lt_num,
          JsVal.gt_num, JsVal.le_num, hd, hu, JsNum.lt_fin, JsNum.le_fin, not_lt.mpr h0,
          not_lt.mpr h1, not_le.mpr hu0, hf, h0, h1]
      · simp [CuponService.createCupon, recordingCuponRepository, JsVal.lit, JsVal.lt_num,
          JsVal.gt_num, hd, JsNum.lt_fin, not_le.mp h1, h1]
    · simp [CuponService.createCupon, recordingCuponRepository, JsVal.lit, JsVal.lt_num,
        JsVal.gt_num, hd, JsNum.lt_fin, not_le.mp h0, h0]

/-- The boundary of claim C8: the request of the unit tests with `descuento`
100 is accepted and written. -/
theorem createCupon_descuento_bounds_witness :
    ∃ r, (CuponService.createCupon (recordingCuponRepository {}) sampleHost
      (validCuponData 100) []).1 = .ok r :=
  ((createCupon_descuento_bounds (recordingCuponRepository {}) sampleHost (validCuponData 100)
    [] [] 100 100 rfl rfl (by norm_num) (by decide) rfl).2.2 []).mpr
    ⟨by norm_num, by norm_num⟩

/-- Claim C9: for a request whose `cantidad`, `precio` and `descuento` have
finite numeric values, `createOrder` rejects with one of its four validation
messages, before any repository call, when `cantidad <= 0`, or `precio <= 0`, or
`descuento < 0`, or `descuento > 100`, or the delivery date is before today's
midnight; otherwise the call is one `create` on the repository. Against a
repository whose writes resolve it rejects if and only if one of these holds,
and otherwise it writes exactly one `create`. -/
theorem createOrder_rejects_iff (h : Host) (orderData : OrderData)
    (cantidad precio descuento : ℚ)
    (hc : orderData.cantidad.toNumber = .fin cantidad)
    (hp : orderData.precio.toNumber = .fin precio)
    (hd : orderData.descuento.toNumber = .fin descuento) :
    ((cantidad ≤ 0 ∨ precio ≤ 0 ∨ descuento < 0 ∨ 100 < descuento ∨
        (newDate h orderData.fechaEntrega).lt h.hoyDate = true) →
      ∃ msg ∈ ["La cantidad debe ser mayor a 0", "El precio debe ser mayor a 0",
          "El descuento debe estar entre 0 y 100",
          "La fecha de entrega no puede ser en el pasado"],
        ∀ (σ : Type) (repo : OrderRepository σ) (s : σ),
          OrderService.createOrder repo h orderData s = (.error (.generic msg), s)) ∧
    (¬ (cantidad ≤ 0 ∨ precio ≤ 0 ∨ descuento < 0 ∨ 100 < descuento ∨
        (newDate h orderData.fechaEntrega).lt h.hoyDate = true) →
      ∃ e : Order, ∀ (σ : Type) (repo : OrderRepository σ) (s : σ),
        OrderService.createOrder repo h orderData s = repo.create e s) ∧
    (∀ (reads : OrderReads) (log : List OrderWrite),
      ((∃ err, (OrderService.createOrder (recordingOrderRepository reads) h orderData log).1
          = .error err) ↔
        (cantidad ≤ 0 ∨ precio ≤ 0 ∨ descuento < 0 ∨ 100 < descuento ∨
          (newDate h orderData.fechaEntrega).lt h.hoyDate = true)) ∧
      ((¬ ∃ err, (OrderService.createOrder (recordingOrderRepository reads) h orderData log).1
          = .error err) →
        ∃ e, (OrderService.createOrder (recordingOrderRepository reads) h orderData log).2
          = log ++ [.create e])) := by
  obtain ⟨e, step⟩ : ∃ e : Order, ∀ (σ : Type) (repo : OrderRepository σ) (s : σ),
      OrderService.createOrder repo h orderData s =
        if cantidad ≤ 0 then (.error (.generic "La cantidad debe ser mayor a 0"), s)
        else if precio ≤ 0 then (.error (.generic "El precio debe ser mayor a 0"), s)
        else if descuento < 0 ∨ 100 < descuento then
          (.error (.generic "El descuento debe estar entre 0 y 100"), s)
        else if (newDate h orderData.fechaEntrega).lt h.hoyDate = true then
          (.error (.generic "La fecha de entrega no puede ser en el pasado"), s)
        else repo.create e s := by
    refine ⟨{ id := .null
              producto := orderData.producto
              descripcion := orderData.descripcion
              cantidad := orderData.cantidad
              precio := orderData.precio
              descuento := orderData.descuento.or (.lit 0)
              total := .num (((JsNum.fin precio).mul (.fin cantidad)).sub
                (((JsNum.fin precio).mul (.fin cantidad)).mul (JsNum.fin descuento).div100))
              cliente := orderData.cliente
              estado := orderData.estado.or (.str "pendiente")
              fechaEntrega := newDate h orderData.fechaEntrega }, fun σ repo s => ?_⟩
    simp only [OrderService.createOrder, JsVal.lit, JsVal.le_num, JsVal.lt_num, JsVal.gt_num,
      hc, hp, hd, JsNum.le_fin, JsNum.lt_fin, Bool.or_eq_true, decide_eq_true_eq,
      Host.hoyDate]
  refine ⟨fun hcond => ?_, fun hcond => ?_, fun reads log => ⟨?_, ?_⟩⟩
  · by_cases h1 : cantidad ≤ 0
    · exact ⟨"La cantidad debe ser mayor a 0", by simp,
        fun σ repo s => by rw [step, if_pos h1]⟩
    by_cases h2 : precio ≤ 0
    · exact ⟨"El precio debe ser mayor a 0", by simp,
        fun σ repo s => by rw [step, if_neg h1, if_pos h2]⟩
    by_cases h3 : descuento < 0 ∨ 100 < descuento
    · exact ⟨"El descuento debe estar entre 0 y 100", by simp,
        fun σ repo s => by rw [step, if_neg h1, if_neg h2, if_pos h3]⟩
    have h4 : (newDate h orderData.fechaEntrega).lt h.hoyDate = true := by tauto
    exact ⟨"La fecha de entrega no puede ser en el pasado", by simp,
      fun σ repo s => by rw [step, if_neg h1, if_neg h2, if_neg h3, if_pos h4]⟩
  · push_neg at hcond
    obtain ⟨h1, h2, h3, h4, h5⟩ := hcond
    refine ⟨e, fun σ repo s => ?_⟩
    rw [step, if_neg (not_le.mpr h1), if_neg (not_le.mpr h2),
      if_neg (by push_neg; exact ⟨h3, h4⟩), if_neg h5]
  · rw [step]
    by_cases h1 : cantidad ≤ 0
    · simp [h1]
    by_cases h2 : precio ≤ 0
    · simp [h1, h2]
    by_cases h3 : descuento < 0 ∨ 100 < descuento
    · simp only [h1, h2, h3, if_true, if_false]
      constructor
      · intro _; tauto
      · intro _; exact ⟨_, rfl⟩
    by_cases h4 : (newDate h orderData.fechaEntrega).lt h.hoyDate = true
    · simp [h1, h2, h3, h4]
    · simp only [h1, h2, h3, h4, if_false, recordingOrderRepository]
      constructor
      · rintro ⟨err, herr⟩; cases herr
      · intro hx; exfalso; tauto
  · rw [step]
    by_cases h1 : cantidad ≤ 0
    · simp [h1]
    by_cases h2 : precio ≤ 0
    · simp [h1, h2]
    by_cases h3 : descuento < 0 ∨ 100 < descuento
    · simp [h1, h2, h3]
    by_cases h4 : (newDate h orderData.fechaEntrega).lt h.hoyDate = true
    · simp [h1, h2, h3, h4]
    · simp [h1, h2, h3, h4, recordingOrderRepository]

/-- The test `should throw error if cantidad is less than or equal to 0`:
the request with `cantidad` 0 is rejected. -/
theorem createOrder_rejects_iff_witness :
    ∃ err, (OrderService.createOrder (recordingOrderRepository {}) sampleHost
      { validOrderData with cantidad := .lit 0 } []).1 = .error err :=
  (((createOrder_rejects_iff sampleHost { validOrderData with cantidad := .lit 0 } 0 1500 10
    rfl rfl rfl).2.2 {} []).1).mpr (Or.inl le_rfl)

/-- Claim C10, the code at the request `minimalData` of the unit tests, which
omits `descuento` and `estado`: `createOrder` accepts it and hands the
repository an entity with `descuento` 0 and `estado` `pendiente`, but its
`total` is `NaN`, not `precio * cantidad = 1000`: the total is computed from
`orderData.descuento`, which is `undefined`, and not from the default. -/
theorem createOrder_omitted_descuento_total_nan :
    OrderService.createOrder (recordingOrderRepository {}) sampleHost minimalData [] =
      (.ok { id := .null
             producto := .str "Laptop Dell XPS"
             descripcion := .str "High-end laptop"
             cantidad := .lit 1
             precio := .lit 1000
             descuento := .lit 0
             total := .num .nan
             cliente := .str "Juan Pérez"
             estado := .str "pendiente"
             fechaEntrega := ⟨some 1781481600000⟩ },
        [.create { id := .null
                   producto := .str "Laptop Dell XPS"
                   descripcion := .str "High-end laptop"
                   cantidad := .lit 1
                   precio := .lit 1000
                   descuento := .lit 0
                   total := .num .nan
                   cliente := .str "Juan Pérez"
                   estado := .str "pendiente"
                   fechaEntrega := ⟨some 1781481600000⟩ }]) := by
  have hf : (newDate sampleHost (.str "2026-06-15")).lt sampleHost.hoyDate = false := by decide
  simp [OrderService.createOrder, recordingOrderRepository, minimalData, JsVal.lit,
    JsVal.le_num, JsVal.lt_num, JsVal.gt_num, JsVal.toNumber, JsNum.le_fin, JsNum.lt, hf,
    JsNum.mul, JsNum.sub, JsNum.div100, JsVal.or, JsVal.toBoolean]
  rfl

/-! ## Updating an order -/

theorem JsVal.mergedByTruthiness_or (a b : JsVal) : MergedByTruthiness a b (a.or b) := by
  constructor <;> intro ha <;> simp [JsVal.or, ha]

/-- Claim C11, as amended: when `updateOrder` passes its validation (it
resolves against a repository whose writes resolve), the call is the
repository's `update` under the given id on an entity with that id, in which
`producto`, `descripcion`, `cantidad`, `precio`, `cliente` and `estado` are
the payload's value when that value is truthy and the existing order's value
when it is omitted or falsy, `descuento` is the payload's value unless it is
omitted, `fechaEntrega` is the date of the payload's value when that is truthy
and the existing date otherwise, and `total` is
`precio * cantidad * (1 - descuento / 100)` over the entity's own `cantidad`,
`precio` and `descuento` when these have finite numeric values. -/
theorem updateOrder_entity_merges_payload (h : Host) (id : String) (orderData : OrderData)
    (existingOrder : Order) (log : List OrderWrite) (r : Option Order)
    (hres : (OrderService.updateOrder
      (recordingOrderRepository { getById := some existingOrder }) h id orderData log).1
        = .ok r) :
    ∃ e : Order,
      (∀ (σ : Type) (repo : OrderRepository σ) (s s1 : σ),
        repo.getById (.str id) s = (.ok (some existingOrder), s1) →
        OrderService.updateOrder repo h id orderData s = repo.update (.str id) e s1) ∧
      e.id = .str id ∧
      MergedByTruthiness orderData.producto existingOrder.producto e.producto ∧
      MergedByTruthiness orderData.descripcion existingOrder.descripcion e.descripcion ∧
      MergedByTruthiness orderData.cantidad existingOrder.cantidad e.cantidad ∧
      MergedByTruthiness orderData.precio existingOrder.precio e.precio ∧
      MergedByPresence orderData.descuento existingOrder.descuento e.descuento ∧
      MergedByTruthiness orderData.cliente existingOrder.cliente e.cliente ∧
      MergedByTruthiness orderData.estado existingOrder.estado e.estado ∧
      (orderData.fechaEntrega.toBoolean = true →
        e.fechaEntrega = newDate h orderData.fechaEntrega) ∧
      (orderData.fechaEntrega.toBoolean = false →
        e.fechaEntrega = existingOrder.fechaEntrega) ∧
      (∀ cantidad precio descuento : ℚ, e.cantidad.toNumber = .fin cantidad →
        e.precio.toNumber = .fin precio → e.descuento.toNumber = .fin descuento →
        e.total = .lit (precio * cantidad * (1 - descuento / 100))) := by
  cases h1 : (orderData.cantidad.toBoolean && orderData.cantidad.le (.lit 0))
  case true =>
    simp only [OrderService.updateOrder, recordingOrderRepository, h1] at hres
    simp at hres
  cases h2 : (orderData.precio.toBoolean && orderData.precio.le (.lit 0))
  case true =>
    simp only [OrderService.updateOrder, recordingOrderRepository, h1, h2] at hres
    simp at hres
  cases h3 : (decide (orderData.descuento ≠ .undefined) &&
      (orderData.descuento.lt (.lit 0) || orderData.descuento.gt (.lit 100)))
  case true =>
    simp only [OrderService.updateOrder, recordingOrderRepository, h1, h2, h3] at hres
    simp at hres
  cases h4 : (orderData.fechaEntrega.toBoolean &&
      (newDate h orderData.fechaEntrega).lt h.hoyDate)
  case true =>
    simp only [OrderService.updateOrder, recordingOrderRepository, h1, h2, h3, h4] at hres
    simp at hres
  refine ⟨
    { id := .str id
      producto := orderData.producto.or existingOrder.producto
      descripcion := orderData.descripcion.or existingOrder.descripcion
      cantidad := orderData.cantidad.or existingOrder.cantidad
      precio := orderData.precio.or existingOrder.precio
      descuento :=
        if orderData.descuento ≠ .undefined then orderData.descuento
        else existingOrder.descuento
      total := .num (((orderData.precio.or existingOrder.precio).toNumber.mul
          (orderData.cantidad.or existingOrder.cantidad).toNumber).sub
        (((orderData.precio.or existingOrder.precio).toNumber.mul
          (orderData.cantidad.or existingOrder.cantidad).toNumber).mul
          (if orderData.descuento ≠ .undefined then orderData.descuento
            else existingOrder.descuento).toNumber.div100))
      cliente := orderData.cliente.or existingOrder.cliente
      estado := orderData.estado.or existingOrder.estado
      fechaEntrega :=
        if orderData.fechaEntrega.toBoolean then newDate h orderData.fechaEntrega
        else existingOrder.fechaEntrega },
    ?_, rfl, JsVal.mergedByTruthiness_or _ _, JsVal.mergedByTruthiness_or _ _,
    JsVal.mergedByTruthiness_or _ _, JsVal.mergedByTruthiness_or _ _, ?_,
    JsVal.mergedByTruthiness_or _ _, JsVal.mergedByTruthiness_or _ _, ?_, ?_, ?_⟩
  · intro σ repo s s1 hfound
    simp only [OrderService.updateOrder, hfound, h1, h2, h3, h4]
    rfl
  · constructor <;> intro hd <;> simp [hd]
  · intro hf; simp [hf]
  · intro hf; simp [hf]
  · intro cantidad precio descuento hc hp hd
    simp only [] at hc hp hd
    rw [hc, hp, hd]
    have e1 : precio * cantidad - precio * cantidad * (descuento / 100)
        = precio * cantidad * (1 - descuento / 100) := by ring
    simp [JsNum.mul, JsNum.sub, JsNum.div100, JsVal.lit, e1]

/-- The test `should recalculate total when cantidad or precio changes`:
the order (2, 1500, 10 percent) updated with `cantidad` 5 and `precio` 2000 is
written with the total 9000. -/
theorem updateOrder_entity_merges_payload_witness :
    ∃ e : Order,
      OrderService.updateOrder (recordingOrderRepository { getById := some (sampleOrder "pendiente") })
        sampleHost "1" { cantidad := .lit 5, precio := .lit 2000 } []
        = (.ok (some e), [.update (.str "1") e]) ∧
      e.total = .lit 9000 := by
  obtain ⟨e, hcall, -, -, -, hc, hp, hd, -, -, -, -, htotal⟩ :=
    updateOrder_entity_merges_payload sampleHost "1" { cantidad := .lit 5, precio := .lit 2000 }
      (sampleOrder "pendiente") [] (some
        { sampleOrder "pendiente" with
          cantidad := .lit 5
          precio := .lit 2000
          total := .num (((JsNum.fin 2000).mul (.fin 5)).sub
            (((JsNum.fin 2000).mul (.fin 5)).mul (JsNum.fin 10).div100)) })
      (by
        norm_num [OrderService.updateOrder, recordingOrderRepository, JsVal.lit,
          JsVal.toBoolean, JsVal.le_num, JsVal.toNumber, JsNum.le_fin, JsVal.or, sampleOrder])
  refine ⟨e, ?_, ?_⟩
  · rw [hcall _ (recordingOrderRepository { getById := some (sampleOrder "pendiente") }) [] [] rfl]
    rfl
  · have hc5 : e.cantidad = .lit 5 := hc.1 (by simp [JsVal.lit, JsVal.toBoolean])
    have hp5 : e.precio = .lit 2000 := hp.1 (by simp [JsVal.lit, JsVal.toBoolean])
    have hd5 : e.descuento = .lit 10 := hd.2 rfl
    have := htotal 5 2000 10 (by rw [hc5]; rfl) (by rw [hp5]; rfl) (by rw [hd5]; rfl)
    rw [this]
    norm_num

/-- Claim C11 as stated fails: for the order of the unit tests and the
payload that supplies `descripcion` as the empty string, `updateOrder` passes
validation and writes an entity whose `descripcion` is the existing one,
"High-end laptop", not the value supplied. -/
theorem updateOrder_supplied_empty_string_falls_back :
    ∃ e : Order,
      OrderService.updateOrder (recordingOrderRepository { getById := some (sampleOrder "pendiente") })
        sampleHost "1" { descripcion := .str "" } []
        = (.ok (some e), [.update (.str "1") e]) ∧
      e.descripcion = .str "High-end laptop" ∧ e.descripcion ≠ .str "" := by
  refine ⟨{ sampleOrder "pendiente" with
    total := .num (((JsNum.fin 1500).mul (.fin 2)).sub
      (((JsNum.fin 1500).mul (.fin 2)).mul (JsNum.fin 10).div100)) }, ?_, rfl, by decide⟩
  simp [OrderService.updateOrder, recordingOrderRepository, JsVal.lit, JsVal.toBoolean,
    JsVal.toNumber, JsVal.or, sampleOrder]

/-- Claim C12, the code at the payload that supplies `cantidad` 0 for the
order of the unit tests: `updateOrder` does not reject it. The guard
`orderData.cantidad && orderData.cantidad <= 0` is skipped because 0 is falsy,
the merge `orderData.cantidad || existingOrder.cantidad` keeps the existing
`cantidad` 2, and the order is written. -/
theorem updateOrder_cantidad_zero_not_rejected :
    OrderService.updateOrder (recordingOrderRepository { getById := some (sampleOrder "pendiente") })
        sampleHost "1" { cantidad := .lit 0 } [] =
      (.ok (some (sampleOrder "pendiente")), [.update (.str "1") (sampleOrder "pendiente")]) := by
  norm_num [OrderService.updateOrder, recordingOrderRepository, JsVal.lit, JsVal.toBoolean,
    JsVal.toNumber, JsVal.or, sampleOrder, JsNum.mul, JsNum.sub, JsNum.div100]

/-- The part of claim C12 that the code keeps: for an order found by id,
`updateOrder` rejects, with the store as the read left it, a payload whose
`cantidad` is a non-zero number `<= 0`, or whose `precio` is a non-zero number
`<= 0`, or whose `descuento` is a number `< 0` or `> 100`, or whose
`fechaEntrega` is truthy and before today's midnight. -/
theorem updateOrder_rejects_nonzero_invalid {σ : Type} (repo : OrderRepository σ) (h : Host)
    (id : String) (orderData : OrderData) (s s1 : σ) (existingOrder : Order)
    (hfound : repo.getById (.str id) s = (.ok (some existingOrder), s1)) :
    (∀ c : ℚ, orderData.cantidad = .lit c → c < 0 →
      OrderService.updateOrder repo h id orderData s =
        (.error (.generic "La cantidad debe ser mayor a 0"), s1)) ∧
    (∀ p : ℚ, orderData.precio = .lit p → p < 0 →
      ∃ msg, OrderService.updateOrder repo h id orderData s = (.error (.generic msg), s1)) ∧
    (∀ d : ℚ, orderData.descuento = .lit d → d < 0 ∨ 100 < d →
      ∃ msg, OrderService.updateOrder repo h id orderData s = (.error (.generic msg), s1)) ∧
    (orderData.fechaEntrega.toBoolean = true →
      (newDate h orderData.fechaEntrega).lt h.hoyDate = true →
      ∃ msg, OrderService.updateOrder repo h id orderData s = (.error (.generic msg), s1)) := by
  refine ⟨fun c hc hneg => ?_, fun p hp hneg => ?_, fun d hd hout => ?_, fun ht hpast => ?_⟩
  · have hb : (orderData.cantidad.toBoolean && orderData.cantidad.le (.lit 0)) = true := by
      simp [hc, JsVal.lit, JsVal.toBoolean, JsVal.le_num, JsVal.toNumber, JsNum.le_fin,
        hneg.ne, hneg.le]
    simp only [OrderService.updateOrder, hfound, hb, if_true]
  · have hb : (orderData.precio.toBoolean && orderData.precio.le (.lit 0)) = true := by
      simp [hp, JsVal.lit, JsVal.toBoolean, JsVal.le_num, JsVal.toNumber, JsNum.le_fin,
        hneg.ne, hneg.le]
    simp only [OrderService.updateOrder, hfound, hb]
    split_ifs <;> exact ⟨_, rfl⟩
  · have hb : (decide (orderData.descuento ≠ .undefined) &&
        (orderData.descuento.lt (.lit 0) || orderData.descuento.gt (.lit 100))) = true := by
      rcases hout with hlt | hgt
      · simp [hd, JsVal.lit, JsVal.lt_num, JsVal.gt_num, JsVal.toNumber, JsNum.lt_fin, hlt]
      · simp [hd, JsVal.lit, JsVal.lt_num, JsVal.gt_num, JsVal.toNumber, JsNum.lt_fin, hgt]
    simp only [OrderService.updateOrder, hfound, hb]
    split_ifs <;> exact ⟨_, rfl⟩
  · have hb : (orderData.fechaEntrega.toBoolean &&
        (newDate h orderData.fechaEntrega).lt h.hoyDate) = true := by
      simp [ht, hpast]
    simp only [OrderService.updateOrder, hfound, hb]
    split_ifs <;> exact ⟨_, rfl⟩

/-! ## Failures write nothing -/

/-- Claim C13: against the recording repository, whose reads and writes all
resolve, so that every rejection is one of the service's own (`NotFoundError`,
`ConflictError`, a validation or a business-rule error), each of `createOrder`,
`updateOrder`, `deleteOrder`, `cancelOrder`, `createCupon`, `updateCupon`,
`deleteCupon`, `usarCupon`, `deshabilitarCupon` and `habilitarCupon` that
rejects leaves the list of writes received as it was: no `create`, `update` or
`delete` has been invoked. -/
theorem rejected_operation_writes_nothing :
    (∀ (h : Host) (reads : OrderReads) (orderData : OrderData) (log : List OrderWrite) err,
      (OrderService.createOrder (recordingOrderRepository reads) h orderData log).1 = .error err →
      (OrderService.createOrder (recordingOrderRepository reads) h orderData log).2 = log) ∧
    (∀ (h : Host) (reads : OrderReads) (id : String) (orderData : OrderData)
      (log : List OrderWrite) err,
      (OrderService.updateOrder (recordingOrderRepository reads) h id orderData log).1
        = .error err →
      (OrderService.updateOrder (recordingOrderRepository reads) h id orderData log).2 = log) ∧
    (∀ (reads : OrderReads) (id : String) (log : List OrderWrite) err,
      (OrderService.deleteOrder (recordingOrderRepository reads) id log).1 = .error err →
      (OrderService.deleteOrder (recordingOrderRepository reads) id log).2 = log) ∧
    (∀ (reads : OrderReads) (id : String) (log : List OrderWrite) err,
      (OrderService.cancelOrder (recordingOrderRepository reads) id log).1 = .error err →
      (OrderService.cancelOrder (recordingOrderRepository reads) id log).2 = log) ∧
    (∀ (h : Host) (reads : CuponReads) (cuponData : CuponData) (log : List CuponWrite) err,
      (CuponService.createCupon (recordingCuponRepository reads) h cuponData log).1 = .error err →
      (CuponService.createCupon (recordingCuponRepository reads) h cuponData log).2 = log) ∧
    (∀ (h : Host) (reads : CuponReads) (id : String) (cuponData : CuponData)
      (log : List CuponWrite) err,
      (CuponService.updateCupon (recordingCuponRepository reads) h id cuponData log).1
        = .error err →
      (CuponService.updateCupon (recordingCuponRepository reads) h id cuponData log).2 = log) ∧
    (∀ (reads : CuponReads) (id : String) (log : List CuponWrite) err,
      (CuponService.deleteCupon (recordingCuponRepository reads) id log).1 = .error err →
      (CuponService.deleteCupon (recordingCuponRepository reads) id log).2 = log) ∧
    (∀ (h : Host) (reads : CuponReads) (codigo : String) (log : List CuponWrite) err,
      (CuponService.usarCupon (recordingCuponRepository reads) h codigo log).1 = .error err →
      (CuponService.usarCupon (recordingCuponRepository reads) h codigo log).2 = log) ∧
    (∀ (reads : CuponReads) (id : String) (log : List CuponWrite) err,
      (CuponService.deshabilitarCupon (recordingCuponRepository reads) id log).1 = .error err →
      (CuponService.deshabilitarCupon (recordingCuponRepository reads) id log).2 = log) ∧
    (∀ (reads : CuponReads) (id : String) (log : List CuponWrite) err,
      (CuponService.habilitarCupon (recordingCuponRepository reads) id log).1 = .error err →
      (CuponService.habilitarCupon (recordingCuponRepository reads) id log).2 = log) := by
  refine ⟨?_, ?_, ?_, ?_, ?_, ?_, ?_, ?_, ?_, ?_⟩
  · intro h reads orderData log err herr
    simp only [OrderService.createOrder, recordingOrderRepository] at herr ⊢
    split_ifs at herr ⊢ <;> simp_all
  · intro h reads id orderData log err herr
    rcases reads with ⟨ga, _ | order, ge⟩ <;>
      simp only [OrderService.updateOrder, recordingOrderRepository] at herr ⊢
    split_ifs at herr ⊢ <;> simp_all
  · intro reads id log err herr
    rcases reads with ⟨ga, _ | order, ge⟩ <;>
      simp only [OrderService.deleteOrder, recordingOrderRepository] at herr ⊢
    simp at herr
  · intro reads id log err herr
    rcases reads with ⟨ga, _ | order, ge⟩ <;>
      simp only [OrderService.cancelOrder, recordingOrderRepository] at herr ⊢
    split_ifs at herr ⊢ <;> simp_all
  · intro h reads cuponData log err herr
    rcases reads with ⟨ga, gi, _ | cupon, gact⟩ <;>
      simp only [CuponService.createCupon, recordingCuponRepository] at herr ⊢ <;>
      split_ifs at herr ⊢ <;> simp_all
  · intro h reads id cuponData log err herr
    rcases reads with ⟨ga, _ | cupon, gc, gact⟩ <;>
      simp only [CuponService.updateCupon, recordingCuponRepository] at herr ⊢
    split_ifs at herr ⊢ <;> simp_all
  · intro reads id log err herr
    rcases reads with ⟨ga, _ | cupon, gc, gact⟩ <;>
      simp only [CuponService.deleteCupon, recordingCuponRepository] at herr ⊢
    simp at herr
  · intro h reads codigo log err herr
    rcases reads with ⟨ga, gi, _ | cupon, gact⟩ <;>
      simp only [CuponService.usarCupon, recordingCuponRepository] at herr ⊢
    split_ifs at herr ⊢ <;> simp_all
  · intro reads id log err herr
    rcases reads with ⟨ga, _ | cupon, gc, gact⟩ <;>
      simp only [CuponService.deshabilitarCupon, recordingCuponRepository] at herr ⊢
    split_ifs at herr ⊢
    simp_all
  · intro reads id log err herr
    rcases reads with ⟨ga, _ | cupon, gc, gact⟩ <;>
      simp only [CuponService.habilitarCupon, recordingCuponRepository] at herr ⊢
    split_ifs at herr ⊢
    simp_all

/-! ## Creating a coupon -/

/-- The guards of `createCupon` all pass for a request whose `descuento` is a
number in `[0, 100]`, whose `usoMaximo` is a positive number and whose
expiration date is not before today's midnight: the method is then decided by
the lookup of the code. -/
theorem createCupon_of_valid {σ : Type} (repo : CuponRepository σ) (h : Host)
    (cuponData : CuponData) (s : σ) (descuento usoMaximo : ℚ)
    (hd : cuponData.descuento.toNumber = .fin descuento)
    (hd0 : 0 ≤ descuento) (hd1 : descuento ≤ 100)
    (hu : cuponData.usoMaximo.toNumber = .fin usoMaximo) (hu0 : 0 < usoMaximo)
    (hf : (newDate h cuponData.fechaExpiracion).lt h.hoyDate = false) :
    CuponService.createCupon repo h cuponData s =
      match repo.getByCodigo cuponData.codigo s with
      | (.error e, s1) => (.error e, s1)
      | (.ok (some _), s1) => (.error (.conflict cuponData.codigo), s1)
      | (.ok none, s1) =>
        repo.create
          { id := .null
            codigo := cuponData.codigo
            descuento := cuponData.descuento
            fechaExpiracion := newDate h cuponData.fechaExpiracion
            activo := if cuponData.activo ≠ .undefined then cuponData.activo else .bool true
            usoMaximo := cuponData.usoMaximo
            usoActual := .lit 0 } s1 := by
  simp [CuponService.createCupon, JsVal.lit, JsVal.lt_num, JsVal.gt_num, JsVal.le_num, hd, hu,
    JsNum.lt_fin, JsNum.le_fin, not_lt.mpr hd0, not_lt.mpr hd1, not_le.mpr hu0, hf]

/-- Claim C14: for an otherwise valid coupon request (`descuento` a number in
`[0, 100]`, `usoMaximo` positive, expiration date not before today) whose
`codigo` is a string, `createCupon` against the Mongo adapter rejects with
`ConflictError` and leaves the collection as it was whenever the collection
holds a coupon whose code is the upper-cased code of the request (the query
of `getByCodigo` upper-cases its argument); and against any repository whose
lookup of the code finds a coupon it rejects with `ConflictError` without a
write. -/
theorem createCupon_conflict_on_stored_code (h : Host) (cuponData : CuponData) (code : String)
    (c : CuponCollection) (descuento usoMaximo : ℚ)
    (hcodigo : cuponData.codigo = .str code)
    (hd : cuponData.descuento.toNumber = .fin descuento)
    (hd0 : 0 ≤ descuento) (hd1 : descuento ≤ 100)
    (hu : cuponData.usoMaximo.toNumber = .fin usoMaximo) (hu0 : 0 < usoMaximo)
    (hf : (newDate h cuponData.fechaExpiracion).lt h.hoyDate = false)
    (hstored : ∃ d ∈ c.docs, d.codigo = .str (codigoKey h.toUpperCase code)) :
    CuponService.createCupon (cuponMongoRepository h) h cuponData c =
        (.error (.conflict cuponData.codigo), c) ∧
      ∀ (σ : Type) (repo : CuponRepository σ) (s s1 : σ) (found : Cupon),
        repo.getByCodigo cuponData.codigo s = (.ok (some found), s1) →
        CuponService.createCupon repo h cuponData s =
          (.error (.conflict cuponData.codigo), s1) := by
  constructor
  · rw [createCupon_of_valid _ h cuponData c descuento usoMaximo hd hd0 hd1 hu hu0 hf, hcodigo]
    obtain ⟨d, hmem, hdc⟩ := hstored
    cases hfind : c.docs.find?
        (fun x => decide (x.codigo = .str (codigoKey h.toUpperCase code))) with
    | none =>
      rw [List.find?_eq_none] at hfind
      have := hfind d hmem
      simp [hdc] at this
    | some d1 =>
      simp only [codigoKey] at hfind
      simp only [cuponMongoRepository, CuponMongoRepository.getByCodigo,
        CuponMongoRepository.codigoSetter, trimSetter, uppercaseSetter, hfind]
  · intro σ repo s s1 found hfound
    rw [createCupon_of_valid repo h cuponData s descuento usoMaximo hd hd0 hd1 hu hu0 hf, hfound]

/-- The example of claim C14: creating `descuento10` conflicts with the
stored `DESCUENTO10` and the collection is unchanged. -/
theorem createCupon_conflict_on_stored_code_witness :
    CuponService.createCupon (cuponMongoRepository sampleHost) sampleHost
        { validCuponData 10 with codigo := .str "descuento10" } descuento10Cupons =
      (.error (.conflict (.str "descuento10")), descuento10Cupons) :=
  (createCupon_conflict_on_stored_code sampleHost
    { validCuponData 10 with codigo := .str "descuento10" } "descuento10" descuento10Cupons
    10 100 rfl rfl (by norm_num) (by norm_num) rfl (by norm_num) (by decide)
    ⟨descuento10Doc, by simp [descuento10Cupons], by decide⟩).1

/-- Claim C15: whenever `createCupon` accepts a request (it resolves against
a repository whose writes resolve), it has written exactly one entity, with
`id` null, with `usoActual` 0 whatever `usoActual` the request carries, with
`activo` true when the request omits `activo` and with the request's `activo`
when it is supplied, `false` included; and against any repository that does
not hold the code the call is the `create` of that entity. -/
theorem createCupon_entity_defaults (h : Host) (reads : CuponReads) (cuponData : CuponData)
    (log : List CuponWrite) (r : Cupon)
    (hres : (CuponService.createCupon (recordingCuponRepository reads) h cuponData log).1
      = .ok r) :
    ∃ e : Cupon,
      (CuponService.createCupon (recordingCuponRepository reads) h cuponData log).2
        = log ++ [.create e] ∧
      (∀ (σ : Type) (repo : CuponRepository σ) (s s1 : σ),
        repo.getByCodigo cuponData.codigo s = (.ok none, s1) →
        CuponService.createCupon repo h cuponData s = repo.create e s1) ∧
      e.id = .null ∧ e.usoActual = .lit 0 ∧
      (cuponData.activo = .undefined → e.activo = .bool true) ∧
      (cuponData.activo ≠ .undefined → e.activo = cuponData.activo) ∧
      (∀ b : Bool, cuponData.activo = .bool b → e.activo = .bool b) := by
  cases h1 : (cuponData.descuento.lt (.lit 0) || cuponData.descuento.gt (.lit 100))
  case true =>
    simp only [CuponService.createCupon, h1] at hres
    simp at hres
  cases h2 : cuponData.usoMaximo.le (.lit 0)
  case true =>
    simp only [CuponService.createCupon, h1, h2] at hres
    simp at hres
  cases h3 : (newDate h cuponData.fechaExpiracion).lt h.hoyDate
  case true =>
    simp only [CuponService.createCupon, h1, h2, h3] at hres
    simp at hres
  cases h4 : reads.getByCodigo
  case some found =>
    simp only [CuponService.createCupon, recordingCuponRepository, h1, h2, h3, h4] at hres
    simp at hres
  refine ⟨
    { id := .null
      codigo := cuponData.codigo
      descuento := cuponData.descuento
      fechaExpiracion := newDate h cuponData.fechaExpiracion
      activo := if cuponData.activo ≠ .undefined then cuponData.activo else .bool true
      usoMaximo := cuponData.usoMaximo
      usoActual := .lit 0 }, ?_, ?_, rfl, rfl, ?_, ?_, ?_⟩
  · simp only [CuponService.createCupon, recordingCuponRepository, h1, h2, h3, h4]
    simp
  · intro σ repo s s1 hnone
    simp only [CuponService.createCupon, h1, h2, h3, hnone]
    simp
  · intro ha; simp [ha]
  · intro ha; simp [ha]
  · intro b hb; simp [hb]

/-- The tests `should set activo to true by default` and
`should set usoActual to 0`: the request without `activo` is written with
`activo` true and `usoActual` 0. -/
theorem createCupon_entity_defaults_witness :
    ∃ e : Cupon,
      (CuponService.createCupon (recordingCuponRepository {}) sampleHost
        { codigo := .str "DESCUENTO10", descuento := .lit 10, fechaExpiracion := .str "2026-12-31",
          usoMaximo := .lit 100, usoActual := .lit 7 } []).2 = [.create e] ∧
      e.usoActual = .lit 0 ∧ e.activo = .bool true := by
  obtain ⟨e, hlog, -, -, huso, hact, -, -⟩ := createCupon_entity_defaults sampleHost {}
    { codigo := .str "DESCUENTO10", descuento := .lit 10, fechaExpiracion := .str "2026-12-31",
      usoMaximo := .lit 100, usoActual := .lit 7 } []
    { id := .null, codigo := .str "DESCUENTO10", descuento := .lit 10,
      fechaExpiracion := ⟨some 1798675200000⟩, activo := .bool true, usoMaximo := .lit 100,
      usoActual := .lit 0 }
    (by
      have hf : (newDate sampleHost (.str "2026-12-31")).lt sampleHost.hoyDate = false := by
        decide
      norm_num [CuponService.createCupon, recordingCuponRepository, JsVal.lit, JsVal.lt_num,
        JsVal.gt_num, JsVal.le_num, JsVal.toNumber, JsNum.lt_fin, JsNum.le_fin, hf]
      rfl)
  exact ⟨e, by simpa using hlog, huso, hact rfl⟩

/-- Claim C16: `createCupon` rejects with a `BadRequestError`, whatever the
repository is and with the store untouched (so before the lookup of the code
and without a write), every request whose `usoMaximo` is a number `<= 0` and
every request whose expiration date is before today's midnight; and a request
with a valid `descuento` and `usoMaximo` whose expiration date is today's
midnight or later is not rejected: it goes on to the lookup of the code and,
when the code is free, is created. -/
theorem createCupon_rejects_usoMaximo_and_past_date (h : Host) (cuponData : CuponData) :
    (∀ usoMaximo : ℚ, cuponData.usoMaximo.toNumber = .fin usoMaximo → usoMaximo ≤ 0 →
      ∃ msg, ∀ (σ : Type) (repo : CuponRepository σ) (s : σ),
        CuponService.createCupon repo h cuponData s = (.error (.badRequest msg), s)) ∧
    (∀ t : Int, (newDate h cuponData.fechaExpiracion).time = some t → t < h.hoy →
      ∃ msg, ∀ (σ : Type) (repo : CuponRepository σ) (s : σ),
        CuponService.createCupon repo h cuponData s = (.error (.badRequest msg), s)) ∧
    (∀ (descuento usoMaximo : ℚ) (t : Int),
      cuponData.descuento.toNumber = .fin descuento → 0 ≤ descuento → descuento ≤ 100 →
      cuponData.usoMaximo.toNumber = .fin usoMaximo → 0 < usoMaximo →
      (newDate h cuponData.fechaExpiracion).time = some t → h.hoy ≤ t →
      ∀ log : List CuponWrite,
        ∃ r, CuponService.createCupon (recordingCuponRepository {}) h cuponData log
          = (.ok r, log ++ [.create r])) := by
  refine ⟨fun u hu hu0 => ?_, fun t ht hlt => ?_, fun d u t hd hd0 hd1 hu hu0 ht hle log => ?_⟩
  · by_cases h1 : (cuponData.descuento.lt (.lit 0) || cuponData.descuento.gt (.lit 100)) = true
    · exact ⟨"Discount must be between 0 and 100", fun σ repo s => by
        simp [CuponService.createCupon, h1]⟩
    · refine ⟨"usoMaximo must be greater than 0", fun σ repo s => ?_⟩
      have h2 : cuponData.usoMaximo.le (.lit 0) = true := by
        simp [JsVal.lit, JsVal.le_num, hu, JsNum.le_fin, hu0]
      simp [CuponService.createCupon, h1, h2]
  · have h3 : (newDate h cuponData.fechaExpiracion).lt h.hoyDate = true := by
      simp [JsDate.lt, Host.hoyDate, ht, hlt]
    by_cases h1 : (cuponData.descuento.lt (.lit 0) || cuponData.descuento.gt (.lit 100)) = true
    · exact ⟨"Discount must be between 0 and 100", fun σ repo s => by
        simp [CuponService.createCupon, h1]⟩
    by_cases h2 : cuponData.usoMaximo.le (.lit 0) = true
    · exact ⟨"usoMaximo must be greater than 0", fun σ repo s => by
        simp [CuponService.createCupon, h1, h2]⟩
    · exact ⟨"Expiration date cannot be in the past", fun σ repo s => by
        simp [CuponService.createCupon, h1, h2, h3]⟩
  · have hf : (newDate h cuponData.fechaExpiracion).lt h.hoyDate = false := by
      simp [JsDate.lt, Host.hoyDate, ht, hle]
    rw [createCupon_of_valid _ h cuponData log d u hd hd0 hd1 hu hu0 hf]
    exact ⟨_, rfl⟩

/-- The tests of claim C16: the request with `usoMaximo` 0 is rejected
before any repository call. -/
theorem createCupon_rejects_usoMaximo_and_past_date_witness :
    ∃ msg, ∀ (σ : Type) (repo : CuponRepository σ) (s : σ),
      CuponService.createCupon repo sampleHost
        { validCuponData 10 with usoMaximo := .lit 0 } s = (.error (.badRequest msg), s) :=
  (createCupon_rejects_usoMaximo_and_past_date sampleHost
    { validCuponData 10 with usoMaximo := .lit 0 }).1 0 rfl le_rfl

/-! ## Expiration on use, enabling and disabling -/

/-- Claim C17, the code on a coupon that expires today: at 10:00 on
2026-01-10 `createCupon` accepts the expiration date `2026-01-10`, today's
midnight, and `usarCupon` on an active coupon with that expiration date and 5
uses of 100 rejects with "Cupon has expired": `usarCupon` compares the date
with `new Date()`, the clock, where `createCupon` compares it with today's
midnight. -/
theorem usarCupon_rejects_coupon_expiring_today :
    (∃ e : Cupon,
      CuponService.createCupon (recordingCuponRepository {}) todayHost
          { validCuponData 10 with fechaExpiracion := .str "2026-01-10" } []
        = (.ok e, [.create e]) ∧
      e.fechaExpiracion = ⟨some todayHost.hoy⟩) ∧
    CuponService.usarCupon
        (recordingCuponRepository
          { getByCodigo := some { sampleCupon true 5 with fechaExpiracion := ⟨some todayHost.hoy⟩ } })
        todayHost "DESCUENTO10" []
      = (.error (.badRequest "Cupon has expired"), []) := by
  constructor
  · have hf : (newDate todayHost (.str "2026-01-10")).lt todayHost.hoyDate = false := by decide
    refine ⟨{ id := .null
              codigo := .str "DESCUENTO10"
              descuento := .lit 10
              fechaExpiracion := ⟨some todayHost.hoy⟩
              activo := .bool true
              usoMaximo := .lit 100
              usoActual := .lit 0 }, ?_, rfl⟩
    norm_num [CuponService.createCupon, recordingCuponRepository, validCuponData, JsVal.lit,
      JsVal.lt_num, JsVal.gt_num, JsVal.le_num, JsVal.toNumber, JsNum.lt_fin, JsNum.le_fin, hf]
    rfl
  · have he : (⟨some todayHost.hoy⟩ : JsDate).lt todayHost.nowDate = true := by decide
    simp [CuponService.usarCupon, recordingCuponRepository, sampleCupon, JsVal.toBoolean, he]

/-- Claim C18: for a coupon found by id, `deshabilitarCupon` rejects with
"Cupon is already disabled" when `activo` is false (falsy), and otherwise is
the repository's `update` under the coupon's id on the coupon with `activo`
replaced by `false`, all other fields as read; against a repository whose
writes resolve it rejects if and only if `activo` is false. -/
theorem deshabilitarCupon_sets_activo_false {σ : Type} (repo : CuponRepository σ)
    (id : String) (s s1 : σ) (cupon : Cupon)
    (hfound : repo.getById (.str id) s = (.ok (some cupon), s1)) :
    (cupon.activo.toBoolean = false →
      CuponService.deshabilitarCupon repo id s =
        (.error (.badRequest "Cupon is already disabled"), s1)) ∧
    (cupon.activo.toBoolean = true →
      CuponService.deshabilitarCupon repo id s =
        repo.update cupon.id { cupon with activo := .bool false } s1) ∧
    (∀ log : List CuponWrite,
      (∃ err, (CuponService.deshabilitarCupon
          (recordingCuponRepository { getById := some cupon }) id log).1 = .error err) ↔
        cupon.activo.toBoolean = false) ∧
    (∀ b : Bool, cupon.activo = .bool b → (cupon.activo.toBoolean = false ↔ b = false)) := by
  refine ⟨fun ha => ?_, fun ha => ?_, fun log => ?_, fun b hb => ?_⟩
  · simp [CuponService.deshabilitarCupon, hfound, ha]
  · simp [CuponService.deshabilitarCupon, hfound, ha]
  · cases ha : cupon.activo.toBoolean <;>
      simp [CuponService.deshabilitarCupon, recordingCuponRepository, ha]
  · simp [hb, JsVal.toBoolean]

/-- The test `should disable an active coupon`: the entity written is the
coupon read with `activo` false. -/
theorem deshabilitarCupon_sets_activo_false_witness :
    CuponService.deshabilitarCupon
        (recordingCuponRepository { getById := some (sampleCupon true 5) }) "1" [] =
      (.ok (some (sampleCupon false 5)), [.update (.str "1") (sampleCupon false 5)]) :=
  (deshabilitarCupon_sets_activo_false
    (recordingCuponRepository { getById := some (sampleCupon true 5) }) "1" [] []
    (sampleCupon true 5) rfl).2.1 rfl

/-- A coupon found by `findById` is in the collection under that id. -/
theorem CuponMongoRepository.findCupon_some {id : String} {c : CuponCollection} {d : CuponDoc}
    (hfind : CuponMongoRepository.findById (.str id) c = some d) :
    d ∈ c.docs ∧ d.oid = id := by
  unfold CuponMongoRepository.findById at hfind
  exact ⟨List.mem_of_find?_eq_some hfind, by simpa using List.find?_some hfind⟩

/-- Claim C19: for a coupon found by id, `habilitarCupon` rejects with
"Cupon is already enabled" when `activo` is true (truthy), and otherwise is
the repository's `update` under the coupon's id on the coupon with `activo`
replaced by `true`, all other fields as read; against a repository whose
writes resolve it rejects if and only if `activo` is true. And against the
Mongo adapter, for a stored coupon with `activo` true whose code the schema
setters leave as it is, `deshabilitarCupon` followed by `habilitarCupon`
resolves to the original coupon, which is what the collection then holds
under the id. -/
theorem habilitarCupon_sets_activo_true {σ : Type} (repo : CuponRepository σ)
    (id : String) (s s1 : σ) (cupon : Cupon)
    (hfound : repo.getById (.str id) s = (.ok (some cupon), s1)) :
    (cupon.activo.toBoolean = true →
      CuponService.habilitarCupon repo id s =
        (.error (.badRequest "Cupon is already enabled"), s1)) ∧
    (cupon.activo.toBoolean = false →
      CuponService.habilitarCupon repo id s =
        repo.update cupon.id { cupon with activo := .bool true } s1) ∧
    (∀ log : List CuponWrite,
      (∃ err, (CuponService.habilitarCupon
          (recordingCuponRepository { getById := some cupon }) id log).1 = .error err) ↔
        cupon.activo.toBoolean = true) ∧
    (∀ (h : Host) (key : String) (c : CuponCollection) (doc : CuponDoc),
      CuponMongoRepository.findById (.str key) c = some doc →
      doc.activo = .bool true →
      CuponMongoRepository.codigoSetter h doc.codigo = doc.codigo →
      ∃ c1 c2 : CuponCollection,
        CuponService.deshabilitarCupon (cuponMongoRepository h) key c =
          (.ok (some (CuponMongoRepository.toEntity { doc with activo := .bool false })), c1) ∧
        CuponService.habilitarCupon (cuponMongoRepository h) key c1 =
          (.ok (some (CuponMongoRepository.toEntity doc)), c2) ∧
        CuponMongoRepository.findById (.str key) c2 = some doc) := by
  refine ⟨fun ha => ?_, fun ha => ?_, fun log => ?_, fun h key c doc hfind hact hcod => ?_⟩
  · simp [CuponService.habilitarCupon, hfound, ha]
  · simp [CuponService.habilitarCupon, hfound, ha]
  · cases ha : cupon.activo.toBoolean <;>
      simp [CuponService.habilitarCupon, recordingCuponRepository, ha]
  · obtain ⟨hmem, hid⟩ := CuponMongoRepository.findCupon_some hfind
    subst hid
    -- the entity written by the first call and the document it leaves
    obtain ⟨e1, he1⟩ : ∃ e1 : Cupon, e1 =
        { CuponMongoRepository.toEntity doc with activo := .bool false } := ⟨_, rfl⟩
    have hset1 : CuponMongoRepository.setFields h e1 doc = { doc with activo := .bool false } := by
      simp [CuponMongoRepository.setFields, he1, CuponMongoRepository.toEntity, hcod]
    have hupd1 := CuponMongoRepository.updateCupon_of_mem h doc.oid e1 c doc hmem rfl
    have hfind1 := CuponMongoRepository.findCupon_after_setFields h doc.oid e1 c doc hmem rfl
    rw [hset1] at hupd1 hfind1
    obtain ⟨c1, hc1⟩ : ∃ c1 : CuponCollection, c1 =
        { c with
          docs := c.docs.map fun d =>
            if JsVal.str d.oid = .str doc.oid then CuponMongoRepository.setFields h e1 d
            else d } := ⟨_, rfl⟩
    rw [← hc1] at hupd1 hfind1
    obtain ⟨hmem1, -⟩ := CuponMongoRepository.findCupon_some hfind1
    -- the entity written by the second call and the document it leaves
    obtain ⟨e2, he2⟩ : ∃ e2 : Cupon, e2 =
        { CuponMongoRepository.toEntity { doc with activo := .bool false } with
          activo := .bool true } := ⟨_, rfl⟩
    have hset2 : CuponMongoRepository.setFields h e2 { doc with activo := .bool false }
        = doc := by
      cases doc
      simp_all [CuponMongoRepository.setFields, CuponMongoRepository.toEntity]
    have hupd2 := CuponMongoRepository.updateCupon_of_mem h doc.oid e2 c1
      { doc with activo := .bool false } hmem1 rfl
    have hfind2 := CuponMongoRepository.findCupon_after_setFields h doc.oid e2 c1
      { doc with activo := .bool false } hmem1 rfl
    rw [hset2] at hupd2 hfind2
    refine ⟨c1, _, ?_, ?_, hfind2⟩
    · simp only [CuponService.deshabilitarCupon, cuponMongoRepository,
        CuponMongoRepository.getById, hfind]
      have hb : (CuponMongoRepository.toEntity doc).activo.toBoolean = true := by
        simp [CuponMongoRepository.toEntity, hact, JsVal.toBoolean]
      simp only [hb, Bool.not_true, Bool.false_eq_true, if_false]
      rw [← hupd1, he1]
      rfl
    · simp only [CuponService.habilitarCupon, cuponMongoRepository,
        CuponMongoRepository.getById, hfind1]
      have hb : (CuponMongoRepository.toEntity
          { doc with activo := .bool false }).activo.toBoolean = false := by
        simp [CuponMongoRepository.toEntity, JsVal.toBoolean]
      simp only [hb, Bool.false_eq_true, if_false]
      rw [← hupd2, he2]
      rfl

/-- The test `should enable an inactive coupon`: the entity written is the
coupon read with `activo` true. -/
theorem habilitarCupon_sets_activo_true_witness :
    CuponService.habilitarCupon
        (recordingCuponRepository { getById := some (sampleCupon false 5) }) "1" [] =
      (.ok (some (sampleCupon true 5)), [.update (.str "1") (sampleCupon true 5)]) :=
  (habilitarCupon_sets_activo_true
    (recordingCuponRepository { getById := some (sampleCupon false 5) }) "1" [] []
    (sampleCupon false 5) rfl).2.1 rfl

/-! ## Updating a coupon -/

/-- Claim C20: for a coupon found by id, `updateCupon` rejects with a
`BadRequestError`, with the store as the read left it (nothing is written), a
payload that supplies a `descuento` with a numeric value `< 0` or `> 100`, or a
`usoMaximo` with a numeric value `<= 0` (0 included), or an expiration date
(a truthy value, such as a date string) before today's midnight; and it never
rejects because of a field the payload omits: against a repository whose
writes resolve, a rejection means that a supplied `descuento` is out of range,
or a supplied `usoMaximo` is `<= 0`, or a supplied expiration date is in the
past, so the empty payload is always accepted. -/
theorem updateCupon_validates_supplied_fields {σ : Type} (repo : CuponRepository σ)
    (h : Host) (id : String) (cuponData : CuponData) (s s1 : σ) (existingCupon : Cupon)
    (hfound : repo.getById (.str id) s = (.ok (some existingCupon), s1)) :
    (∀ descuento : ℚ, cuponData.descuento.toNumber = .fin descuento →
      descuento < 0 ∨ 100 < descuento →
      CuponService.updateCupon repo h id cuponData s =
        (.error (.badRequest "Discount must be between 0 and 100"), s1)) ∧
    (∀ usoMaximo : ℚ, cuponData.usoMaximo.toNumber = .fin usoMaximo → usoMaximo ≤ 0 →
      ∃ msg, CuponService.updateCupon repo h id cuponData s = (.error (.badRequest msg), s1)) ∧
    (cuponData.fechaExpiracion.toBoolean = true →
      (newDate h cuponData.fechaExpiracion).lt h.hoyDate = true →
      ∃ msg, CuponService.updateCupon repo h id cuponData s = (.error (.badRequest msg), s1)) ∧
    (∀ (log : List CuponWrite) (err : ServiceError),
      (CuponService.updateCupon (recordingCuponRepository { getById := some existingCupon })
        h id cuponData log).1 = .error err →
      (cuponData.descuento ≠ .undefined ∧
          (cuponData.descuento.lt (.lit 0) = true ∨ cuponData.descuento.gt (.lit 100) = true)) ∨
        (cuponData.usoMaximo ≠ .undefined ∧ cuponData.usoMaximo.le (.lit 0) = true) ∨
        (cuponData.fechaExpiracion ≠ .undefined ∧
          (newDate h cuponData.fechaExpiracion).lt h.hoyDate = true)) ∧
    (cuponData.descuento = .undefined → cuponData.usoMaximo = .undefined →
      cuponData.fechaExpiracion = .undefined →
      ∃ e : Cupon, CuponService.updateCupon repo h id cuponData s = repo.update (.str id) e s1) := by
  have hsupplied : ∀ (v : JsVal) (q : ℚ), v.toNumber = .fin q → v ≠ .undefined := by
    intro v q hv hu
    rw [hu] at hv
    simp [JsVal.toNumber] at hv
  refine ⟨fun d hd hout => ?_, fun u hu hu0 => ?_, fun ht hpast => ?_, fun log err herr => ?_,
    fun hd hu hf => ?_⟩
  · have hb : (decide (cuponData.descuento ≠ .undefined) &&
        (cuponData.descuento.lt (.lit 0) || cuponData.descuento.gt (.lit 100))) = true := by
      have hne := hsupplied _ _ hd
      rcases hout with hlt | hgt
      · simp [hne, JsVal.lit, JsVal.lt_num, JsVal.gt_num, hd, JsNum.lt_fin, hlt]
      · simp [hne, JsVal.lit, JsVal.lt_num, JsVal.gt_num, hd, JsNum.lt_fin, hgt]
    simp only [CuponService.updateCupon, hfound, hb, if_true]
  · have hb : (decide (cuponData.usoMaximo ≠ .undefined) && cuponData.usoMaximo.le (.lit 0))
        = true := by
      have hne := hsupplied _ _ hu
      simp [hne, JsVal.lit, JsVal.le_num, hu, JsNum.le_fin, hu0]
    simp only [CuponService.updateCupon, hfound, hb]
    split_ifs <;> exact ⟨_, rfl⟩
  · have hb : (cuponData.fechaExpiracion.toBoolean &&
        (newDate h cuponData.fechaExpiracion).lt h.hoyDate) = true := by
      simp [ht, hpast]
    simp only [CuponService.updateCupon, hfound, hb]
    split_ifs <;> exact ⟨_, rfl⟩
  · have hfe : cuponData.fechaExpiracion.toBoolean = true →
        cuponData.fechaExpiracion ≠ .undefined := by
      intro ht hu
      rw [hu] at ht
      simp [JsVal.toBoolean] at ht
    simp only [CuponService.updateCupon, recordingCuponRepository] at herr
    split_ifs at herr with g1 g2 g3
    · left
      simpa using g1
    · right; left
      simpa using g2
    · right; right
      simp only [Bool.and_eq_true] at g3
      exact ⟨hfe g3.1, g3.2⟩
  · refine ⟨
      { id := .str id
        codigo := cuponData.codigo.or existingCupon.codigo
        descuento := existingCupon.descuento
        fechaExpiracion := existingCupon.fechaExpiracion
        activo :=
          if cuponData.activo ≠ .undefined then cuponData.activo else existingCupon.activo
        usoMaximo := existingCupon.usoMaximo
        usoActual :=
          if cuponData.usoActual ≠ .undefined then cuponData.usoActual
          else existingCupon.usoActual }, ?_⟩
    simp only [CuponService.updateCupon, hfound, hd, hu, hf]
    simp [JsVal.toBoolean]

/-- The test `should throw error if usoMaximo is less than or equal to 0`,
at the boundary: the payload with `usoMaximo` 0 is rejected and nothing is
written. -/
theorem updateCupon_validates_supplied_fields_witness :
    ∃ msg, CuponService.updateCupon
        (recordingCuponRepository { getById := some (sampleCupon true 5) }) sampleHost "1"
        { usoMaximo := .lit 0 } [] = (.error (.badRequest msg), []) :=
  (updateCupon_validates_supplied_fields
    (recordingCuponRepository { getById := some (sampleCupon true 5) }) sampleHost "1"
    { usoMaximo := .lit 0 } [] [] (sampleCupon true 5) rfl).2.1 0 rfl le_rfl

/-! ## Merging a coupon payload -/

theorem JsVal.mergedByPresence_ite (a b : JsVal) :
    MergedByPresence a b (if a ≠ .undefined then a else b) := by
  constructor <;> intro ha <;> simp [ha]

/-- Claim C21, as amended: when `updateCupon` passes its validation (it
resolves against a repository whose writes resolve), the call is the
repository's `update` under the given id on an entity with that id, in which
`codigo` is the payload's value when that value is truthy and the existing
coupon's value when it is omitted or falsy, each of `descuento`, `activo`,
`usoMaximo` and `usoActual` is the payload's value unless it is omitted, and
`fechaExpiracion` is the date of the payload's value when that is truthy and
the existing date otherwise. -/
theorem updateCupon_entity_merges_payload (h : Host) (id : String) (cuponData : CuponData)
    (existingCupon : Cupon) (log : List CuponWrite) (r : Option Cupon)
    (hres : (CuponService.updateCupon
      (recordingCuponRepository { getById := some existingCupon }) h id cuponData log).1
        = .ok r) :
    ∃ e : Cupon,
      (∀ (σ : Type) (repo : CuponRepository σ) (s s1 : σ),
        repo.getById (.str id) s = (.ok (some existingCupon), s1) →
        CuponService.updateCupon repo h id cuponData s = repo.update (.str id) e s1) ∧
      e.id = .str id ∧
      MergedByTruthiness cuponData.codigo existingCupon.codigo e.codigo ∧
      MergedByPresence cuponData.descuento existingCupon.descuento e.descuento ∧
      (cuponData.fechaExpiracion.toBoolean = true →
        e.fechaExpiracion = newDate h cuponData.fechaExpiracion) ∧
      (cuponData.fechaExpiracion.toBoolean = false →
        e.fechaExpiracion = existingCupon.fechaExpiracion) ∧
      MergedByPresence cuponData.activo existingCupon.activo e.activo ∧
      MergedByPresence cuponData.usoMaximo existingCupon.usoMaximo e.usoMaximo ∧
      MergedByPresence cuponData.usoActual existingCupon.usoActual e.usoActual := by
  cases h1 : (decide (cuponData.descuento ≠ .undefined) &&
      (cuponData.descuento.lt (.lit 0) || cuponData.descuento.gt (.lit 100)))
  case true =>
    simp only [CuponService.updateCupon, recordingCuponRepository, h1] at hres
    simp at hres
  cases h2 : (decide (cuponData.usoMaximo ≠ .undefined) && cuponData.usoMaximo.le (.lit 0))
  case true =>
    simp only [CuponService.updateCupon, recordingCuponRepository, h1, h2] at hres
    simp at hres
  cases h3 : (cuponData.fechaExpiracion.toBoolean &&
      (newDate h cuponData.fechaExpiracion).lt h.hoyDate)
  case true =>
    simp only [CuponService.updateCupon, recordingCuponRepository, h1, h2, h3] at hres
    simp at hres
  refine ⟨
    { id := .str id
      codigo := cuponData.codigo.or existingCupon.codigo
      descuento :=
        if cuponData.descuento ≠ .undefined then cuponData.descuento
        else existingCupon.descuento
      fechaExpiracion :=
        if cuponData.fechaExpiracion.toBoolean then newDate h cuponData.fechaExpiracion
        else existingCupon.fechaExpiracion
      activo :=
        if cuponData.activo ≠ .undefined then cuponData.activo else existingCupon.activo
      usoMaximo :=
        if cuponData.usoMaximo ≠ .undefined then cuponData.usoMaximo
        else existingCupon.usoMaximo
      usoActual :=
        if cuponData.usoActual ≠ .undefined then cuponData.usoActual
        else existingCupon.usoActual },
    ?_, rfl, JsVal.mergedByTruthiness_or _ _, JsVal.mergedByPresence_ite _ _, ?_, ?_,
    JsVal.mergedByPresence_ite _ _, JsVal.mergedByPresence_ite _ _,
    JsVal.mergedByPresence_ite _ _⟩
  · intro σ repo s s1 hfound
    simp only [CuponService.updateCupon, hfound, h1, h2, h3]
    rfl
  · intro hf; simp [hf]
  · intro hf; simp [hf]

/-- The test `should preserve existing values when not provided`: the coupon
of the unit tests updated with `descuento` 20 alone is written with that
`descuento` and with its own `codigo`, `usoMaximo` and `usoActual`. -/
theorem updateCupon_entity_merges_payload_witness :
    ∃ e : Cupon,
      CuponService.updateCupon (recordingCuponRepository { getById := some (sampleCupon true 5) })
        sampleHost "1" { descuento := .lit 20 } []
        = (.ok (some e), [.update (.str "1") e]) ∧
      e.descuento = .lit 20 ∧ e.codigo = .str "DESCUENTO10" ∧ e.usoMaximo = .lit 100 ∧
      e.usoActual = .lit 5 := by
  obtain ⟨e, hcall, -, hcod, hdesc, -, -, -, hmax, hact⟩ :=
    updateCupon_entity_merges_payload sampleHost "1" { descuento := .lit 20 }
      (sampleCupon true 5) [] (some { sampleCupon true 5 with descuento := .lit 20 })
      (by
        norm_num [CuponService.updateCupon, recordingCuponRepository, JsVal.lit,
          JsVal.toBoolean, JsVal.lt_num, JsVal.gt_num, JsVal.toNumber, JsNum.lt_fin, JsVal.or,
          sampleCupon]
        intro hx
        cases hx)
  refine ⟨e, ?_, hdesc.1 (by intro hx; cases hx), hcod.2 rfl, hmax.2 rfl, hact.2 rfl⟩
  rw [hcall _ (recordingCuponRepository { getById := some (sampleCupon true 5) }) [] [] rfl]
  rfl

/-- Claim C21 as stated fails: for the coupon of the unit tests and the
payload that supplies `codigo` as the empty string, `updateCupon` passes
validation and writes an entity whose `codigo` is the existing one,
`DESCUENTO10`, not the value supplied. -/
theorem updateCupon_supplied_empty_codigo_falls_back :
    ∃ e : Cupon,
      CuponService.updateCupon (recordingCuponRepository { getById := some (sampleCupon true 5) })
        sampleHost "1" { codigo := .str "" } []
        = (.ok (some e), [.update (.str "1") e]) ∧
      e.codigo = .str "DESCUENTO10" ∧ e.codigo ≠ .str "" := by
  refine ⟨sampleCupon true 5, ?_, rfl, by decide⟩
  simp [CuponService.updateCupon, recordingCuponRepository, JsVal.toBoolean, JsVal.or,
    sampleCupon]

/-! ## Lookups that find nothing -/

/-- Claim C22: each of the eleven operations keyed by an id or a code
rejects with `NotFoundError`, with the store as the lookup left it and
whatever the payload is, when the repository lookup resolves to no entity;
against a repository whose reads and writes resolve it rejects with
`NotFoundError` if and only if the lookup resolves to no entity; and the three
getters resolve to the entity the lookup found, unchanged. -/
theorem lookup_miss_rejects_with_notFound :
    (∀ (σ : Type) (repo : OrderRepository σ) (h : Host) (id : String) (orderData : OrderData)
      (s s1 : σ), repo.getById (.str id) s = (.ok none, s1) →
      OrderService.getOrderById repo id s
          = (.error (.notFound ("Order with id " ++ id ++ " not found")), s1) ∧
        OrderService.updateOrder repo h id orderData s
          = (.error (.notFound ("Order with id " ++ id ++ " not found")), s1) ∧
        OrderService.deleteOrder repo id s
          = (.error (.notFound ("Order with id " ++ id ++ " not found")), s1) ∧
        OrderService.cancelOrder repo id s
          = (.error (.notFound ("Order with id " ++ id ++ " not found")), s1)) ∧
    (∀ (σ : Type) (repo : CuponRepository σ) (h : Host) (id : String) (cuponData : CuponData)
      (s s1 : σ), repo.getById (.str id) s = (.ok none, s1) →
      CuponService.getCuponById repo id s
          = (.error (.notFound ("Cupon with id " ++ id ++ " not found")), s1) ∧
        CuponService.updateCupon repo h id cuponData s
          = (.error (.notFound ("Cupon with id " ++ id ++ " not found")), s1) ∧
        CuponService.deleteCupon repo id s
          = (.error (.notFound ("Cupon with id " ++ id ++ " not found")), s1) ∧
        CuponService.deshabilitarCupon repo id s
          = (.error (.notFound ("Cupon with id " ++ id ++ " not found")), s1) ∧
        CuponService.habilitarCupon repo id s
          = (.error (.notFound ("Cupon with id " ++ id ++ " not found")), s1)) ∧
    (∀ (σ : Type) (repo : CuponRepository σ) (h : Host) (codigo : String) (s s1 : σ),
      repo.getByCodigo (.str codigo) s = (.ok none, s1) →
      CuponService.getCuponByCodigo repo codigo s
          = (.error (.notFound ("Cupon with codigo " ++ codigo ++ " not found")), s1) ∧
        CuponService.usarCupon repo h codigo s
          = (.error (.notFound ("Cupon with codigo " ++ codigo ++ " not found")), s1)) ∧
    (∀ (h : Host) (reads : OrderReads) (id : String) (orderData : OrderData)
      (log : List OrderWrite),
      ((∃ msg, (OrderService.getOrderById (recordingOrderRepository reads) id log).1
          = .error (.notFound msg)) ↔ reads.getById = none) ∧
        ((∃ msg, (OrderService.updateOrder (recordingOrderRepository reads) h id orderData log).1
          = .error (.notFound msg)) ↔ reads.getById = none) ∧
        ((∃ msg, (OrderService.deleteOrder (recordingOrderRepository reads) id log).1
          = .error (.notFound msg)) ↔ reads.getById = none) ∧
        ((∃ msg, (OrderService.cancelOrder (recordingOrderRepository reads) id log).1
          = .error (.notFound msg)) ↔ reads.getById = none)) ∧
    (∀ (h : Host) (reads : CuponReads) (id : String) (cuponData : CuponData)
      (log : List CuponWrite),
      ((∃ msg, (CuponService.getCuponById (recordingCuponRepository reads) id log).1
          = .error (.notFound msg)) ↔ reads.getById = none) ∧
        ((∃ msg, (CuponService.updateCupon (recordingCuponRepository reads) h id cuponData log).1
          = .error (.notFound msg)) ↔ reads.getById = none) ∧
        ((∃ msg, (CuponService.deleteCupon (recordingCuponRepository reads) id log).1
          = .error (.notFound msg)) ↔ reads.getById = none) ∧
        ((∃ msg, (CuponService.deshabilitarCupon (recordingCuponRepository reads) id log).1
          = .error (.notFound msg)) ↔ reads.getById = none) ∧
        ((∃ msg, (CuponService.habilitarCupon (recordingCuponRepository reads) id log).1
          = .error (.notFound msg)) ↔ reads.getById = none)) ∧
    (∀ (h : Host) (reads : CuponReads) (codigo : String) (log : List CuponWrite),
      ((∃ msg, (CuponService.getCuponByCodigo (recordingCuponRepository reads) codigo log).1
          = .error (.notFound msg)) ↔ reads.getByCodigo = none) ∧
        ((∃ msg, (CuponService.usarCupon (recordingCuponRepository reads) h codigo log).1
          = .error (.notFound msg)) ↔ reads.getByCodigo = none)) ∧
    (∀ (σ : Type) (repo : OrderRepository σ) (id : String) (s s1 : σ) (order : Order),
      repo.getById (.str id) s = (.ok (some order), s1) →
      OrderService.getOrderById repo id s = (.ok order, s1)) ∧
    (∀ (σ : Type) (repo : CuponRepository σ) (id : String) (s s1 : σ) (cupon : Cupon),
      repo.getById (.str id) s = (.ok (some cupon), s1) →
      CuponService.getCuponById repo id s = (.ok cupon, s1)) ∧
    (∀ (σ : Type) (repo : CuponRepository σ) (codigo : String) (s s1 : σ) (cupon : Cupon),
      repo.getByCodigo (.str codigo) s = (.ok (some cupon), s1) →
      CuponService.getCuponByCodigo repo codigo s = (.ok cupon, s1)) := by
  refine ⟨?_, ?_, ?_, ?_, ?_, ?_, ?_, ?_, ?_⟩
  · intro σ repo h id orderData s s1 hnone
    simp [OrderService.getOrderById, OrderService.updateOrder, OrderService.deleteOrder,
      OrderService.cancelOrder, hnone]
  · intro σ repo h id cuponData s s1 hnone
    simp [CuponService.getCuponById, CuponService.updateCupon, CuponService.deleteCupon,
      CuponService.deshabilitarCupon, CuponService.habilitarCupon, hnone]
  · intro σ repo h codigo s s1 hnone
    simp [CuponService.getCuponByCodigo, CuponService.usarCupon, hnone]
  · intro h reads id orderData log
    rcases reads with ⟨ga, _ | order, ge⟩
    · simp [OrderService.getOrderById, OrderService.updateOrder, OrderService.deleteOrder,
        OrderService.cancelOrder, recordingOrderRepository]
    · refine ⟨?_, ?_, ?_, ?_⟩
      · simp [OrderService.getOrderById, recordingOrderRepository]
      · simp only [OrderService.updateOrder, recordingOrderRepository]
        split_ifs <;> simp
      · simp [OrderService.deleteOrder, recordingOrderRepository]
      · simp only [OrderService.cancelOrder, recordingOrderRepository]
        split_ifs <;> simp
  · intro h reads id cuponData log
    rcases reads with ⟨ga, _ | cupon, gc, gact⟩
    · simp [CuponService.getCuponById, CuponService.updateCupon, CuponService.deleteCupon,
        CuponService.deshabilitarCupon, CuponService.habilitarCupon, recordingCuponRepository]
    · refine ⟨?_, ?_, ?_, ?_, ?_⟩
      · simp [CuponService.getCuponById, recordingCuponRepository]
      · simp only [CuponService.updateCupon, recordingCuponRepository]
        split_ifs <;> simp
      · simp [CuponService.deleteCupon, recordingCuponRepository]
      · simp only [CuponService.deshabilitarCupon, recordingCuponRepository]
        split_ifs <;> simp
      · simp only [CuponService.habilitarCupon, recordingCuponRepository]
        split_ifs <;> simp
  · intro h reads codigo log
    rcases reads with ⟨ga, gi, _ | cupon, gact⟩
    · simp [CuponService.getCuponByCodigo, CuponService.usarCupon, recordingCuponRepository]
    · refine ⟨?_, ?_⟩
      · simp [CuponService.getCuponByCodigo, recordingCuponRepository]
      · simp only [CuponService.usarCupon, recordingCuponRepository]
        split_ifs <;> simp
  · intro σ repo id s s1 order hfound
    simp [OrderService.getOrderById, hfound]
  · intro σ repo id s s1 cupon hfound
    simp [CuponService.getCuponById, hfound]
  · intro σ repo codigo s s1 cupon hfound
    simp [CuponService.getCuponByCodigo, hfound]

/-! ## Orders by status -/

/-- Claim C23: `getOrdersByEstado` rejects with the error
"Estado inválido. Debe ser uno de: pendiente, procesando, enviado, entregado, cancelado",
whatever the repository is and with the store untouched, when `estado` is none
of the five strings `pendiente`, `procesando`, `enviado`, `entregado`,
`cancelado`, and is the repository's `getByEstado` on that same `estado` when
it is one of them; against a repository whose reads resolve it rejects if and
only if `estado` is none of the five. -/
theorem getOrdersByEstado_validates_estado {σ : Type} (repo : OrderRepository σ)
    (estado : String) (s : σ) :
    (estado ∉ ["pendiente", "procesando", "enviado", "entregado", "cancelado"] →
      OrderService.getOrdersByEstado repo estado s =
        (.error (.generic
          "Estado inválido. Debe ser uno de: pendiente, procesando, enviado, entregado, cancelado"),
          s)) ∧
    (estado ∈ ["pendiente", "procesando", "enviado", "entregado", "cancelado"] →
      OrderService.getOrdersByEstado repo estado s = repo.getByEstado (.str estado) s) ∧
    (∀ (reads : OrderReads) (log : List OrderWrite),
      ((∃ err, (OrderService.getOrdersByEstado (recordingOrderRepository reads) estado log).1
          = .error err) ↔
        estado ∉ ["pendiente", "procesando", "enviado", "entregado", "cancelado"]) ∧
      (OrderService.getOrdersByEstado (recordingOrderRepository reads) estado log).2 = log) := by
  have hjoin : "Estado inválido. Debe ser uno de: " ++ ", ".intercalate OrderService.estadosValidos
      = "Estado inválido. Debe ser uno de: pendiente, procesando, enviado, entregado, cancelado" := by
    decide
  have hcont : OrderService.estadosValidos.contains estado = true ↔
      estado ∈ ["pendiente", "procesando", "enviado", "entregado", "cancelado"] := by
    simp [OrderService.estadosValidos]
  have hbad : estado ∉ ["pendiente", "procesando", "enviado", "entregado", "cancelado"] →
      ∀ (τ : Type) (rp : OrderRepository τ) (t : τ),
        OrderService.getOrdersByEstado rp estado t =
          (.error (.generic
            "Estado inválido. Debe ser uno de: pendiente, procesando, enviado, entregado, cancelado"),
            t) := by
    intro hnot τ rp t
    have hc : (!OrderService.estadosValidos.contains estado) = true := by
      cases hx : OrderService.estadosValidos.contains estado
      · rfl
      · exact absurd (hcont.mp hx) hnot
    unfold OrderService.getOrdersByEstado
    rw [if_pos hc, hjoin]
  have hgood : estado ∈ ["pendiente", "procesando", "enviado", "entregado", "cancelado"] →
      ∀ (τ : Type) (rp : OrderRepository τ) (t : τ),
        OrderService.getOrdersByEstado rp estado t = rp.getByEstado (.str estado) t := by
    intro hmem τ rp t
    have hc : ¬ (!OrderService.estadosValidos.contains estado) = true := by
      rw [hcont.mpr hmem]; decide
    unfold OrderService.getOrdersByEstado
    rw [if_neg hc]
  refine ⟨fun hnot => hbad hnot σ repo s, fun hmem => hgood hmem σ repo s, fun reads log => ?_⟩
  by_cases hmem : estado ∈ ["pendiente", "procesando", "enviado", "entregado", "cancelado"]
  · rw [hgood hmem]
    simp [recordingOrderRepository, hmem]
  · rw [hbad hmem]
    simp [hmem]

/-- The tests of `getOrdersByEstado`: `invalido` is rejected without a call
of the repository. -/
theorem getOrdersByEstado_validates_estado_witness :
    OrderService.getOrdersByEstado (recordingOrderRepository {}) "invalido" [] =
      (.error (.generic
        "Estado inválido. Debe ser uno de: pendiente, procesando, enviado, entregado, cancelado"),
        []) :=
  (getOrdersByEstado_validates_estado (recordingOrderRepository {}) "invalido" []).1 (by decide)

/-! ## The delivery date -/

/-- Claim C24: for a request whose delivery date is the instant `t`,
`createOrder` and `updateOrder` compare `t` with today's midnight and with
nothing finer. When the checks on `cantidad`, `precio` and `descuento` pass,
`createOrder` is the repository's `create` for every `t` at or after today's
midnight, so for every time of day of today, and rejects with
"La fecha de entrega no puede ser en el pasado", before any repository call, for
every `t` before today's midnight, so for every instant of an earlier day;
`updateOrder` on an order found by id, with the date supplied (truthy), does
the same with the repository's `update`. -/
theorem order_delivery_date_compared_by_day {σ : Type} (repo : OrderRepository σ) (h : Host)
    (orderData : OrderData) (t : Int)
    (hdate : newDate h orderData.fechaEntrega = ⟨some t⟩) :
    (orderData.cantidad.le (.lit 0) = false → orderData.precio.le (.lit 0) = false →
      (orderData.descuento.lt (.lit 0) || orderData.descuento.gt (.lit 100)) = false →
      (h.hoy ≤ t → ∃ e : Order, e.fechaEntrega = ⟨some t⟩ ∧
          ∀ s : σ, OrderService.createOrder repo h orderData s = repo.create e s) ∧
      (t < h.hoy → ∀ s : σ, OrderService.createOrder repo h orderData s =
          (.error (.generic "La fecha de entrega no puede ser en el pasado"), s))) ∧
    (∀ (id : String) (s s1 : σ) (existingOrder : Order),
      repo.getById (.str id) s = (.ok (some existingOrder), s1) →
      orderData.fechaEntrega.toBoolean = true →
      (orderData.cantidad.toBoolean && orderData.cantidad.le (.lit 0)) = false →
      (orderData.precio.toBoolean && orderData.precio.le (.lit 0)) = false →
      (decide (orderData.descuento ≠ .undefined) &&
        (orderData.descuento.lt (.lit 0) || orderData.descuento.gt (.lit 100))) = false →
      (h.hoy ≤ t → ∃ e : Order, e.fechaEntrega = ⟨some t⟩ ∧
          OrderService.updateOrder repo h id orderData s = repo.update (.str id) e s1) ∧
      (t < h.hoy → OrderService.updateOrder repo h id orderData s =
          (.error (.generic "La fecha de entrega no puede ser en el pasado"), s1))) := by
  have hlt : h.hoy ≤ t → (newDate h orderData.fechaEntrega).lt h.hoyDate = false := by
    intro hle
    simp [hdate, JsDate.lt, Host.hoyDate, hle]
  have hgt : t < h.hoy → (newDate h orderData.fechaEntrega).lt h.hoyDate = true := by
    intro hlt
    simp [hdate, JsDate.lt, Host.hoyDate, hlt]
  refine ⟨fun h1 h2 h3 => ⟨fun hle => ?_, fun hbefore s => ?_⟩,
    fun id s s1 existingOrder hfound hsupplied h1 h2 h3 => ⟨fun hle => ?_, fun hbefore => ?_⟩⟩
  · refine ⟨{ id := .null
              producto := orderData.producto
              descripcion := orderData.descripcion
              cantidad := orderData.cantidad
              precio := orderData.precio
              descuento := orderData.descuento.or (.lit 0)
              total := .num ((orderData.precio.toNumber.mul orderData.cantidad.toNumber).sub
                ((orderData.precio.toNumber.mul orderData.cantidad.toNumber).mul
                  orderData.descuento.toNumber.div100))
              cliente := orderData.cliente
              estado := orderData.estado.or (.str "pendiente")
              fechaEntrega := newDate h orderData.fechaEntrega }, hdate, fun s => ?_⟩
    simp only [OrderService.createOrder, h1, h2, h3, hlt hle]
    simp
  · simp only [OrderService.createOrder, h1, h2, h3, hgt hbefore]
    simp
  · refine ⟨{ id := .str id
              producto := orderData.producto.or existingOrder.producto
              descripcion := orderData.descripcion.or existingOrder.descripcion
              cantidad := orderData.cantidad.or existingOrder.cantidad
              precio := orderData.precio.or existingOrder.precio
              descuento :=
                if orderData.descuento ≠ .undefined then orderData.descuento
                else existingOrder.descuento
              total := .num (((orderData.precio.or existingOrder.precio).toNumber.mul
                  (orderData.cantidad.or existingOrder.cantidad).toNumber).sub
                (((orderData.precio.or existingOrder.precio).toNumber.mul
                  (orderData.cantidad.or existingOrder.cantidad).toNumber).mul
                  (if orderData.descuento ≠ .undefined then orderData.descuento
                    else existingOrder.descuento).toNumber.div100))
              cliente := orderData.cliente.or existingOrder.cliente
              estado := orderData.estado.or existingOrder.estado
              fechaEntrega := newDate h orderData.fechaEntrega }, hdate, ?_⟩
    have h4 : (orderData.fechaEntrega.toBoolean &&
        (newDate h orderData.fechaEntrega).lt h.hoyDate) = false := by
      simp [hlt hle]
    simp only [OrderService.updateOrder, hfound, h1, h2, h3, h4]
    simp [hsupplied]
  · have h4 : (orderData.fechaEntrega.toBoolean &&
        (newDate h orderData.fechaEntrega).lt h.hoyDate) = true := by
      simp [hsupplied, hgt hbefore]
    simp only [OrderService.updateOrder, hfound, h1, h2, h3, h4]
    simp

/-- The last millisecond of today is accepted and the last millisecond of
the day before is rejected, on the request of the unit tests at 10:00 on
2026-01-10. -/
theorem order_delivery_date_compared_by_day_witness :
    (∃ e : Order, e.fechaEntrega = ⟨some 1768089599999⟩ ∧
      ∀ log : List OrderWrite,
        OrderService.createOrder (recordingOrderRepository {}) dayEdgeHost
          { validOrderData with fechaEntrega := .str "2026-01-10T23:59:59.999Z" } log
        = (.ok e, log ++ [.create e])) ∧
    (∀ log : List OrderWrite,
      OrderService.createOrder (recordingOrderRepository {}) dayEdgeHost
          { validOrderData with fechaEntrega := .str "2026-01-09T23:59:59.999Z" } log
        = (.error (.generic "La fecha de entrega no puede ser en el pasado"), log)) :=
  ⟨((order_delivery_date_compared_by_day (recordingOrderRepository {}) dayEdgeHost
      { validOrderData with fechaEntrega := .str "2026-01-10T23:59:59.999Z" } 1768089599999 rfl).1
      (by norm_num [validOrderData, JsVal.lit, JsVal.le_num, JsVal.toNumber, JsNum.le_fin])
      (by norm_num [validOrderData, JsVal.lit, JsVal.le_num, JsVal.toNumber, JsNum.le_fin])
      (by norm_num [validOrderData, JsVal.lit, JsVal.lt_num, JsVal.gt_num, JsVal.toNumber,
        JsNum.lt_fin])).1 (by decide),
   ((order_delivery_date_compared_by_day (recordingOrderRepository {}) dayEdgeHost
      { validOrderData with fechaEntrega := .str "2026-01-09T23:59:59.999Z" } 1768003199999 rfl).1
      (by norm_num [validOrderData, JsVal.lit, JsVal.le_num, JsVal.toNumber, JsNum.le_fin])
      (by norm_num [validOrderData, JsVal.lit, JsVal.le_num, JsVal.toNumber, JsNum.le_fin])
      (by norm_num [validOrderData, JsVal.lit, JsVal.lt_num, JsVal.gt_num, JsVal.toNumber,
        JsNum.lt_fin])).2 (by decide)⟩

/-! ## The stored code of a coupon -/

/-- Claim C25, as amended: whenever `createCupon` against the Mongo adapter
accepts a request, the request's `codigo` is a string, and the coupon stored
(the new head of the collection) and returned has as `codigo` that string
upper-cased and then trimmed of leading and trailing white space (so the
upper-cased string itself when it has no such white space), `usoActual` 0,
and `activo` true when the request omits `activo`. -/
theorem createCupon_stores_uppercased_trimmed_codigo (h : Host) (cuponData : CuponData)
    (c c1 : CuponCollection) (r : Cupon)
    (hres : CuponService.createCupon (cuponMongoRepository h) h cuponData c = (.ok r, c1)) :
    ∃ code : String, cuponData.codigo = .str code ∧
      r.codigo = .str (jsTrim (h.toUpperCase code)) ∧
      (jsTrim (h.toUpperCase code) = h.toUpperCase code →
        r.codigo = .str (h.toUpperCase code)) ∧
      r.usoActual = .lit 0 ∧
      (cuponData.activo = .undefined → r.activo = .bool true) ∧
      ∃ d : CuponDoc, c1.docs = d :: c.docs ∧ CuponMongoRepository.toEntity d = r := by
  cases h1 : (cuponData.descuento.lt (.lit 0) || cuponData.descuento.gt (.lit 100))
  case true =>
    simp only [CuponService.createCupon, h1] at hres
    simp at hres
  cases h2 : cuponData.usoMaximo.le (.lit 0)
  case true =>
    simp only [CuponService.createCupon, h1, h2] at hres
    simp at hres
  cases h3 : (newDate h cuponData.fechaExpiracion).lt h.hoyDate
  case true =>
    simp only [CuponService.createCupon, h1, h2, h3] at hres
    simp at hres
  cases hcod : cuponData.codigo with
  | str code =>
    refine ⟨code, rfl, ?_⟩
    cases hfind : c.docs.find? fun d =>
        d.codigo = CuponMongoRepository.codigoSetter h (.str (h.toUpperCase code)) with
    | some found =>
      simp only [CuponService.createCupon, cuponMongoRepository,
        CuponMongoRepository.getByCodigo, h1, h2, h3, hcod, hfind] at hres
      simp at hres
    | none =>
      simp only [CuponService.createCupon, cuponMongoRepository,
        CuponMongoRepository.getByCodigo, CuponMongoRepository.create, h1, h2, h3, hcod,
        hfind] at hres
      simp at hres
      obtain ⟨hr, hc1⟩ := hres
      subst hr
      subst hc1
      refine ⟨?_, ?_, ?_, ?_, _, rfl, rfl⟩
      · simp [CuponMongoRepository.toEntity, CuponMongoRepository.codigoSetter, trimSetter,
          uppercaseSetter]
      · intro hnows
        simp [CuponMongoRepository.toEntity, CuponMongoRepository.codigoSetter, trimSetter,
          uppercaseSetter, hnows]
      · simp [CuponMongoRepository.toEntity, schemaDefault, JsVal.or, JsVal.lit,
          JsVal.toBoolean]
      · intro ha
        simp [CuponMongoRepository.toEntity, schemaDefault, ha]
  | undefined =>
    simp only [CuponService.createCupon, cuponMongoRepository,
      CuponMongoRepository.getByCodigo, h1, h2, h3, hcod] at hres
    simp at hres
  | null =>
    simp only [CuponService.createCupon, cuponMongoRepository,
      CuponMongoRepository.getByCodigo, h1, h2, h3, hcod] at hres
    simp at hres
  | bool b =>
    simp only [CuponService.createCupon, cuponMongoRepository,
      CuponMongoRepository.getByCodigo, h1, h2, h3, hcod] at hres
    simp at hres
  | num n =>
    simp only [CuponService.createCupon, cuponMongoRepository,
      CuponMongoRepository.getByCodigo, h1, h2, h3, hcod] at hres
    simp at hres
/-- The scenario of claim C25: creating `navidad2025` (25 percent, 50 uses,
expiring on 2026-12-31, no `activo`) in an empty collection stores and returns
`NAVIDAD2025` with `usoActual` 0 and `activo` true. -/
theorem createCupon_stores_uppercased_trimmed_codigo_witness :
    ∃ (r : Cupon) (c1 : CuponCollection),
      CuponService.createCupon (cuponMongoRepository sampleHost) sampleHost
        { codigo := .str "navidad2025", descuento := .lit 25, fechaExpiracion := .str "2026-12-31",
          usoMaximo := .lit 50 } noCupons = (.ok r, c1) ∧
      r.codigo = .str "NAVIDAD2025" ∧ r.usoActual = .lit 0 ∧ r.activo = .bool true := by
  have hf : (newDate sampleHost (.str "2026-12-31")).lt sampleHost.hoyDate = false := by decide
  have hres : CuponService.createCupon (cuponMongoRepository sampleHost) sampleHost
      { codigo := .str "navidad2025", descuento := .lit 25, fechaExpiracion := .str "2026-12-31",
        usoMaximo := .lit 50 } noCupons =
      (.ok { id := .str "1", codigo := .str "NAVIDAD2025", descuento := .lit 25,
             fechaExpiracion := ⟨some 1798675200000⟩, activo := .bool true,
             usoMaximo := .lit 50, usoActual := .lit 0 },
        { docs := [{ oid := "1", codigo := .str "NAVIDAD2025", descuento := .lit 25,
                     fechaExpiracion := ⟨some 1798675200000⟩, activo := .bool true,
                     usoMaximo := .lit 50, usoActual := .lit 0 }], nextId := 2 }) := by
    have hk : CuponMongoRepository.codigoSetter sampleHost (.str "navidad2025")
        = .str "NAVIDAD2025" := by decide
    norm_num [CuponService.createCupon, cuponMongoRepository, CuponMongoRepository.getByCodigo,
      CuponMongoRepository.create, CuponMongoRepository.toEntity, noCupons, schemaDefault,
      JsVal.lit, JsVal.lt_num, JsVal.gt_num, JsVal.le_num, JsVal.toNumber, JsNum.lt_fin,
      JsNum.le_fin, JsVal.or, JsVal.toBoolean, hf, hk]
    exact ⟨rfl, rfl⟩
  obtain ⟨code, hcode, hcodigo, -, huso, hact, -⟩ :=
    createCupon_stores_uppercased_trimmed_codigo sampleHost _ _ _ _ hres
  exact ⟨_, _, hres, rfl, rfl, rfl⟩

/-- Claim C25 as stated fails: creating ` navidad2025 `, with a space on
either side, stores and returns `NAVIDAD2025`, which is not the upper-cased
input ` NAVIDAD2025 `: the path `codigo` of the schema has `trim: true`. -/
theorem createCupon_stored_codigo_is_trimmed :
    ∃ (r : Cupon) (c1 : CuponCollection),
      CuponService.createCupon (cuponMongoRepository sampleHost) sampleHost
        { codigo := .str " navidad2025 ", descuento := .lit 25,
          fechaExpiracion := .str "2026-12-31", usoMaximo := .lit 50 } noCupons = (.ok r, c1) ∧
      CuponMongoRepository.findById (.str "1") c1 = some
        { oid := "1", codigo := .str "NAVIDAD2025", descuento := .lit 25,
          fechaExpiracion := ⟨some 1798675200000⟩, activo := .bool true,
          usoMaximo := .lit 50, usoActual := .lit 0 } ∧
      r.codigo = .str "NAVIDAD2025" ∧
      sampleHost.toUpperCase " navidad2025 " = " NAVIDAD2025 " ∧
      r.codigo ≠ .str (sampleHost.toUpperCase " navidad2025 ") := by
  have hf : (newDate sampleHost (.str "2026-12-31")).lt sampleHost.hoyDate = false := by decide
  have hk : CuponMongoRepository.codigoSetter sampleHost (.str " navidad2025 ")
      = .str "NAVIDAD2025" := by decide
  refine ⟨{ id := .str "1", codigo := .str "NAVIDAD2025", descuento := .lit 25,
            fechaExpiracion := ⟨some 1798675200000⟩, activo := .bool true,
            usoMaximo := .lit 50, usoActual := .lit 0 },
    { docs := [{ oid := "1", codigo := .str "NAVIDAD2025", descuento := .lit 25,
                 fechaExpiracion := ⟨some 1798675200000⟩, activo := .bool true,
                 usoMaximo := .lit 50, usoActual := .lit 0 }], nextId := 2 },
    ?_, ?_, rfl, by decide, by decide⟩
  · norm_num [CuponService.createCupon, cuponMongoRepository, CuponMongoRepository.getByCodigo,
      CuponMongoRepository.create, CuponMongoRepository.toEntity, noCupons, schemaDefault,
      JsVal.lit, JsVal.lt_num, JsVal.gt_num, JsVal.le_num, JsVal.toNumber, JsNum.lt_fin,
      JsNum.le_fin, JsVal.or, JsVal.toBoolean, hf, hk]
    exact ⟨rfl, rfl⟩
  · simp [CuponMongoRepository.findById]

/-! ## Cancelling a delivered order -/

/-- Claim C26 as stated fails: for the delivered order of the unit tests,
`updateOrder` with the payload that supplies `estado` `cancelado` passes
validation and hands the repository an entity for that order with `estado`
`cancelado`. -/
theorem updateOrder_sets_delivered_order_cancelado :
    ∃ e : Order,
      OrderService.updateOrder (recordingOrderRepository { getById := some (sampleOrder "entregado") })
        sampleHost "1" { estado := .str "cancelado" } []
        = (.ok (some e), [.update (.str "1") e]) ∧
      e.id = .str "1" ∧ e.estado = .str "cancelado" := by
  refine ⟨{ sampleOrder "cancelado" with
    total := .num (((JsNum.fin 1500).mul (.fin 2)).sub
      (((JsNum.fin 1500).mul (.fin 2)).mul (JsNum.fin 10).div100)) }, ?_, rfl, rfl⟩
  simp [OrderService.updateOrder, recordingOrderRepository, JsVal.lit, JsVal.toBoolean,
    JsVal.toNumber, JsVal.or, sampleOrder]

/-- Claim C26, as amended: for an order found by id whose `estado` is
`entregado`, `cancelOrder` rejects with
"No se puede cancelar una orden que ya fue entregada" and the store as the read
left it, so it hands the repository nothing; and `updateOrder` either rejects
with one of its validation errors or is the repository's `update` on an entity
whose `estado` is the payload's `estado` when that is truthy and `entregado`
otherwise, so the entity has `estado` `cancelado` exactly when the payload
itself supplies `cancelado`. -/
theorem delivered_order_cancelado_only_from_payload {σ : Type} (repo : OrderRepository σ)
    (h : Host) (id : String) (s s1 : σ) (order : Order)
    (hfound : repo.getById (.str id) s = (.ok (some order), s1))
    (hestado : order.estado = .str "entregado") :
    OrderService.cancelOrder repo id s =
        (.error (.generic "No se puede cancelar una orden que ya fue entregada"), s1) ∧
      ∀ orderData : OrderData,
        (∃ msg, OrderService.updateOrder repo h id orderData s = (.error (.generic msg), s1)) ∨
        (∃ e : Order,
          OrderService.updateOrder repo h id orderData s = repo.update (.str id) e s1 ∧
          e.estado = orderData.estado.or (.str "entregado") ∧
          (e.estado = .str "cancelado" ↔ orderData.estado = .str "cancelado")) := by
  constructor
  · simp [OrderService.cancelOrder, hfound, hestado]
  · intro orderData
    have hiff : orderData.estado.or (.str "entregado") = .str "cancelado" ↔
        orderData.estado = .str "cancelado" := by
      cases hb : orderData.estado.toBoolean
      · simp only [JsVal.or, hb]
        constructor
        · intro hx; simp at hx
        · intro hx; rw [hx] at hb; simp [JsVal.toBoolean] at hb
      · simp [JsVal.or, hb]
    simp only [OrderService.updateOrder, hfound, hestado]
    split_ifs
    all_goals first
      | exact Or.inl ⟨_, rfl⟩
      | exact Or.inr ⟨_, rfl, rfl, hiff⟩

/-- The test `should throw error if order is already delivered`: nothing is
written for the delivered order of the unit tests. -/
theorem delivered_order_cancelado_only_from_payload_witness :
    OrderService.cancelOrder (recordingOrderRepository { getById := some (sampleOrder "entregado") })
        "1" [] =
      (.error (.generic "No se puede cancelar una orden que ya fue entregada"), []) :=
  (delivered_order_cancelado_only_from_payload
    (recordingOrderRepository { getById := some (sampleOrder "entregado") }) sampleHost "1" [] []
    (sampleOrder "entregado") rfl rfl).1

/-! ## The class of a failure -/

/-- Claim C27, the code: every rejection of `createOrder` and of
`getOrdersByEstado`, and every rejection of `updateOrder` and `cancelOrder`
other than the `NotFoundError`, is a plain `Error` (`generic`), never a
`BadRequestError`: so are the request of the unit tests with `cantidad` 0 and
the cancellation of a delivered order, where `createCupon` rejects the
discount 150 with a `BadRequestError`. -/
theorem orderService_rejects_with_plain_error :
    OrderService.createOrder (recordingOrderRepository {}) sampleHost
        { validOrderData with cantidad := .lit 0 } []
      = (.error (.generic "La cantidad debe ser mayor a 0"), []) ∧
    OrderService.cancelOrder (recordingOrderRepository { getById := some (sampleOrder "entregado") })
        "1" []
      = (.error (.generic "No se puede cancelar una orden que ya fue entregada"), []) ∧
    CuponService.createCupon (recordingCuponRepository {}) sampleHost (validCuponData 150) []
      = (.error (.badRequest "Discount must be between 0 and 100"), []) ∧
    (∀ (h : Host) (reads : OrderReads) (orderData : OrderData) (log : List OrderWrite) err,
      (OrderService.createOrder (recordingOrderRepository reads) h orderData log).1 = .error err →
      ∃ msg, err = .generic msg) ∧
    (∀ (reads : OrderReads) (estado : String) (log : List OrderWrite) err,
      (OrderService.getOrdersByEstado (recordingOrderRepository reads) estado log).1
        = .error err →
      ∃ msg, err = .generic msg) ∧
    (∀ (h : Host) (reads : OrderReads) (id : String) (orderData : OrderData)
      (log : List OrderWrite) err,
      (OrderService.updateOrder (recordingOrderRepository reads) h id orderData log).1
        = .error err →
      (∃ msg, err = .generic msg) ∨ ∃ msg, err = .notFound msg) ∧
    (∀ (reads : OrderReads) (id : String) (log : List OrderWrite) err,
      (OrderService.cancelOrder (recordingOrderRepository reads) id log).1 = .error err →
      (∃ msg, err = .generic msg) ∨ ∃ msg, err = .notFound msg) := by
  refine ⟨?_, ?_, ?_, ?_, ?_, ?_, ?_⟩
  · norm_num [OrderService.createOrder, validOrderData, JsVal.lit, JsVal.le_num, JsVal.toNumber,
      JsNum.le_fin]
  · simp [OrderService.cancelOrder, recordingOrderRepository, sampleOrder]
  · norm_num [CuponService.createCupon, validCuponData, JsVal.lit, JsVal.lt_num, JsVal.gt_num,
      JsVal.toNumber, JsNum.lt_fin]
  · intro h reads orderData log err herr
    simp only [OrderService.createOrder, recordingOrderRepository] at herr
    split_ifs at herr
    all_goals
      simp at herr
      subst herr
      exact ⟨_, rfl⟩
  · intro reads estado log err herr
    simp only [OrderService.getOrdersByEstado, recordingOrderRepository] at herr
    split_ifs at herr
    all_goals
      simp at herr
      subst herr
      exact ⟨_, rfl⟩
  · intro h reads id orderData log err herr
    rcases reads with ⟨ga, _ | order, ge⟩ <;>
      simp only [OrderService.updateOrder, recordingOrderRepository] at herr
    · simp at herr; subst herr; exact Or.inr ⟨_, rfl⟩
    · split_ifs at herr
      all_goals
        simp at herr
        subst herr
        exact Or.inl ⟨_, rfl⟩
  · intro reads id log err herr
    rcases reads with ⟨ga, _ | order, ge⟩ <;>
      simp only [OrderService.cancelOrder, recordingOrderRepository] at herr
    · simp at herr; subst herr; exact Or.inr ⟨_, rfl⟩
    · split_ifs at herr
      all_goals
        simp at herr
        subst herr
        exact Or.inl ⟨_, rfl⟩

/-! ## The bounds of a total -/

/-- The total of an entity as `OrderMongoRepository.update` recomputes it,
when `cantidad`, `precio` and `descuento` have finite numeric values. -/
theorem OrderMongoRepository.recalcularTotal_of_numeric (e : Order) (cantidad precio descuento : ℚ)
    (hc : e.cantidad.toNumber = .fin cantidad) (hp : e.precio.toNumber = .fin precio)
    (hd : e.descuento.toNumber = .fin descuento) :
    OrderMongoRepository.recalcularTotal e = .fin (precio * cantidad * (1 - descuento / 100)) := by
  have e1 : precio * cantidad - precio * cantidad * (descuento / 100)
      = precio * cantidad * (1 - descuento / 100) := by ring
  simp [OrderMongoRepository.recalcularTotal, hc, hp, hd, JsNum.mul, JsNum.sub, JsNum.div100, e1]

/-- A request that `updateOrder` accepts (it resolves against a repository
whose writes resolve) is handed to the repository as one entity, under the id
asked for, whose `total` is the total that `OrderMongoRepository.update`
recomputes from that entity. -/
theorem updateOrder_of_accepted (h : Host) (id : String) (orderData : OrderData)
    (existingOrder : Order) (log : List OrderWrite) (r : Option Order)
    (hres : (OrderService.updateOrder
      (recordingOrderRepository { getById := some existingOrder }) h id orderData log).1
        = .ok r) :
    ∃ e : Order,
      (∀ (σ : Type) (repo : OrderRepository σ) (s s1 : σ),
        repo.getById (.str id) s = (.ok (some existingOrder), s1) →
        OrderService.updateOrder repo h id orderData s = repo.update (.str id) e s1) ∧
      e.total = .num (OrderMongoRepository.recalcularTotal e) ∧
      e.cantidad = orderData.cantidad.or existingOrder.cantidad ∧
      e.precio = orderData.precio.or existingOrder.precio ∧
      e.descuento = (if orderData.descuento ≠ .undefined then orderData.descuento
        else existingOrder.descuento) := by
  cases h1 : (orderData.cantidad.toBoolean && orderData.cantidad.le (.lit 0))
  case true =>
    simp only [OrderService.updateOrder, recordingOrderRepository, h1] at hres
    simp at hres
  cases h2 : (orderData.precio.toBoolean && orderData.precio.le (.lit 0))
  case true =>
    simp only [OrderService.updateOrder, recordingOrderRepository, h1, h2] at hres
    simp at hres
  cases h3 : (decide (orderData.descuento ≠ .undefined) &&
      (orderData.descuento.lt (.lit 0) || orderData.descuento.gt (.lit 100)))
  case true =>
    simp only [OrderService.updateOrder, recordingOrderRepository, h1, h2, h3] at hres
    simp at hres
  cases h4 : (orderData.fechaEntrega.toBoolean &&
      (newDate h orderData.fechaEntrega).lt h.hoyDate)
  case true =>
    simp only [OrderService.updateOrder, recordingOrderRepository, h1, h2, h3, h4] at hres
    simp at hres
  refine ⟨
    { id := .str id
      producto := orderData.producto.or existingOrder.producto
      descripcion := orderData.descripcion.or existingOrder.descripcion
      cantidad := orderData.cantidad.or existingOrder.cantidad
      precio := orderData.precio.or existingOrder.precio
      descuento :=
        if orderData.descuento ≠ .undefined then orderData.descuento
        else existingOrder.descuento
      total := .num (((orderData.precio.or existingOrder.precio).toNumber.mul
          (orderData.cantidad.or existingOrder.cantidad).toNumber).sub
        (((orderData.precio.or existingOrder.precio).toNumber.mul
          (orderData.cantidad.or existingOrder.cantidad).toNumber).mul
          (if orderData.descuento ≠ .undefined then orderData.descuento
            else existingOrder.descuento).toNumber.div100))
      cliente := orderData.cliente.or existingOrder.cliente
      estado := orderData.estado.or existingOrder.estado
      fechaEntrega :=
        if orderData.fechaEntrega.toBoolean then newDate h orderData.fechaEntrega
        else existingOrder.fechaEntrega },
    ?_, rfl, rfl, rfl, rfl⟩
  intro σ repo s s1 hfound
  simp only [OrderService.updateOrder, hfound, h1, h2, h3, h4]
  rfl

/-- The part of claim C28 that the code keeps: when the discount is supplied,
so that `cantidad > 0`, `precio > 0` and `0 <= descuento <= 100` are finite
numbers, the total `createOrder` puts in the entity is within
`[0, precio * cantidad]`, is 0 exactly when `descuento` is 100 and
`precio * cantidad` exactly when `descuento` is 0; and so is the total of the
entity `updateOrder` hands to the repository, over the entity's own `cantidad`,
`precio` and `descuento`. -/
theorem order_total_within_subtotal (h : Host) (cantidad precio descuento : ℚ)
    (hc0 : 0 < cantidad) (hp0 : 0 < precio) (hd0 : 0 ≤ descuento) (hd1 : descuento ≤ 100) :
    (∀ orderData : OrderData, orderData.cantidad.toNumber = .fin cantidad →
      orderData.precio.toNumber = .fin precio → orderData.descuento.toNumber = .fin descuento →
      (newDate h orderData.fechaEntrega).lt h.hoyDate = false →
      ∃ (e : Order) (total : ℚ), e.total = .lit total ∧
        (∀ (σ : Type) (repo : OrderRepository σ) (s : σ),
          OrderService.createOrder repo h orderData s = repo.create e s) ∧
        0 ≤ total ∧ total ≤ precio * cantidad ∧ (total = 0 ↔ descuento = 100) ∧
        (total = precio * cantidad ↔ descuento = 0)) ∧
    (∀ (id : String) (orderData : OrderData) (existingOrder : Order) (log : List OrderWrite)
      (r : Option Order),
      (OrderService.updateOrder
        (recordingOrderRepository { getById := some existingOrder }) h id orderData log).1
          = .ok r →
      (orderData.cantidad.or existingOrder.cantidad).toNumber = .fin cantidad →
      (orderData.precio.or existingOrder.precio).toNumber = .fin precio →
      (if orderData.descuento ≠ .undefined then orderData.descuento
        else existingOrder.descuento).toNumber = .fin descuento →
      ∃ (e : Order) (total : ℚ), e.total = .lit total ∧
        (∀ (σ : Type) (repo : OrderRepository σ) (s s1 : σ),
          repo.getById (.str id) s = (.ok (some existingOrder), s1) →
          OrderService.updateOrder repo h id orderData s = repo.update (.str id) e s1) ∧
        0 ≤ total ∧ total ≤ precio * cantidad ∧ (total = 0 ↔ descuento = 100) ∧
        (total = precio * cantidad ↔ descuento = 0)) := by
  have hsub : 0 < precio * cantidad := mul_pos hp0 hc0
  have hb0 : 0 ≤ precio * cantidad * (1 - descuento / 100) :=
    mul_nonneg hsub.le (by linarith)
  have hb1 : precio * cantidad * (1 - descuento / 100) ≤ precio * cantidad := by
    have : precio * cantidad * (1 - descuento / 100) ≤ precio * cantidad * 1 :=
      mul_le_mul_of_nonneg_left (by linarith) hsub.le
    linarith
  have hz : precio * cantidad * (1 - descuento / 100) = 0 ↔ descuento = 100 := by
    constructor
    · intro hx
      rcases mul_eq_zero.mp hx with hx1 | hx1
      · exact absurd hx1 hsub.ne'
      · linarith
    · intro hx; rw [hx]; norm_num
  have hfull : precio * cantidad * (1 - descuento / 100) = precio * cantidad ↔ descuento = 0 := by
    constructor
    · intro hx
      have hx1 : precio * cantidad * (descuento / 100) = 0 := by linarith
      rcases mul_eq_zero.mp hx1 with hx2 | hx2
      · exact absurd hx2 hsub.ne'
      · linarith
    · intro hx; rw [hx]; norm_num
  constructor
  · intro orderData hc hp hd hf
    refine ⟨{ id := .null
              producto := orderData.producto
              descripcion := orderData.descripcion
              cantidad := orderData.cantidad
              precio := orderData.precio
              descuento := orderData.descuento.or (.lit 0)
              total := .lit (precio * cantidad * (1 - descuento / 100))
              cliente := orderData.cliente
              estado := orderData.estado.or (.str "pendiente")
              fechaEntrega := newDate h orderData.fechaEntrega }, _, rfl, fun σ repo s => ?_,
      hb0, hb1, hz, hfull⟩
    have e1 : precio * cantidad - precio * cantidad * (descuento / 100)
        = precio * cantidad * (1 - descuento / 100) := by ring
    simp [OrderService.createOrder, JsVal.le_num, JsVal.lt_num, JsVal.gt_num, hc, hp, hd,
      JsNum.le_fin, JsNum.lt_fin, hf, not_le.mpr hc0, not_le.mpr hp0, not_lt.mpr hd0,
      not_lt.mpr hd1, JsNum.mul, JsNum.sub, JsNum.div100, JsVal.lit, e1]
  · intro id orderData existingOrder log r hres hc hp hd
    obtain ⟨e, hcall, htotal, hec, hep, hed⟩ :=
      updateOrder_of_accepted h id orderData existingOrder log r hres
    refine ⟨e, _, ?_, hcall, hb0, hb1, hz, hfull⟩
    rw [htotal, OrderMongoRepository.recalcularTotal_of_numeric e cantidad precio descuento
      (by rw [hec]; exact hc) (by rw [hep]; exact hp) (by rw [hed]; exact hd)]
    rfl

/-- Claim C28, the code at the request `minimalData` of the unit tests,
which `createOrder` accepts: the total of the entity handed to the repository
is `NaN`, so neither `0 <= total` nor `total <= precio * cantidad = 1000`
holds, and the total is not `precio * cantidad` although the entity's
`descuento` is 0. -/
theorem createOrder_accepted_total_outside_bounds :
    ∃ e : Order,
      OrderService.createOrder (recordingOrderRepository {}) sampleHost minimalData []
        = (.ok e, [.create e]) ∧
      e.precio = .lit 1000 ∧ e.cantidad = .lit 1 ∧ e.descuento = .lit 0 ∧
      e.total = .num .nan ∧
      (JsVal.lit 0).le e.total = false ∧ e.total.le (.lit 1000) = false ∧
      e.total ≠ .lit 1000 := by
  have hf : (newDate sampleHost (.str "2026-06-15")).lt sampleHost.hoyDate = false := by decide
  refine ⟨{ id := .null
            producto := .str "Laptop Dell XPS"
            descripcion := .str "High-end laptop"
            cantidad := .lit 1
            precio := .lit 1000
            descuento := .lit 0
            total := .num .nan
            cliente := .str "Juan Pérez"
            estado := .str "pendiente"
            fechaEntrega := ⟨some 1781481600000⟩ }, ?_, rfl, rfl, rfl, rfl, rfl, rfl, ?_⟩
  · simp [OrderService.createOrder, recordingOrderRepository, minimalData, JsVal.lit,
      JsVal.le_num, JsVal.lt_num, JsVal.gt_num, JsVal.toNumber, JsNum.le_fin, JsNum.lt, hf,
      JsNum.mul, JsNum.sub, JsNum.div100, JsVal.or, JsVal.toBoolean]
    rfl
  · intro hx
    simp [JsVal.lit] at hx
/-! ## The total in the persistence adapter -/

/-- Claim C29, as amended: `OrderMongoRepository.create` stores and returns
the `total` the entity carries, with the entity's `cantidad`, `precio` and
`descuento` (0 when the entity has none), and recomputes nothing; it is
`OrderMongoRepository.update`, on an id the collection holds, that stores and
returns the total recomputed from the entity, which is
`precio * cantidad * (1 - descuento / 100)` of the entity's finite numeric
`cantidad`, `precio` and `descuento`, whatever total the entity carried. -/
theorem orderMongo_create_keeps_total_update_recomputes (orderEntity : Order)
    (c : OrderCollection) :
    (∃ d : OrderDoc,
      OrderMongoRepository.create orderEntity c =
        (.ok (OrderMongoRepository.toEntity d), { docs := d :: c.docs, nextId := c.nextId + 1 }) ∧
      d.total = orderEntity.total ∧ d.cantidad = orderEntity.cantidad ∧
      d.precio = orderEntity.precio ∧
      d.descuento = schemaDefault (.lit 0) orderEntity.descuento) ∧
    (∀ (id : String) (d0 : OrderDoc), d0 ∈ c.docs → d0.oid = id →
      ∃ (d : OrderDoc) (c1 : OrderCollection),
        OrderMongoRepository.update (.str id) orderEntity c =
          (.ok (some (OrderMongoRepository.toEntity d)), c1) ∧
        OrderMongoRepository.findById (.str id) c1 = some d ∧
        d.total = .num (OrderMongoRepository.recalcularTotal orderEntity) ∧
        ∀ cantidad precio descuento : ℚ, orderEntity.cantidad.toNumber = .fin cantidad →
          orderEntity.precio.toNumber = .fin precio →
          orderEntity.descuento.toNumber = .fin descuento →
          d.total = .lit (precio * cantidad * (1 - descuento / 100))) := by
  constructor
  · exact ⟨_, rfl, rfl, rfl, rfl, rfl⟩
  · intro id d0 hmem hid
    refine ⟨OrderMongoRepository.setFields orderEntity
        (OrderMongoRepository.recalcularTotal orderEntity) d0, _,
      OrderMongoRepository.updateOrder_of_mem id orderEntity c d0 hmem hid,
      OrderMongoRepository.findOrder_after_setFields id orderEntity _ c d0 hmem hid, rfl, ?_⟩
    intro cantidad precio descuento hc hp hd
    simp only [OrderMongoRepository.setFields]
    rw [OrderMongoRepository.recalcularTotal_of_numeric orderEntity cantidad precio descuento
      hc hp hd]
    rfl

/-- Claim C29 as stated fails: the entity of the unit tests (2 units at 1500
with 10 percent) carrying the total 1 is stored and returned by `create` with
the total 1, not 2700. -/
theorem orderMongo_create_stores_carried_total :
    ∃ (r : Order) (c1 : OrderCollection),
      OrderMongoRepository.create { sampleOrder "pendiente" with id := .null, total := .lit 1 }
        noOrders = (.ok r, c1) ∧
      OrderMongoRepository.findById (.str "1") c1 =
        some { sampleOrderDoc "pendiente" with total := .lit 1 } ∧
      r.cantidad = .lit 2 ∧ r.precio = .lit 1500 ∧ r.descuento = .lit 10 ∧
      r.total = .lit 1 ∧ r.total ≠ .lit 2700 := by
  refine ⟨_, _, rfl, ?_, rfl, rfl, rfl, rfl, ?_⟩
  · decide
  · intro hx
    simp [sampleOrder, OrderMongoRepository.toEntity, JsVal.lit] at hx

/-! ## The two sites that compute a total -/

/-- Claim C30: for a stored order, (1) whenever `updateOrder` accepts a
payload, the `total` the service puts in the entity it hands to the repository
is the total `OrderMongoRepository.update` recomputes from that entity's
`precio`, `cantidad` and `descuento`, so the call against the Mongo adapter
stores and returns the service's total; and (2) when the order is neither
delivered nor cancelled and satisfies
`total = precio * cantidad * (1 - descuento / 100)`, `cancelOrder` against the
Mongo adapter stores and returns the order with `estado` `cancelado` and its
previous `total`. -/
theorem order_total_sites_agree (id : String) (c : OrderCollection) (d0 : OrderDoc)
    (hfind : OrderMongoRepository.findById (.str id) c = some d0) :
    (∀ (h : Host) (orderData : OrderData) (log : List OrderWrite) (r : Option Order),
      (OrderService.updateOrder
        (recordingOrderRepository { getById := some (OrderMongoRepository.toEntity d0) })
          h id orderData log).1 = .ok r →
      ∃ (e : Order) (d : OrderDoc) (c1 : OrderCollection),
        (∀ (σ : Type) (repo : OrderRepository σ) (s s1 : σ),
          repo.getById (.str id) s = (.ok (some (OrderMongoRepository.toEntity d0)), s1) →
          OrderService.updateOrder repo h id orderData s = repo.update (.str id) e s1) ∧
        e.total = .num (OrderMongoRepository.recalcularTotal e) ∧
        OrderService.updateOrder orderMongoRepository h id orderData c
          = (.ok (some (OrderMongoRepository.toEntity d)), c1) ∧
        OrderMongoRepository.findById (.str id) c1 = some d ∧
        d.total = e.total) ∧
    (∀ cantidad precio descuento : ℚ,
      d0.estado ≠ .str "entregado" → d0.estado ≠ .str "cancelado" →
      d0.cantidad.toNumber = .fin cantidad → d0.precio.toNumber = .fin precio →
      d0.descuento.toNumber = .fin descuento →
      d0.total = .lit (precio * cantidad * (1 - descuento / 100)) →
      ∃ (d : OrderDoc) (c1 : OrderCollection),
        OrderService.cancelOrder orderMongoRepository id c
          = (.ok (some (OrderMongoRepository.toEntity d)), c1) ∧
        OrderMongoRepository.findById (.str id) c1 = some d ∧
        d.estado = .str "cancelado" ∧ d.total = d0.total) := by
  obtain ⟨hmem, hid⟩ := OrderMongoRepository.findOrder_some hfind
  constructor
  · intro h orderData log r hres
    obtain ⟨e, hcall, htotal, -, -, -⟩ :=
      updateOrder_of_accepted h id orderData (OrderMongoRepository.toEntity d0) log r hres
    refine ⟨e, OrderMongoRepository.setFields e (OrderMongoRepository.recalcularTotal e) d0, _,
      hcall, htotal, ?_,
      OrderMongoRepository.findOrder_after_setFields id e _ c d0 hmem hid, ?_⟩
    · rw [hcall _ orderMongoRepository c c
        (by simp only [orderMongoRepository, OrderMongoRepository.getById, hfind])]
      exact OrderMongoRepository.updateOrder_of_mem id e c d0 hmem hid
    · rw [htotal]
      rfl
  · intro cantidad precio descuento he hc hcant hprec hdesc htot
    obtain ⟨ent, hent⟩ : ∃ ent : Order, ent =
        { id := .str id
          producto := d0.producto
          descripcion := d0.descripcion
          cantidad := d0.cantidad
          precio := d0.precio
          descuento := d0.descuento
          total := d0.total
          cliente := d0.cliente
          estado := .str "cancelado"
          fechaEntrega := d0.fechaEntrega } := ⟨_, rfl⟩
    have hrec : OrderMongoRepository.recalcularTotal ent
        = .fin (precio * cantidad * (1 - descuento / 100)) :=
      OrderMongoRepository.recalcularTotal_of_numeric ent cantidad precio descuento
        (by rw [hent]; exact hcant) (by rw [hent]; exact hprec) (by rw [hent]; exact hdesc)
    refine ⟨OrderMongoRepository.setFields ent (OrderMongoRepository.recalcularTotal ent) d0, _,
      ?_, OrderMongoRepository.findOrder_after_setFields id ent _ c d0 hmem hid, ?_, ?_⟩
    · simp only [OrderService.cancelOrder, orderMongoRepository, OrderMongoRepository.getById,
        hfind, OrderMongoRepository.toEntity, he, hc, if_false, ← hent]
      exact OrderMongoRepository.updateOrder_of_mem id ent c d0 hmem hid
    · simp only [OrderMongoRepository.setFields, hent]
    · simp only [OrderMongoRepository.setFields, hrec, htot]
      rfl

/-- The pending order of the unit tests, stored with the total 2700 of its
2 units at 1500 with 10 percent: cancelling it against the Mongo adapter keeps
the total 2700. -/
theorem order_total_sites_agree_witness :
    ∃ (d : OrderDoc) (c1 : OrderCollection),
      OrderService.cancelOrder orderMongoRepository "1" (sampleOrders "pendiente")
        = (.ok (some (OrderMongoRepository.toEntity d)), c1) ∧
      OrderMongoRepository.findById (.str "1") c1 = some d ∧
      d.estado = .str "cancelado" ∧ d.total = .lit 2700 :=
  (order_total_sites_agree "1" (sampleOrders "pendiente") (sampleOrderDoc "pendiente")
    (by decide)).2 2 1500 10 (by decide) (by decide) rfl rfl rfl
    (by norm_num [sampleOrderDoc, JsVal.lit])

end Modulo3
